import Mathlib

/-!
# SupFoodie WhatsApp ordering bot: conversation and order lifecycle

A shallow embedding of `src/index.js`.

* JavaScript numbers that hold prices, quantities, estimated times and amounts
  are values of `JsNum`: `NaN`, the infinities and the finite values, with every
  operation rounded to the nearest binary64 value (ties to even) as IEEE 754
  prescribes. Timestamps, which only come from `Date.now()`, are integers.
* The global objects `awaitingHotelId`, `menuItems`, `awaitingQuantity`,
  `awaitingOrderId`, `orders`, `hotelIds`, `userInteractionTimestamps` are
  insertion-ordered association lists keyed by the sender.
* MongoDB is a list of stored order documents (the position of a document is
  its identity) and an association list of menu collections.
* Everything the process cannot decide by itself (the clock, the random order
  id, whether an HTTP post, a database call or a gateway call fails) is read
  from an `Env` value that is fixed for the duration of one turn.
* An `await`ed turn is executed atomically.
-/

namespace SupFoodie

/-! ## JavaScript string and number helpers -/

/-- Decimal digits of a natural number, most significant first; `fuel` bounds the recursion. -/
def natDigitsAux : Nat → Nat → List Char
  | 0, _ => []
  | fuel + 1, n =>
    if n < 10 then [Char.ofNat (48 + n)]
    else natDigitsAux fuel (n / 10) ++ [Char.ofNat (48 + n % 10)]

/-- Decimal digits of a natural number. -/
def natDigits (n : Nat) : List Char := natDigitsAux (n + 1) n

/-- Template-literal rendering of an array index or a small counter: its decimal digits. -/
def natToString (n : Nat) : String := String.mk (natDigits n)

/-- The decimal numeral of an integer, as a user types it. -/
def intToString (x : Int) : String :=
  match x with
  | Int.ofNat n => String.mk (natDigits n)
  | Int.negSucc n => String.mk ('-' :: natDigits (n + 1))

/-- A JavaScript Number value: `NaN`, an infinity, or a finite value. The two zeros are one value
here: the source never divides by a zero that could be negative and renders both as `0`. -/
inductive JsNum where
  | nan
  | inf (negative : Bool)
  | fin (value : ℚ)
  deriving DecidableEq, Repr

namespace JsNum

/-- Binary logarithm with explicit fuel: the number of halvings that bring [n] below 2. -/
def log2Fuel : Nat → Nat → Nat
  | 0, _ => 0
  | fuel + 1, n => if 2 ≤ n then log2Fuel fuel (n / 2) + 1 else 0

/-- Position of the leading binary digit of a natural number. -/
def log2 (n : Nat) : Nat := log2Fuel n n

/-- The binary exponent of a positive rational: the `e` with `2 ^ e ≤ x < 2 ^ (e + 1)`. -/
def exponent (x : ℚ) : Int :=
  if 1 ≤ x then (log2 ⌊x⌋₊ : Int)
  else -((log2 (⌈x⁻¹⌉₊ - 1) + 1 : Nat) : Int)

/-- The nearest binary64 value to a positive rational, ties to even; overflow gives `Infinity`. -/
def roundPos (x : ℚ) : JsNum :=
  let e := exponent x
  let t := max (e - 52) (-1074)
  let y := x / (2 : ℚ) ^ t
  let m := ⌊y⌋
  let f := y - m
  let m1 := if 1 / 2 < f ∨ (f = 1 / 2 ∧ m % 2 = 1) then m + 1 else m
  let v := (m1 : ℚ) * (2 : ℚ) ^ t
  if (2 : ℚ) ^ (1024 : ℕ) ≤ v then .inf false else .fin v

/-- The negation of a Number. -/
def neg : JsNum → JsNum
  | .nan => .nan
  | .inf s => .inf (!s)
  | .fin x => .fin (-x)

/-- The Number value for a real: the nearest binary64 value, ties to even. -/
def round (x : ℚ) : JsNum :=
  if x = 0 then .fin 0
  else if 0 < x then roundPos x
  else neg (roundPos (-x))

/-- The Number value of a mathematical integer. -/
def ofInt (n : Int) : JsNum := round n

/-- The operator `+` on Numbers. -/
def add : JsNum → JsNum → JsNum
  | .nan, _ => .nan
  | _, .nan => .nan
  | .inf a, .inf b => if a = b then .inf a else .nan
  | .inf a, .fin _ => .inf a
  | .fin _, .inf b => .inf b
  | .fin x, .fin y => round (x + y)

/-- The operator `*` on Numbers. -/
def mul : JsNum → JsNum → JsNum
  | .nan, _ => .nan
  | _, .nan => .nan
  | .inf a, .inf b => .inf (a != b)
  | .inf a, .fin y => if y = 0 then .nan else .inf (a != decide (y < 0))
  | .fin x, .inf b => if x = 0 then .nan else .inf (decide (x < 0) != b)
  | .fin x, .fin y => round (x * y)

/-- The operator `/` on Numbers; a zero divisor counts as `+0`. -/
def div : JsNum → JsNum → JsNum
  | .nan, _ => .nan
  | _, .nan => .nan
  | .inf _, .inf _ => .nan
  | .inf a, .fin y => .inf (a != decide (y < 0))
  | .fin _, .inf _ => .fin 0
  | .fin x, .fin y =>
    if y = 0 then (if x = 0 then .nan else .inf (decide (x < 0)))
    else round (x / y)

/-- The function `Math.ceil`. -/
def ceil : JsNum → JsNum
  | .fin x => .fin ⌈x⌉
  | x => x

/-- The operator `<` on Numbers: false when an operand is `NaN`. -/
def lt : JsNum → JsNum → Bool
  | .nan, _ => false
  | _, .nan => false
  | .inf a, .inf b => a && !b
  | .inf a, .fin _ => a
  | .fin _, .inf b => !b
  | .fin x, .fin y => decide (x < y)

/-- The function `isNaN` on Numbers. -/
def isNaN : JsNum → Bool
  | .nan => true
  | _ => false

instance : Add JsNum := ⟨add⟩
instance : Mul JsNum := ⟨mul⟩
instance : Div JsNum := ⟨div⟩
instance : LT JsNum := ⟨fun a b => lt a b = true⟩
instance (a b : JsNum) : Decidable (a < b) := inferInstanceAs (Decidable (lt a b = true))
instance (n : Nat) : OfNat JsNum n := ⟨.fin n⟩

/-- The least `k`, counted from `k`, with `1 ≤ x * 10 ^ k`; `fuel` bounds the search. -/
def leadingZeros (x : ℚ) : Nat → Nat → Nat
  | 0, k => k
  | fuel + 1, k => if 1 ≤ x * (10 : ℚ) ^ k then k else leadingZeros x fuel (k + 1)

/-- The `n` with `10 ^ (n - 1) ≤ x < 10 ^ n` for a positive rational `x`. -/
def decExponent (x : ℚ) : Int :=
  if 1 ≤ x then ((natDigits ⌊x⌋₊).length : Int)
  else 1 - (leadingZeros x 400 0 : Int)

/-- The candidate with `k` digits for the shortest decimal that reads back as `x`: the digit string
as a number and whether it carries into one more integer digit. -/
def shortestWith (x : ℚ) (n : Int) (k : Nat) : Option Nat :=
  let scale : ℚ := (10 : ℚ) ^ (n - k)
  let lo := ⌊x / scale⌋
  let hi := lo + 1
  let okLo := decide (round ((lo : ℚ) * scale) = .fin x)
  let okHi := decide (round ((hi : ℚ) * scale) = .fin x)
  let dLo := x - (lo : ℚ) * scale
  let dHi := (hi : ℚ) * scale - x
  if okLo ∧ okHi then
    (if dLo < dHi ∨ (dLo = dHi ∧ lo % 2 = 0) then some lo.toNat else some hi.toNat)
  else if okLo then some lo.toNat
  else if okHi then some hi.toNat
  else none

/-- The search for the least number of digits, from `k` upwards. -/
def shortestFrom (x : ℚ) (n : Int) : Nat → Nat → Nat × Nat
  | 0, k => (k, ⌊x / (10 : ℚ) ^ (n - k)⌋.toNat)
  | fuel + 1, k =>
    match shortestWith x n k with
    | some s => (k, s)
    | none => shortestFrom x n fuel (k + 1)

/-- The digits `s`, their number `k` and the exponent `n` of `Number::toString` for a positive value. -/
def shortest (x : ℚ) : List Char × Int :=
  let n := decExponent x
  let (k, s) := shortestFrom x n 17 1
  if s = 10 ^ k then (natDigits (10 ^ (k - 1)), n + 1) else (natDigits s, n)

/-- Drops the zeros at the end of a digit string, keeping at least one digit. -/
def stripZeros (digits : List Char) : List Char :=
  match (digits.reverse.dropWhile fun c => c = '0').reverse with
  | [] => ['0']
  | l => l

/-- The algorithm `Number::toString` (radix 10) for a positive finite value. -/
def posToString (x : ℚ) : List Char :=
  let (digits0, n) := shortest x
  let digits := stripZeros digits0
  let k : Int := digits.length
  if k ≤ n ∧ n ≤ 21 then digits ++ List.replicate (n - k).toNat '0'
  else if 0 < n ∧ n ≤ 21 then digits.take n.toNat ++ '.' :: digits.drop n.toNat
  else if -6 < n ∧ n ≤ 0 then '0' :: '.' :: List.replicate (-n).toNat '0' ++ digits
  else
    let e := n - 1
    let expo := (if e < 0 then ['e', '-'] else ['e', '+']) ++ natDigits e.natAbs
    match digits with
    | [d] => d :: expo
    | d :: rest => d :: '.' :: rest ++ expo
    | [] => expo

end JsNum

/-- Template-literal rendering of a Number: the `${x}` of the source. -/
def numToString : JsNum → String
  | .nan => "NaN"
  | .inf false => "Infinity"
  | .inf true => "-Infinity"
  | .fin x =>
    if x = 0 then "0"
    else if x < 0 then String.mk ('-' :: JsNum.posToString (-x))
    else String.mk (JsNum.posToString x)

/-- The white space that `parseInt` and `String.prototype.trim` strip. -/
def isJsWhitespace (c : Char) : Bool :=
  decide (c.toNat = 0x09 ∨ c.toNat = 0x0A ∨ c.toNat = 0x0B ∨ c.toNat = 0x0C ∨ c.toNat = 0x0D ∨
    c.toNat = 0x20 ∨ c.toNat = 0xA0 ∨ c.toNat = 0x1680 ∨
    (0x2000 ≤ c.toNat ∧ c.toNat ≤ 0x200A) ∨
    c.toNat = 0x2028 ∨ c.toNat = 0x2029 ∨ c.toNat = 0x202F ∨ c.toNat = 0x205F ∨
    c.toNat = 0x3000 ∨ c.toNat = 0xFEFF)

/-- Value of a character as a digit of the given radix, if it is one. -/
def digitValue (radix : Nat) (c : Char) : Option Nat :=
  let v : Option Nat :=
    if 48 ≤ c.toNat ∧ c.toNat ≤ 57 then some (c.toNat - 48)
    else if 97 ≤ c.toNat ∧ c.toNat ≤ 122 then some (c.toNat - 97 + 10)
    else if 65 ≤ c.toNat ∧ c.toNat ≤ 90 then some (c.toNat - 65 + 10)
    else none
  match v with
  | some d => if d < radix then some d else none
  | none => none

/-- Reads the longest prefix of digits; returns the accumulated value and whether a digit was read. -/
def readDigits (radix : Nat) : List Char → Nat → Bool → Nat × Bool
  | [], acc, seen => (acc, seen)
  | c :: cs, acc, seen =>
    match digitValue radix c with
    | some d => readDigits radix cs (acc * radix + d) true
    | none => (acc, seen)

/-- Splits off an optional sign: `true` when the sign is `-`. -/
def readSign : List Char → Bool × List Char
  | '-' :: cs => (true, cs)
  | '+' :: cs => (false, cs)
  | cs => (false, cs)

/-- Strips a `0x` / `0X` prefix and selects the radix as `parseInt` without a radix argument does. -/
def readRadix : List Char → Nat × List Char
  | '0' :: 'x' :: cs => (16, cs)
  | '0' :: 'X' :: cs => (16, cs)
  | cs => (10, cs)

/-- The mathematical integer that `parseInt(s)` reads, with its sign; `none` when no digit is read. -/
def parseMathInt (s : List Char) : Option Int :=
  let (neg, r1) := readSign (s.dropWhile isJsWhitespace)
  let (radix, r2) := readRadix r1
  match readDigits radix r2 0 false with
  | (v, true) => some (if neg then -(v : Int) else (v : Int))
  | (_, false) => none

/-- The function `parseInt(s)` of the source: the Number value of the integer read, that is the
nearest binary64 value (so `Infinity` from 309 digits on), or `NaN` when no digit is read. -/
def parseInt (s : List Char) : JsNum :=
  match parseMathInt s with
  | some n => JsNum.ofInt n
  | none => .nan

/-- The method `s.split('_')` of the source. -/
def splitUnderscore : List Char → List (List Char)
  | [] => [[]]
  | c :: cs =>
    if c = '_' then [] :: splitUnderscore cs
    else
      match splitUnderscore cs with
      | [] => [[c]]
      | p :: ps => (c :: p) :: ps

/-- The expression `message.split('_')[1]`; `none` is `undefined`. -/
def splitField1 (message : String) : Option String :=
  ((splitUnderscore message.data).get? 1).map String.mk

/-- The method `message.startsWith(p)`. -/
def startsWith (message p : String) : Bool := p.data.isPrefixOf message.data

/-- The method `s.toLowerCase()` on the characters that matter for the greeting test. -/
def toLowerCase (s : String) : String :=
  String.mk (s.data.map fun c => if 65 ≤ c.toNat ∧ c.toNat ≤ 90 then Char.ofNat (c.toNat + 32) else c)

/-- The method `s.trim()`. -/
def trim (s : String) : String :=
  String.mk ((s.data.dropWhile isJsWhitespace).reverse.dropWhile isJsWhitespace).reverse

/-! ## Insertion-ordered objects keyed by strings -/

/-- A JavaScript object used as a dictionary, enumerated in insertion order (the order `for ... in`
gives to keys that are not array indices, such as phone numbers of eleven or more digits). -/
abbrev Dict (α : Type) := List (String × α)

namespace Dict

/-- The read `obj[k]`; `none` is `undefined`. -/
def get {α : Type} (d : Dict α) (k : String) : Option α :=
  match d with
  | [] => none
  | (k', v) :: rest => if k' = k then some v else get rest k

/-- The assignment `obj[k] = v`: an existing key keeps its position. -/
def set {α : Type} (d : Dict α) (k : String) (v : α) : Dict α :=
  match d with
  | [] => [(k, v)]
  | (k', v') :: rest => if k' = k then (k, v) :: rest else (k', v') :: set rest k v

/-- The statement `delete obj[k]`. -/
def del {α : Type} (d : Dict α) (k : String) : Dict α :=
  match d with
  | [] => []
  | (k', v') :: rest => if k' = k then del rest k else (k', v') :: del rest k

end Dict

/-! ## Data model -/

/-- The entry `hotelIds[sender]`. -/
structure HotelConnection where
  hotelId : String
  timestamp : Int
  deriving DecidableEq, Repr

/-- An element of `menuItems[sender]`, as built by `loadMenuItems`. -/
structure MenuItem where
  id : String
  title : String
  price : JsNum
  category : String
  estimatedTime : JsNum
  deriving DecidableEq, Repr

/-- A document of a `menu_<hotelId>` collection (`menuItemSchema`). -/
structure MenuDoc where
  id : String
  title : String
  price : JsNum
  category : String
  availability : Bool
  estimatedTime : JsNum
  deriving DecidableEq, Repr

/-- An element of `orders[sender].items`: the object `{ ...item, quantity }`. -/
structure CartLine where
  id : String
  title : String
  price : JsNum
  category : String
  estimatedTime : JsNum
  quantity : JsNum
  deriving DecidableEq, Repr

/-- The entry `orders[sender]`. -/
structure Cart where
  items : List CartLine
  paymentLinkId : Option String
  paymentLink : Option String
  totalAmount : Option JsNum
  deriving DecidableEq, Repr

/-- The `status` enumeration of `orderSchema`. -/
inductive OrderStatus where
  | Pending | Accepted | Rejected | Cooking | Ready | Cancelled | Completed
  deriving DecidableEq, Repr

/-- The `paymentMethod` enumeration of `orderSchema`. -/
inductive PaymentMethod where
  | Cash | Online
  deriving DecidableEq, Repr

/-- The `paymentStatus` enumeration of `orderSchema`. -/
inductive PaymentStatus where
  | Pending | Paid | Failed
  deriving DecidableEq, Repr

/-- An element of the `items` array of `orderSchema`; the schema has no `category`. -/
structure OrderItem where
  id : String
  title : String
  price : JsNum
  quantity : JsNum
  estimatedTime : JsNum
  deriving DecidableEq, Repr

/-- A document of an `orders_<hotelId>` collection (`orderSchema`). -/
structure OrderDoc where
  sender : String
  items : List OrderItem
  orderId : String
  totalAmount : JsNum
  paymentMethod : PaymentMethod
  paymentStatus : PaymentStatus
  date : Int
  status : OrderStatus
  lastNotifiedStatus : OrderStatus
  deriving DecidableEq, Repr

/-- A stored order together with the hotel id of the collection that holds it. -/
structure StoredOrder where
  hotelId : String
  doc : OrderDoc
  deriving DecidableEq, Repr

/-- A row of an interactive list message. -/
structure Row where
  id : String
  title : String
  description : String
  deriving DecidableEq, Repr

/-- A section of an interactive list message. -/
structure Section where
  title : String
  rows : List Row
  deriving DecidableEq, Repr

/-- A reply button `{ id, title }`. -/
structure Button where
  id : String
  title : String
  deriving DecidableEq, Repr

/-- The payloads posted to the messaging API. -/
inductive Outbound where
  | text (recipient body : String)
  | template (recipient name : String)
  | buttons (recipient body : String) (buttons : List Button)
  | list (recipient header body : String) (footer : Option String) (actionKey button : String)
      (sections : List Section)
  deriving DecidableEq, Repr

/-- A call made to the payment gateway. -/
inductive GatewayCall where
  | create (amount : JsNum) (contact notesOrderId : String)
  | fetch (paymentLinkId : String)
  | cancel (paymentLinkId : String)
  deriving DecidableEq, Repr

/-- What one turn reads from outside the process. -/
structure Env where
  /-- The value of `Date.now()`. -/
  now : Int
  /-- The value of `generateOrderId()`. -/
  orderId : String
  /-- Whether the HTTP post of a payload succeeds. -/
  transport : Outbound → Bool
  /-- The error message of `save()` for the document at a position, `none` when it succeeds. -/
  saveError : Nat → Option String
  /-- Whether database queries (`find`, `findOne`, `listCollections`) succeed. -/
  readOk : Bool
  /-- The id and short url of `razorpay.paymentLink.create`, `none` when it throws. -/
  gatewayCreate : JsNum → String → Option (String × String)
  /-- The `status` of `razorpay.paymentLink.fetch`, `none` when it throws. -/
  gatewayFetch : String → Option String
  /-- Whether `razorpay.paymentLink.cancel` succeeds. -/
  gatewayCancelOk : String → Bool

/-- The process state, the database and the record of what was sent. -/
structure World where
  awaitingHotelId : Dict Bool
  menuItems : Dict (List MenuItem)
  awaitingQuantity : Dict MenuItem
  awaitingOrderId : Dict Bool
  orders : Dict Cart
  hotelIds : Dict HotelConnection
  userInteractionTimestamps : Dict Int
  /-- The collections `menu_<hotelId>`. -/
  menuDb : Dict (List MenuDoc)
  /-- The documents of the collections `orders_<hotelId>`. -/
  orderDb : List StoredOrder
  /-- The pending `setTimeout` callbacks: sender and firing time. -/
  timers : List (String × Int)
  /-- The payloads the messaging API accepted, oldest first. -/
  outbox : List Outbound
  /-- The payloads whose post failed (the error is logged and swallowed). -/
  dropped : List Outbound
  /-- The calls made to the payment gateway, oldest first. -/
  gatewayCalls : List GatewayCall

/-- The state at process start with a given database. -/
def World.init (menuDb : Dict (List MenuDoc)) (orderDb : List StoredOrder) : World :=
  { awaitingHotelId := [], menuItems := [], awaitingQuantity := [], awaitingOrderId := [],
    orders := [], hotelIds := [], userInteractionTimestamps := [],
    menuDb := menuDb, orderDb := orderDb, timers := [], outbox := [], dropped := [],
    gatewayCalls := [] }

/-- Outcome of a function that may throw: the state reached and, when it threw, `error.message`. -/
inductive Res where
  | ok (w : World)
  | threw (w : World) (message : String)

/-! ## Interaction window and the sending helpers -/

/-- The function `isHotelConnectionActive(sender)`. -/
def isHotelConnectionActive (w : World) (now : Int) (sender : String) : Bool :=
  match w.hotelIds.get sender with
  | some hotelConnection =>
    let elapsedTime := now - hotelConnection.timestamp
    decide (elapsedTime < 3600000)
  | none => false

/-- The function `updateLastInteraction(sender)`. -/
def updateLastInteraction (w : World) (now : Int) (sender : String) : World :=
  { w with userInteractionTimestamps := w.userInteractionTimestamps.set sender now }

/-- The function `getLastInteractionTimestamp(sender)`. -/
def getLastInteractionTimestamp (w : World) (sender : String) : Int :=
  (w.userInteractionTimestamps.get sender).getD 0

/-- The function `isWithin24Hours(timestamp)`. -/
def isWithin24Hours (now timestamp : Int) : Bool :=
  decide (now - timestamp < 24 * 60 * 60 * 1000)

/-- One `axios` post whose failure is caught and logged by the caller. -/
def post (env : Env) (w : World) (m : Outbound) : World :=
  if env.transport m then { w with outbox := w.outbox ++ [m] }
  else { w with dropped := w.dropped ++ [m] }

/-- The function `sendTextMessage(sender, text)`. -/
def sendTextMessage (env : Env) (w : World) (sender text : String) : World :=
  post env w (.text sender text)

/-- The function `sendTemplateMessage(sender, templateName)`. -/
def sendTemplateMessage (env : Env) (w : World) (sender templateName : String) : World :=
  post env w (.template sender templateName)

/-- The shared body of the interactive senders: post inside the 24-hour window, template outside. -/
def sendInWindow (env : Env) (w : World) (sender : String) (m : Outbound) : World :=
  let lastInteraction := getLastInteractionTimestamp w sender
  if isWithin24Hours env.now lastInteraction then post env w m
  else sendTemplateMessage env w sender "your_template_name"

/-- The function `sendReplyInteractive(sender, interactiveMessage)`. -/
def sendReplyInteractive (env : Env) (w : World) (sender : String) (m : Outbound) : World :=
  sendInWindow env w sender m

/-- The function `sendReplyWithButton(sender, reply, orderComplete = false)`. -/
def sendReplyWithButton (env : Env) (w : World) (sender reply : String)
    (orderComplete : Bool) : World :=
  let buttons : List Button :=
    if orderComplete then
      [⟨"OrderAgain", "Order Again"⟩, ⟨"MainMenu", "Main Menu"⟩,
       ⟨"DisconnectHotel", "Disconnect Hotel"⟩]
    else
      [⟨"TrackOrderStatus", "Check Order Status"⟩, ⟨"MainMenu", "Main Menu"⟩,
       ⟨"DisconnectHotel", "Disconnect Hotel"⟩]
  sendInWindow env w sender (.buttons sender reply buttons)

/-- The text of the follow-up that `sendReply` posts when `sendStatusButton` is true. -/
def statusButtonText : String :=
  "Click the button below to check your order status or disconnect the hotel.\nSend 'hi' to place a new order"

/-- The function `sendReply(sender, reply, sendStatusButton = true)`; nothing in its body can throw. -/
def sendReply (env : Env) (w : World) (sender reply : String) (sendStatusButton : Bool) : World :=
  let lastInteraction := getLastInteractionTimestamp w sender
  let w1 :=
    if isWithin24Hours env.now lastInteraction then sendTextMessage env w sender reply
    else sendTemplateMessage env w sender "your_template_name"
  if sendStatusButton then sendReplyWithButton env w1 sender statusButtonText false
  else w1

/-- The function `sendOrderOptions(sender, messageText)`. -/
def sendOrderOptions (env : Env) (w : World) (sender messageText : String) : World :=
  sendInWindow env w sender
    (.buttons sender
      (messageText ++ "\n\n*You can select more items from the menu which was sent earlier, or choose an option.*")
      [⟨"PlaceOrder", "Place Order"⟩, ⟨"EditOrder", "Edit Order"⟩])

/-- The function `sendReplyWithCancelOption(sender, reply, orderId)`. -/
def sendReplyWithCancelOption (env : Env) (w : World) (sender reply orderId : String) : World :=
  sendInWindow env w sender
    (.buttons sender reply
      [⟨"CancelOrder_" ++ orderId, "Cancel Order"⟩, ⟨"DisconnectHotel", "Disconnect Hotel"⟩])

/-- The function `sendPaymentLinkWithButtons(sender, paymentLink, totalAmount)`. -/
def sendPaymentLinkWithButtons (env : Env) (w : World) (sender paymentLink totalAmount : String) :
    World :=
  sendInWindow env w sender
    (.buttons sender
      ("Your total bill amount is ₹" ++ totalAmount ++
        ". Please click the link below to pay via Razorpay:\n\n" ++ paymentLink)
      [⟨"PaymentCompleted", "Payment Completed"⟩, ⟨"CancelOrder", "Cancel Order"⟩,
       ⟨"DisconnectHotel", "Disconnect Hotel"⟩])

/-- The function `sendReplyWithPaymentOptions(sender, orderSummary)`. -/
def sendReplyWithPaymentOptions (env : Env) (w : World) (sender orderSummary : String) : World :=
  sendReplyInteractive env w sender
    (.buttons sender (orderSummary ++ "\n\nPlease choose a payment method:")
      [⟨"PayOnline", "Pay Online"⟩, ⟨"PayCash", "Pay Cash"⟩,
       ⟨"DisconnectHotel", "Disconnect Hotel"⟩])

/-- The function `sendTrackOrderOptions(sender)`. -/
def sendTrackOrderOptions (env : Env) (w : World) (sender : String) : World :=
  sendReplyInteractive env w sender
    (.buttons sender "Choose an option to track your order:"
      [⟨"TrackCurrentOrder", "Track Current Order"⟩, ⟨"TrackOrderByID", "Track Order by ID"⟩,
       ⟨"DisconnectHotel", "Disconnect Hotel"⟩])

/-- The function `sendQuantityOptions(sender, item)`. -/
def sendQuantityOptions (env : Env) (w : World) (sender : String) (item : MenuItem) : World :=
  sendReplyInteractive env w sender
    (.list sender ("Select quantity for " ++ item.title) ("Choose a quantity for " ++ item.title ++ ":")
      none "action" "Select Quantity"
      [⟨"Quantities", (List.range 10).map fun i =>
          ⟨"Qty_" ++ natToString (i + 1), natToString (i + 1), ""⟩⟩])

/-- The function `sendCatalog(sender, extraMessage)`. -/
def sendCatalog (env : Env) (w : World) (sender extraMessage : String) : World :=
  sendReplyInteractive env w sender
    (.list sender "Welcome to Our Food Service" extraMessage none "action" "Choose an option"
      [⟨"Main Menu",
        [⟨"ViewMenu", "View Menu", "Browse our delicious menu items"⟩,
         ⟨"PlaceOrder", "Place Order", "Complete your current order"⟩,
         ⟨"EditOrder", "Edit Order", "Modify or remove items from your order"⟩,
         ⟨"TrackOrderStatus", "Track Order", "Track the status of your current order"⟩,
         ⟨"DisconnectHotel", "Disconnect Hotel", "Connect to a different hotel"⟩]⟩])

/-! ## Catalog, cart and order store operations -/

/-- The function `loadMenuItems(sender)`; a failing query leaves an empty catalog. -/
def loadMenuItems (env : Env) (w : World) (sender : String) : Res :=
  match w.hotelIds.get sender with
  | none => .threw w "Cannot read properties of undefined (reading 'hotelId')"
  | some conn =>
    if env.readOk then
      let items := ((w.menuDb.get conn.hotelId).getD []).filter fun d => d.availability
      let loaded : List MenuItem := items.map fun item =>
        ⟨item.id, item.title, item.price, item.category, item.estimatedTime⟩
      .ok { w with menuItems := w.menuItems.set sender loaded }
    else
      .ok { w with menuItems := w.menuItems.set sender [] }

/-- The grouping loop of `sendMenu`: categories in order of first occurrence. -/
def groupByCategory : List MenuItem → Dict (List MenuItem) → Dict (List MenuItem)
  | [], categories => categories
  | item :: rest, categories =>
    match categories.get item.category with
    | none => groupByCategory rest (categories.set item.category [item])
    | some l => groupByCategory rest (categories.set item.category (l ++ [item]))

/-- The chunking loop of `sendMenu`: slices of at most ten items. -/
def chunksOfTen : Nat → List MenuItem → List (List MenuItem)
  | 0, _ => []
  | fuel + 1, l => if l.isEmpty then [] else l.take 10 :: chunksOfTen fuel (l.drop 10)

/-- The payload `sendMenu` builds for one chunk; button and sections sit under the key `urri`. -/
def menuMessage (sender category : String) (chunkIndex : Nat) (chunk : List MenuItem) : Outbound :=
  let sectionTitle := if chunk.length > 1 then "Page " ++ natToString (chunkIndex + 1) else ""
  .list sender category ("Please choose an item from " ++ category ++ ":")
    (some "Select an item to add to your order") "urri" "Menu Items"
    [⟨sectionTitle, chunk.map fun item =>
        ⟨"Item_" ++ item.id, item.title, "₹" ++ numToString item.price⟩⟩]

/-- The inner loop of `sendMenu` over the chunks of one category. -/
def sendMenuChunks (env : Env) (sender category : String) :
    Nat → List (List MenuItem) → World → World
  | _, [], w => w
  | chunkIndex, chunk :: rest, w =>
    sendMenuChunks env sender category (chunkIndex + 1) rest
      (sendReplyInteractive env w sender (menuMessage sender category chunkIndex chunk))

/-- The outer loop of `sendMenu` over the categories. -/
def sendMenuCategories (env : Env) (sender : String) :
    List (String × List MenuItem) → World → World
  | [], w => w
  | (category, categoryItems) :: rest, w =>
    sendMenuCategories env sender rest
      (sendMenuChunks env sender category 0 (chunksOfTen categoryItems.length categoryItems) w)

/-- The function `sendMenu(sender)`. -/
def sendMenu (env : Env) (w : World) (sender : String) : World :=
  match w.menuItems.get sender with
  | none => sendReply env w sender "Menu is not available. Please try again later." true
  | some items =>
    if items.length = 0 then
      sendReply env w sender "Menu is not available. Please try again later." true
    else sendMenuCategories env sender (groupByCategory items []) w

/-- The function `sendEditOrderOptions(sender)`. -/
def sendEditOrderOptions (env : Env) (w : World) (sender : String) : World :=
  let order := match w.orders.get sender with
    | some cart => cart.items
    | none => []
  if order.length = 0 then sendReply env w sender "Your order is empty." true
  else
    sendReplyInteractive env w sender
      (.list sender "Edit Order" "Select an item to remove from your order:"
        (some "Choose an item to remove") "action" "Order Items"
        [⟨"Current Order", order.map fun item =>
            ⟨"Remove_" ++ item.id, item.title, "Quantity: " ++ numToString item.quantity⟩⟩])

/-- The accumulators of `sendOrderSummary` after its `forEach`. -/
structure SummaryAcc where
  orderSummary : String
  totalAmount : JsNum
  totalEstimatedTime : JsNum
  totalQuantity : JsNum
  deriving DecidableEq, Repr

/-- One iteration of the `forEach` of `sendOrderSummary`. -/
def summaryStep (acc : SummaryAcc) (item : CartLine) : SummaryAcc :=
  let itemTotal := item.price * item.quantity
  { orderSummary := acc.orderSummary ++
      (item.title ++ " x " ++ numToString item.quantity ++ " = ₹" ++ numToString itemTotal ++ "\n")
    totalAmount := acc.totalAmount + itemTotal
    totalEstimatedTime := acc.totalEstimatedTime + item.estimatedTime * item.quantity
    totalQuantity := acc.totalQuantity + item.quantity }

/-- The text `sendOrderSummary` hands to `sendReplyWithPaymentOptions` for a non-empty cart. -/
def orderSummaryText (items : List CartLine) : String :=
  let acc := items.foldl summaryStep ⟨"Order Summary:\n", 0, 0, 0⟩
  let s1 := acc.orderSummary ++ ("Total Amount: ₹" ++ numToString acc.totalAmount ++ "\n")
  s1 ++ ("Estimated Waiting Time: " ++
    numToString (JsNum.ceil (acc.totalEstimatedTime / acc.totalQuantity)) ++
    " minutes\n")

/-- The function `sendOrderSummary(sender)`. -/
def sendOrderSummary (env : Env) (w : World) (sender : String) : World :=
  match w.orders.get sender with
  | some cart =>
    if cart.items.length > 0 then
      sendReplyWithPaymentOptions env w sender (orderSummaryText cart.items)
    else
      sendReply env w sender "You have no items in your order.\nSend 'hi' to order something." true
  | none =>
    sendReply env w sender "You have no items in your order.\nSend 'hi' to order something." true

/-- The function `resetOrder(sender)`. -/
def resetOrder (w : World) (sender : String) : World :=
  { w with orders := w.orders.del sender }

/-- The cast of a cart line to the `items` sub-schema of `orderSchema`. -/
def CartLine.toOrderItem (l : CartLine) : OrderItem :=
  ⟨l.id, l.title, l.price, l.quantity, l.estimatedTime⟩

/-- The total that the `forEach` of `saveOrderToDatabase` and of the `PayOnline` branch accumulates. -/
def cartTotal (items : List CartLine) : JsNum :=
  items.foldl (fun totalAmount item => totalAmount + item.price * item.quantity) 0

/-- The function `saveOrderToDatabase(sender, orderId, paymentMethod, paymentStatus)`. -/
def saveOrderToDatabase (env : Env) (w : World) (sender orderId : String)
    (paymentMethod : PaymentMethod) (paymentStatus : PaymentStatus) : Res :=
  match w.hotelIds.get sender with
  | none => .threw w "Cannot read properties of undefined (reading 'hotelId')"
  | some conn =>
    match w.orders.get sender with
    | some cart =>
      if cart.items.length > 0 then
        let totalAmount := cartTotal cart.items
        let newOrder : OrderDoc :=
          { sender := sender, items := cart.items.map CartLine.toOrderItem, orderId := orderId,
            totalAmount := totalAmount, paymentMethod := paymentMethod,
            paymentStatus := paymentStatus, date := env.now, status := .Pending,
            lastNotifiedStatus := .Pending }
        match env.saveError w.orderDb.length with
        | some e => .threw w e
        | none => .ok (resetOrder { w with orderDb := w.orderDb ++ [⟨conn.hotelId, newOrder⟩] } sender)
      else .ok w
    | none => .ok w

/-- The query `Order.findOne({ orderId, sender })` on the collection of a hotel: position and document. -/
def findOrder (db : List StoredOrder) (hotelId orderId sender : String) :
    Option (Nat × OrderDoc) :=
  ((List.range db.length).zip db).findSome? fun p =>
    if p.2.hotelId = hotelId ∧ p.2.doc.orderId = orderId ∧ p.2.doc.sender = sender
    then some (p.1, p.2.doc) else none

/-- The query `Order.findOne({ sender }).sort({ date: -1 })`: the first document with the latest date. -/
def findLatestOrder (db : List StoredOrder) (hotelId sender : String) : Option OrderDoc :=
  (db.filter fun s => s.hotelId = hotelId ∧ s.doc.sender = sender).foldl
    (fun best s =>
      match best with
      | none => some s.doc
      | some b => if b.date < s.doc.date then some s.doc else some b)
    none

/-- The query of `checkForOrderUpdates`: the orders of a sender whose status differs from the notified one. -/
def findOrdersToUpdate (db : List StoredOrder) (hotelId sender : String) : List (Nat × OrderDoc) :=
  (((List.range db.length).zip db).filter fun p =>
    p.2.hotelId = hotelId ∧ p.2.doc.sender = sender ∧
      p.2.doc.status ≠ p.2.doc.lastNotifiedStatus).map fun p => (p.1, p.2.doc)

/-- The write of `order.save()` for a loaded document: the stored document at that position. -/
def updateOrder (db : List StoredOrder) (idx : Nat) (f : OrderDoc → OrderDoc) : List StoredOrder :=
  match db.get? idx with
  | some s => db.set idx { s with doc := f s.doc }
  | none => db

/-- The template-literal rendering of an order status. -/
def OrderStatus.toString : OrderStatus → String
  | .Pending => "Pending" | .Accepted => "Accepted" | .Rejected => "Rejected"
  | .Cooking => "Cooking" | .Ready => "Ready" | .Cancelled => "Cancelled"
  | .Completed => "Completed"

/-- The template-literal rendering of a payment method. -/
def PaymentMethod.toString : PaymentMethod → String
  | .Cash => "Cash" | .Online => "Online"

/-- The receipt text that `sendReceipt` builds for a stored order. -/
def receiptText (order : OrderDoc) : String :=
  let head := "Order Receipt:\nOrder ID: " ++ order.orderId ++ "\n\n"
  let lines := order.items.foldl (fun receiptMessage item =>
    receiptMessage ++ (item.title ++ " x " ++ numToString item.quantity ++ " = ₹" ++
      numToString (item.price * item.quantity) ++ "\n")) head
  let s1 := lines ++ ("\nTotal Amount: ₹" ++ numToString order.totalAmount ++ "\n")
  let s2 := s1 ++ ("Payment Method: " ++ order.paymentMethod.toString ++ "\n")
  let s3 := s2 ++ ("Order Status: " ++ order.status.toString ++ "\n")
  let totalEstimatedTime := order.items.foldl (fun t item => t + item.estimatedTime * item.quantity) 0
  let totalQuantity := order.items.foldl (fun t item => t + item.quantity) 0
  let s4 := s3 ++ ("*Your Order Will Be Ready in* : " ++
    numToString (JsNum.ceil (totalEstimatedTime / totalQuantity)) ++ " minutes\n")
  s4 ++ "\nThank you for your order!"

/-- The function `sendReceipt(sender, orderId)`. -/
def sendReceipt (env : Env) (w : World) (sender orderId : String) : World :=
  match w.hotelIds.get sender with
  | none =>
    sendReply env w sender "Something went wrong while generating your receipt. Please try again." true
  | some conn =>
    if env.readOk then
      match findOrder w.orderDb conn.hotelId orderId sender with
      | none => sendReply env w sender "Sorry, we couldn't find your order. Please try again." true
      | some (_, order) => sendReply env w sender (receiptText order) false
    else
      sendReply env w sender "Something went wrong while generating your receipt. Please try again." true

/-! ## Tracking, cancellation and the fulfillment notifier -/

/-- The `switch` shared by `trackOrderStatus` and `trackOrderByID`: message and `orderComplete`. -/
def trackingMessage : OrderStatus → String × Bool
  | .Accepted => ("Your order is confirmed.", false)
  | .Rejected => ("Sorry to say this, \nWe couldn't complete your order.\nSEND 'hi' to order again.", false)
  | .Cooking => ("Your food is being prepared.", false)
  | .Ready => ("Your order is ready. Please collect your item.", true)
  | .Cancelled => ("Your order was cancelled.", true)
  | .Completed => ("Your order has been completed. Thank you!", true)
  | .Pending => ("Wait while your order is being confirmed.", false)

/-- The reply both tracking functions send for a found order. -/
def sendTrackingReply (env : Env) (w : World) (sender : String) (order : OrderDoc) : World :=
  let (message, orderComplete) := trackingMessage order.status
  if order.status = .Pending then
    sendReplyWithCancelOption env w sender
      (message ++ "\nIf you wish to cancel your order, click the button below.") order.orderId
  else sendReplyWithButton env w sender message orderComplete

/-- The function `trackOrderStatus(sender)`. -/
def trackOrderStatus (env : Env) (w : World) (sender : String) : World :=
  match w.hotelIds.get sender with
  | none => sendReplyWithButton env w sender "Oops, something went wrong...." false
  | some conn =>
    if env.readOk then
      match findLatestOrder w.orderDb conn.hotelId sender with
      | some latestOrder => sendTrackingReply env w sender latestOrder
      | none => sendReplyWithButton env w sender "No orders found." false
    else sendReplyWithButton env w sender "Oops, something went wrong...." false

/-- The function `trackOrderByID(sender, orderId)`. -/
def trackOrderByID (env : Env) (w : World) (sender orderId : String) : World :=
  match w.hotelIds.get sender with
  | none => sendReplyWithButton env w sender "Oops, something went wrong...." false
  | some conn =>
    if env.readOk then
      match findOrder w.orderDb conn.hotelId orderId sender with
      | some (_, order) => sendTrackingReply env w sender order
      | none => sendReplyWithButton env w sender "No order found with the provided ID." false
    else sendReplyWithButton env w sender "Oops, something went wrong...." false

/-- The text of the refusal of `cancelOrder`. -/
def cannotCancelText : String :=
  "Cannot cancel the order. Either the order does not exist or it is not in a cancellable state."

/-- The function `cancelOrder(sender, orderId)`; a failing `save()` is logged and swallowed. -/
def cancelOrder (env : Env) (w : World) (sender orderId : String) : World :=
  match w.hotelIds.get sender with
  | none => sendReply env w sender "Oops, something went wrong...." true
  | some conn =>
    if env.readOk then
      match findOrder w.orderDb conn.hotelId orderId sender with
      | some (idx, order) =>
        if order.status = .Pending then
          let w1 :=
            match env.saveError idx with
            | none => { w with orderDb := updateOrder w.orderDb idx fun d => { d with status := .Cancelled } }
            | some _ => w
          sendReply env w1 sender ("Your order with ID " ++ orderId ++ " has been cancelled.") true
        else sendReply env w sender cannotCancelText true
      | none => sendReply env w sender cannotCancelText true
    else sendReply env w sender "Oops, something went wrong...." true

/-- The `switch` of `sendStatusUpdate`. -/
def statusUpdateMessage : OrderStatus → String
  | .Accepted => "Your order has been accepted!"
  | .Cooking => "Your food is being cooked!"
  | .Ready => "Your order is ready for pickup!"
  | .Rejected => "Unfortunately, your order was rejected."
  | .Cancelled => "Your order has been cancelled."
  | .Completed => "Your order has been completed. Thank you!"
  | .Pending => "There has been an update to your order status: " ++ OrderStatus.toString .Pending

/-- The function `sendStatusUpdate(sender, order, status)`. -/
def sendStatusUpdate (env : Env) (w : World) (sender : String) (status : OrderStatus) : World :=
  sendReply env w sender (statusUpdateMessage status) true

/-- The inner loop of `checkForOrderUpdates` over the documents the query returned. -/
def notifyOrders (env : Env) (sender : String) : List (Nat × OrderDoc) → World → World
  | [], w => w
  | (idx, order) :: rest, w =>
    let currentStatus := order.status
    let lastNotifiedStatus := order.lastNotifiedStatus
    if currentStatus ≠ lastNotifiedStatus then
      let w1 := sendStatusUpdate env w sender currentStatus
      let w2 :=
        match env.saveError idx with
        | none =>
          { w1 with orderDb :=
              updateOrder w1.orderDb idx fun d => { d with lastNotifiedStatus := currentStatus } }
        | some _ => w1
      notifyOrders env sender rest w2
    else notifyOrders env sender rest w

/-- The outer loop of `checkForOrderUpdates` over the keys of `hotelIds`; a failing query ends the tick. -/
def notifySenders (env : Env) : List (String × HotelConnection) → World → World
  | [], w => w
  | (sender, conn) :: rest, w =>
    if env.readOk then
      let ordersToUpdate := findOrdersToUpdate w.orderDb conn.hotelId sender
      notifySenders env rest (notifyOrders env sender ordersToUpdate w)
    else w

/-- The function `checkForOrderUpdates()`: one notifier tick. -/
def checkForOrderUpdates (env : Env) (w : World) : World :=
  notifySenders env w.hotelIds w

/-! ## The conversation turn -/

/-- Truthiness of an optional string property: present and not empty. -/
def truthy (s : Option String) : Bool :=
  match s with
  | some v => decide (v ≠ "")
  | none => false

/-- The in-place update `existingItem.quantity += quantity` on the first line with the given id. -/
def bumpFirst (id : String) (quantity : JsNum) : List CartLine → List CartLine
  | [] => []
  | l :: ls =>
    if l.id = id then { l with quantity := l.quantity + quantity } :: ls
    else l :: bumpFirst id quantity ls

/-- The add-or-update step of the quantity branch. -/
def addToCart (items : List CartLine) (item : MenuItem) (quantity : JsNum) : List CartLine :=
  match items.find? fun i => i.id = item.id with
  | some _ => bumpFirst item.id quantity items
  | none =>
    items ++ [⟨item.id, item.title, item.price, item.category, item.estimatedTime, quantity⟩]

/-- The `forEach` that builds the cart summary, the index starting at `index`. -/
def cartSummaryLines : Nat → List CartLine → String → String
  | _, [], acc => acc
  | index, cartItem :: rest, acc =>
    cartSummaryLines (index + 1) rest
      (acc ++ (natToString (index + 1) ++ ". " ++ cartItem.title ++ " x " ++
        numToString cartItem.quantity ++ " = ₹" ++
        numToString (cartItem.price * cartItem.quantity) ++ "\n"))

/-- The `setTimeout` armed when a hotel id is requested. -/
def armHotelIdTimeout (env : Env) (w : World) (sender : String) : World :=
  { w with timers := w.timers ++ [(sender, env.now + 300000)] }

/-- The callback of the hotel-id timeout. -/
def hotelIdTimeout (env : Env) (w : World) (sender : String) : World :=
  match w.awaitingHotelId.get sender with
  | some true =>
    sendReply env { w with awaitingHotelId := w.awaitingHotelId.del sender } sender
      "Hotel ID input timed out. Please send 'hi' to start again." false
  | _ => w

/-- The part of `handleIncomingMessage` taken when there is no active hotel connection. -/
def handleUnbound (env : Env) (w : World) (sender message : String) : World :=
  let w0 := { w with hotelIds := w.hotelIds.del sender }
  if toLowerCase message = "hi" ∨ toLowerCase message = "hii" ∨ toLowerCase message = "start" then
    let w1 := { w0 with awaitingHotelId := w0.awaitingHotelId.set sender true }
    let w2 := armHotelIdTimeout env w1 sender
    sendReply env w2 sender
      "Welcome! Please scan the QR code on the table or enter the Hotel ID to proceed:" false
  else
    let hotelId := trim message
    if env.readOk then
      let menuCollectionExists := (w0.menuDb.get hotelId).isSome
      if menuCollectionExists then
        let w1 := { w0 with hotelIds := w0.hotelIds.set sender ⟨hotelId, env.now⟩ }
        let w2 := { w1 with awaitingHotelId := w1.awaitingHotelId.del sender }
        match loadMenuItems env w2 sender with
        | .ok w3 => sendCatalog env w3 sender "Hotel ID verified. How can we assist you today?"
        | .threw w3 _ =>
          sendReply env { w3 with awaitingHotelId := w3.awaitingHotelId.set sender true } sender
            "Error validating Hotel ID. Please try again:" false
      else
        sendReply env { w0 with awaitingHotelId := w0.awaitingHotelId.set sender true } sender
          "Invalid Hotel ID. Please check the Hotel ID and try again:" false
    else
      sendReply env { w0 with awaitingHotelId := w0.awaitingHotelId.set sender true } sender
        "Error validating Hotel ID. Please try again:" false

/-- The branch of `handleIncomingMessage` taken while `awaitingQuantity[sender]` holds `item`. -/
def handleQuantity (env : Env) (w : World) (sender message : String) (item : MenuItem) : World :=
  let w0 := { w with awaitingQuantity := w.awaitingQuantity.del sender }
  if startsWith message "Qty_" then
    let quantity : JsNum :=
      match splitField1 message with
      | some s => parseInt s.data
      | none => .nan
    if quantity.isNaN = false ∧ quantity > 0 then
      let cart : Cart := (w0.orders.get sender).getD ⟨[], none, none, none⟩
      let cart1 := { cart with items := addToCart cart.items item quantity }
      let w1 := { w0 with orders := w0.orders.set sender cart1 }
      let cartSummary := cartSummaryLines 0 cart1.items "\nYour Current Order:\n"
      sendOrderOptions env w1 sender
        ("Added " ++ numToString quantity ++ " x " ++ item.title ++ " to your order." ++
          cartSummary ++
          "\nYou can select more items from the menu which was sent earlier, or choose an option.")
    else
      sendQuantityOptions env
        { w0 with awaitingQuantity := w0.awaitingQuantity.set sender item } sender item
  else
    sendQuantityOptions env
      { w0 with awaitingQuantity := w0.awaitingQuantity.set sender item } sender item

/-- The expression `sender.replace(/\D/g, '')`. -/
def digitsOnly (sender : String) : String :=
  String.mk (sender.data.filter fun c => decide (48 ≤ c.toNat ∧ c.toNat ≤ 57))

/-- The `PayCash` branch. -/
def handlePayCash (env : Env) (w : World) (sender : String) : Res :=
  let orderId := env.orderId
  match saveOrderToDatabase env w sender orderId .Cash .Pending with
  | .threw w1 e => .threw w1 e
  | .ok w1 =>
    let w2 := sendReceipt env w1 sender orderId
    .ok (sendReply env w2 sender "Your order has been placed and will be processed shortly." false)

/-- The `PayOnline` branch. -/
def handlePayOnline (env : Env) (w : World) (sender : String) : World :=
  match w.orders.get sender with
  | some cart =>
    if cart.items.length > 0 then
      let totalAmount := cartTotal cart.items
      let amount := totalAmount * 100
      let contact := digitsOnly sender
      let w1 := { w with gatewayCalls := w.gatewayCalls ++ [.create amount contact env.orderId] }
      match env.gatewayCreate amount contact with
      | some (id, shortUrl) =>
        let cart0 : Cart := (w1.orders.get sender).getD ⟨[], none, none, none⟩
        let cart1 : Cart :=
          { cart0 with paymentLinkId := some id, paymentLink := some shortUrl,
                       totalAmount := some totalAmount }
        let w2 := { w1 with orders := w1.orders.set sender cart1 }
        sendPaymentLinkWithButtons env w2 sender shortUrl (numToString totalAmount)
      | none => sendReply env w1 sender "Failed to create payment link. Please try again later." true
    else sendReply env w sender "Your order is empty. Please add items to your order." true
  | none => sendReply env w sender "Your order is empty. Please add items to your order." true

/-- The rendering of an optional property in a template literal. -/
def optText (s : Option String) : String := s.getD "undefined"

/-- The `PaymentCompleted` branch; every exception of its `try` block ends in the same reply. -/
def handlePaymentCompleted (env : Env) (w : World) (sender : String) : World :=
  match w.orders.get sender with
  | some cart =>
    if truthy cart.paymentLinkId then
      let paymentLinkId := cart.paymentLinkId.getD ""
      let w1 := { w with gatewayCalls := w.gatewayCalls ++ [.fetch paymentLinkId] }
      match env.gatewayFetch paymentLinkId with
      | none => sendReply env w1 sender "Failed to verify payment. Please try again later." true
      | some status =>
        if status = "paid" then
          let orderId := env.orderId
          match saveOrderToDatabase env w1 sender orderId .Online .Paid with
          | .threw w2 _ =>
            sendReply env w2 sender "Failed to verify payment. Please try again later." true
          | .ok w2 =>
            let w3 := sendReceipt env w2 sender orderId
            match w3.orders.get sender with
            | none =>
              -- `delete orders[sender].paymentLinkId` on a deleted entry throws a TypeError
              sendReply env w3 sender "Failed to verify payment. Please try again later." true
            | some cart3 =>
              let cart4 : Cart := { cart3 with paymentLinkId := none, paymentLink := none }
              let w4 := { w3 with orders := w3.orders.set sender cart4 }
              sendReply env w4 sender "Payment received successfully! Your order has been placed." false
        else
          let w2 := sendReply env w1 sender
            "Payment not completed yet. Please complete the payment using the link below." true
          sendPaymentLinkWithButtons env w2 sender (optText cart.paymentLink)
            (match cart.totalAmount with
             | some t => numToString t
             | none => "undefined")
    else sendReply env w sender "No payment link found. Please try placing the order again." true
  | none => sendReply env w sender "No payment link found. Please try placing the order again." true

/-- The `CancelOrder` branch: the order is reset before the payment link is looked up. -/
def handleCancelOrder (env : Env) (w : World) (sender : String) : World :=
  let w1 := resetOrder w sender
  let w2 := sendReply env w1 sender "Your order has been cancelled." true
  match w2.orders.get sender with
  | some cart =>
    if truthy cart.paymentLinkId then
      let paymentLinkId := cart.paymentLinkId.getD ""
      let w3 := { w2 with gatewayCalls := w2.gatewayCalls ++ [.cancel paymentLinkId] }
      if env.gatewayCancelOk paymentLinkId then
        let cart1 : Cart := { cart with paymentLinkId := none, paymentLink := none }
        { w3 with orders := w3.orders.set sender cart1 }
      else w3
    else w2
  | none => w2

/-- The `DisconnectHotel` branch. -/
def handleDisconnectHotel (env : Env) (w : World) (sender : String) : World :=
  let w1 := { w with hotelIds := w.hotelIds.del sender }
  let w2 := sendReply env w1 sender
    "You have been disconnected from the hotel. Please enter a new Hotel ID to proceed:" false
  let w3 := { w2 with awaitingHotelId := w2.awaitingHotelId.set sender true }
  armHotelIdTimeout env w3 sender

/-- The `Item_` branch; reading `find` of a missing catalog throws. -/
def handleItem (env : Env) (w : World) (sender message : String) : Res :=
  let itemId := splitField1 message
  match w.menuItems.get sender with
  | none => .threw w "Cannot read properties of undefined (reading 'find')"
  | some items =>
    match items.find? fun i => some i.id = itemId with
    | some item =>
      .ok (sendQuantityOptions env
        { w with awaitingQuantity := w.awaitingQuantity.set sender item } sender item)
    | none => .ok w

/-- The `Remove_` branch. -/
def handleRemove (env : Env) (w : World) (sender message : String) : World :=
  let itemId := splitField1 message
  match w.orders.get sender with
  | some cart =>
    let cart1 := { cart with items := cart.items.filter fun item => some item.id ≠ itemId }
    sendOrderOptions env { w with orders := w.orders.set sender cart1 } sender
      "Removed item from your order. You can select more items from the menu which was sent earlier, or choose an option."
  | none => w

/-- The body of the `try` block of `handleIncomingMessage(sender, message)`. -/
def handleBody (env : Env) (w : World) (sender message : String) : Res :=
  if (w.hotelIds.get sender).isNone ∨ isHotelConnectionActive w env.now sender = false then
    .ok (handleUnbound env w sender message)
  else
    match w.awaitingQuantity.get sender with
    | some item => .ok (handleQuantity env w sender message item)
    | none =>
      if w.awaitingOrderId.get sender = some true then
        let orderId := message
        .ok (trackOrderByID env { w with awaitingOrderId := w.awaitingOrderId.del sender } sender orderId)
      else if message = "ViewMenu" then .ok (sendMenu env w sender)
      else if message = "PlaceOrder" then .ok (sendOrderSummary env w sender)
      else if message = "EditOrder" then .ok (sendEditOrderOptions env w sender)
      else if message = "MainMenu" then .ok (sendCatalog env w sender "How can we assist you today?")
      else if message = "TrackOrderStatus" then .ok (sendTrackOrderOptions env w sender)
      else if message = "TrackCurrentOrder" then .ok (trackOrderStatus env w sender)
      else if message = "TrackOrderByID" then
        .ok (sendReply env { w with awaitingOrderId := w.awaitingOrderId.set sender true } sender
          "Please enter your Order ID:" false)
      else if startsWith message "Item_" then handleItem env w sender message
      else if startsWith message "Remove_" then .ok (handleRemove env w sender message)
      else if message = "OrderAgain" then
        .ok (sendCatalog env w sender "Would you like to place another order? Here is the menu:")
      else if startsWith message "CancelOrder_" then
        .ok (cancelOrder env w sender ((splitField1 message).getD "undefined"))
      else if message = "PayCash" then handlePayCash env w sender
      else if message = "PayOnline" then .ok (handlePayOnline env w sender)
      else if message = "PaymentCompleted" then .ok (handlePaymentCompleted env w sender)
      else if message = "CancelOrder" then .ok (handleCancelOrder env w sender)
      else if message = "DisconnectHotel" then .ok (handleDisconnectHotel env w sender)
      else .ok (sendReply env w sender "Sorry, I didn't understand that.\nPlease type 'Hi' to begin." true)

/-- The function `handleIncomingMessage(sender, message)` with its top-level `catch`. -/
def handleIncomingMessage (env : Env) (w : World) (sender message : String) : World :=
  match handleBody env w sender message with
  | .ok w1 => w1
  | .threw w1 e => sendReply env w1 sender ("An error occurred: " ++ e ++ ". Please try again.") true

/-- The message branch of the `POST /webhook` handler: record the interaction, then handle the text. -/
def webhook (env : Env) (w : World) (sender message : String) : World :=
  handleIncomingMessage env (updateLastInteraction w env.now sender) sender message

/-! ## Reference definitions that follow the wording of the specification -/

/-- The real number a finite Number stands for; zero for `NaN` and the infinities. -/
def JsNum.toRat : JsNum → ℚ
  | .fin x => x
  | _ => 0

/-- The Number is finite and an integer. -/
def JsNum.isInteger : JsNum → Bool
  | .fin x => decide (x.den = 1)
  | _ => false

/-- The constant `Number.MAX_SAFE_INTEGER`, `2 ^ 53 - 1`. -/
def maxSafeInteger : ℚ := 9007199254740991

/-- The total of the specification: the sum over the lines of price times quantity, over the
rationals. -/
def specTotal (items : List CartLine) : ℚ :=
  (items.map fun l => l.price.toRat * l.quantity.toRat).sum

/-- The waiting time of the specification: `ceil(Σ(estimate*qty) / Σ qty)` over the rationals. -/
def specAverageEstimatedTime (items : List CartLine) : Int :=
  ⌈(items.map fun l => l.estimatedTime.toRat * l.quantity.toRat).sum /
    (items.map fun l => l.quantity.toRat).sum⌉

/-- A cart on which the arithmetic of the source is exact: every price, estimated time and quantity
is an integer, and the sums of the absolute values of the products and of the quantities stay within
the safe integers. -/
def SafeCart (items : List CartLine) : Prop :=
  (∀ l ∈ items, l.price.isInteger = true ∧ l.estimatedTime.isInteger = true ∧
    l.quantity.isInteger = true) ∧
  (items.map fun l => |l.price.toRat * l.quantity.toRat|).sum ≤ maxSafeInteger ∧
  (items.map fun l => |l.estimatedTime.toRat * l.quantity.toRat|).sum ≤ maxSafeInteger ∧
  (items.map fun l => |l.quantity.toRat|).sum ≤ maxSafeInteger

/-- A cart on which the total of the source is exact: every price and quantity is an integer and the
sum of the absolute values of the products stays within the safe integers. -/
def SafeTotal (items : List CartLine) : Prop :=
  (∀ l ∈ items, l.price.isInteger = true ∧ l.quantity.isInteger = true) ∧
  (items.map fun l => |l.price.toRat * l.quantity.toRat|).sum ≤ maxSafeInteger

/-- A cart on which the amount in minor units is exact: every price and quantity is an integer and
one hundred times the sum of the absolute values of the products stays within the safe integers. -/
def SafeAmount (items : List CartLine) : Prop :=
  (∀ l ∈ items, l.price.isInteger = true ∧ l.quantity.isInteger = true) ∧
  100 * (items.map fun l => |l.price.toRat * l.quantity.toRat|).sum ≤ maxSafeInteger

instance (items : List CartLine) : Decidable (SafeAmount items) := by
  unfold SafeAmount; infer_instance

instance (items : List CartLine) : Decidable (SafeCart items) := by
  unfold SafeCart; infer_instance

instance (items : List CartLine) : Decidable (SafeTotal items) := by
  unfold SafeTotal; infer_instance

/-- The item lines of the order summary, after the heading. -/
def summaryLinesText (items : List CartLine) : String :=
  items.foldl (fun s l => s ++ (l.title ++ " x " ++ numToString l.quantity ++ " = ₹" ++
    numToString (l.price * l.quantity) ++ "\n")) "Order Summary:\n"

/-- The session and database part of a state: everything but the record of what was sent. -/
def World.session (w : World) : World := { w with outbox := [], dropped := [] }

/-- The lines of `orders[sender].items`, none when the sender has no entry. -/
def cartItems (w : World) (sender : String) : List CartLine :=
  match w.orders.get sender with
  | some cart => cart.items
  | none => []

/-- The cart line `{ ...item, quantity }`. -/
def MenuItem.toLine (item : MenuItem) (quantity : JsNum) : CartLine :=
  ⟨item.id, item.title, item.price, item.category, item.estimatedTime, quantity⟩

/-! ## Concrete inputs used to instantiate the theorems -/

/-- An environment in which every external call succeeds; the clock reads `now`. -/
def exampleEnv (now : Int) : Env :=
  { now := now, orderId := "48213377", transport := fun _ => true, saveError := fun _ => none,
    readOk := true, gatewayCreate := fun _ _ => some ("plink_1", "https://rzp.io/i/abc"),
    gatewayFetch := fun _ => some "paid", gatewayCancelOk := fun _ => true }

/-- A catalog item. -/
def burger : MenuItem := ⟨"b1", "Burger", 100, "Main", 10⟩

/-- A second catalog item. -/
def cola : MenuItem := ⟨"c1", "Cola", 50, "Drinks", 3⟩

/-- A sender bound to hotel `h1` at time 0, idle, with one line of cola in the cart. -/
def exampleWorld : World :=
  { World.init [("h1", [⟨"b1", "Burger", 100, "Main", true, 10⟩, ⟨"c1", "Cola", 50, "Drinks", true, 3⟩])] [] with
    hotelIds := [("919900000001", ⟨"h1", 0⟩)]
    menuItems := [("919900000001", [burger, cola])]
    orders := [("919900000001", ⟨[cola.toLine 1], none, none, none⟩)]
    userInteractionTimestamps := [("919900000001", 0)] }

/-- A stored order whose notified status has caught up with its status. -/
def settle (s : StoredOrder) : StoredOrder :=
  { s with doc := { s.doc with lastNotifiedStatus := s.doc.status } }

/-- The second store differs from the first at most by documents whose notified status caught up. -/
def Settles (db db1 : List StoredOrder) : Prop :=
  db1.length = db.length ∧
    ∀ (i : Nat) (d : StoredOrder), db[i]? = some d → db1[i]? = some d ∨ db1[i]? = some (settle d)

/-- No order of the sender in the collection of the hotel has a status that differs from the notified one. -/
def NoDrift (db : List StoredOrder) (hotelId sender : String) : Prop :=
  ∀ d ∈ db, d.hotelId = hotelId → d.doc.sender = sender → d.doc.status = d.doc.lastNotifiedStatus

/-- The three buttons that follow a plain reply sent with `sendStatusButton` true. -/
def statusButtons : List Button :=
  [⟨"TrackOrderStatus", "Check Order Status"⟩, ⟨"MainMenu", "Main Menu"⟩,
   ⟨"DisconnectHotel", "Disconnect Hotel"⟩]

/-- The text of the reply of `sendOrderSummary` for an empty cart. -/
def noItemsText : String := "You have no items in your order.\nSend 'hi' to order something."

/-- An order of the example sender that is being cooked while the last notice was for `Pending`. -/
def cookingOrder : OrderDoc :=
  { sender := "919900000001", items := [⟨"b1", "Burger", 100, 2, 10⟩], orderId := "48213377",
    totalAmount := 200, paymentMethod := .Cash, paymentStatus := .Pending, date := 500,
    status := .Cooking, lastNotifiedStatus := .Pending }

/-- The example sender, bound and idle with an empty cart, with one stored order being cooked. -/
def tickWorld : World :=
  { World.init [("h1", [⟨"b1", "Burger", 100, "Main", true, 10⟩])] [⟨"h1", cookingOrder⟩] with
    hotelIds := [("919900000001", ⟨"h1", 0⟩)]
    menuItems := [("919900000001", [burger])]
    userInteractionTimestamps := [("919900000001", 0)] }

/-- An environment in which every post to the messaging API fails. -/
def transportDownEnv (now : Int) : Env :=
  { exampleEnv now with transport := fun _ => false }

/-- An environment in which every `save()` fails with the given message. -/
def saveFailsEnv (now : Int) (e : String) : Env :=
  { exampleEnv now with saveError := fun _ => some e }

/-- The example sender, bound and idle, with two burgers and one cola in the cart and a payment link. -/
def cartWorld : World :=
  { World.init [("h1", [⟨"b1", "Burger", 100, "Main", true, 10⟩, ⟨"c1", "Cola", 50, "Drinks", true, 3⟩])] [] with
    hotelIds := [("919900000001", ⟨"h1", 0⟩)]
    menuItems := [("919900000001", [burger, cola])]
    orders := [("919900000001",
      ⟨[burger.toLine 2, cola.toLine 1], some "plink_1", some "https://rzp.io/i/abc", some 250⟩)]
    userInteractionTimestamps := [("919900000001", 0)] }

/-- The example sender, bound and idle, with one stored order that is still pending. -/
def pendingWorld : World :=
  { tickWorld with
    orderDb := [⟨"h1", { cookingOrder with status := .Pending }⟩] }

/-- The state in which every tenant binding has just been created: every timestamp is `now`. -/
def refreshBindings (now : Int) (w : World) : World :=
  { w with hotelIds := w.hotelIds.map fun p => (p.1, ⟨p.2.hotelId, now⟩) }

/-- The expression `parseInt(message.split('_')[1])` of the quantity branch. -/
def parseQuantity (message : String) : JsNum :=
  match splitField1 message with
  | some s => parseInt s.data
  | none => .nan

/-- The example sender of `tickWorld` after selecting the burger: a quantity is awaited. -/
def awaitingBurgerWorld : World :=
  { tickWorld with awaitingQuantity := [("919900000001", burger)] }

/-- An environment in which creating a payment link fails. -/
def gatewayDownEnv (now : Int) : Env :=
  { exampleEnv now with gatewayCreate := fun _ _ => none }

/-- A sender who greeted and is asked for a hotel id, with a cart left from an earlier binding. -/
def unboundWorld : World :=
  { cartWorld with hotelIds := [], awaitingHotelId := [("919900000001", true)], menuItems := [] }

/-- What the process holds about one sender: the entries of the seven global objects. -/
structure SenderView where
  awaitingHotelId : Option Bool
  menuItems : Option (List MenuItem)
  awaitingQuantity : Option MenuItem
  awaitingOrderId : Option Bool
  cart : Option Cart
  binding : Option HotelConnection
  lastInteraction : Option Int
  deriving DecidableEq, Repr

/-- The session state of a sender in a state of the process. -/
def World.view (w : World) (s : String) : SenderView :=
  { awaitingHotelId := w.awaitingHotelId.get s
    menuItems := w.menuItems.get s
    awaitingQuantity := w.awaitingQuantity.get s
    awaitingOrderId := w.awaitingOrderId.get s
    cart := w.orders.get s
    binding := w.hotelIds.get s
    lastInteraction := w.userInteractionTimestamps.get s }

/-- The state a possibly throwing function reached. -/
def Res.world : Res → World
  | .ok w => w
  | .threw w _ => w

/-- The error message of a function that threw. -/
def Res.error : Res → Option String
  | .ok _ => none
  | .threw _ e => some e

/-- Two states hold the same session for the sender and the same database. -/
def SameView (s : String) (w1 w2 : World) : Prop :=
  w1.view s = w2.view s ∧ w1.menuDb = w2.menuDb ∧ w1.orderDb = w2.orderDb

/-- Two lists grew from the given starts by the same elements. -/
def GrewAlike (p1 p2 l1 l2 : List Outbound) : Prop :=
  ∃ out, l1 = p1 ++ out ∧ l2 = p2 ++ out

/-- Two runs for one sender, started from states with outboxes `o1`, `o2` and failed posts `d1`, `d2`:
same session for the sender, same database, same messages sent and same posts failed since the start. -/
def Sim (s : String) (o1 o2 d1 d2 : List Outbound) (w1 w2 : World) : Prop :=
  SameView s w1 w2 ∧ GrewAlike o1 o2 w1.outbox w2.outbox ∧ GrewAlike d1 d2 w1.dropped w2.dropped

/-- The state `cartWorld` with a second sender who is bound to another hotel, has a cart, and is
being asked for a quantity and for an order id. -/
def twoSenderWorld : World :=
  { cartWorld with
    hotelIds := cartWorld.hotelIds ++ [("919900000002", ⟨"h2", 5⟩)]
    menuItems := cartWorld.menuItems ++ [("919900000002", [cola])]
    awaitingQuantity := [("919900000002", cola)]
    awaitingOrderId := [("919900000002", true)]
    orders := cartWorld.orders ++ [("919900000002", ⟨[cola.toLine 7], none, none, none⟩)]
    userInteractionTimestamps := cartWorld.userInteractionTimestamps ++ [("919900000002", 5)]
    outbox := [.text "919900000002" "earlier"] }

/-- The example sender, bound and idle, whose one stored order has been rejected. -/
def rejectedWorld : World :=
  { tickWorld with
    orderDb := [⟨"h1", { cookingOrder with status := .Rejected, lastNotifiedStatus := .Rejected }⟩] }

/-- The three buttons `sendReplyWithButton` attaches when `orderComplete` is true. -/
def orderAgainButtons : List Button :=
  [⟨"OrderAgain", "Order Again"⟩, ⟨"MainMenu", "Main Menu"⟩,
   ⟨"DisconnectHotel", "Disconnect Hotel"⟩]

/-- The two buttons `sendReplyWithCancelOption` attaches for an order id. -/
def cancelButtons (orderId : String) : List Button :=
  [⟨"CancelOrder_" ++ orderId, "Cancel Order"⟩, ⟨"DisconnectHotel", "Disconnect Hotel"⟩]

/-- A catalog item whose id is a prefix of the id of `coffee`. -/
def tea : MenuItem := ⟨"a", "Tea", 10, "Drinks", 5⟩

/-- A catalog item whose id contains an underscore. -/
def coffee : MenuItem := ⟨"a_b", "Coffee", 20, "Drinks", 5⟩

/-- A sender bound to hotel `h1` and idle, whose loaded catalog holds `tea` and `coffee`. -/
def underscoreWorld : World :=
  { World.init [("h1", [⟨"a", "Tea", 10, "Drinks", true, 5⟩, ⟨"a_b", "Coffee", 20, "Drinks", true, 5⟩])] [] with
    hotelIds := [("919900000001", ⟨"h1", 0⟩)]
    menuItems := [("919900000001", [tea, coffee])]
    userInteractionTimestamps := [("919900000001", 0)] }

/-- The state of `exampleWorld` (one cola in the cart) after the sender asked for a payment link,
then selected the burger and added five of them. -/
def linkThenAddWorld : World :=
  webhook (exampleEnv 30)
    (webhook (exampleEnv 20)
      (webhook (exampleEnv 10) exampleWorld "919900000001" "PayOnline")
      "919900000001" "Item_b1")
    "919900000001" "Qty_5"

/-- A quantity that the quantity branch can store: `Infinity` or a positive integer. -/
def QtyOk (q : JsNum) : Prop :=
  q = .inf false ∨ ∃ n : ℤ, 1 ≤ n ∧ q = .fin n

/-- The cart invariant: pairwise distinct item ids and every quantity `Infinity` or a positive
integer. -/
def CartOk (items : List CartLine) : Prop :=
  (items.map fun l => l.id).Nodup ∧ ∀ l ∈ items, QtyOk l.quantity

/-- A stored order has at least one line and every quantity is `Infinity` or a positive integer. -/
def DocOk (order : OrderDoc) : Prop :=
  order.items ≠ [] ∧ ∀ it ∈ order.items, QtyOk it.quantity

/-- Every document stored at position `n` or later is well formed: the documents saved since the
collection had `n` documents. -/
def DbOk (n : Nat) (db : List StoredOrder) : Prop :=
  ∀ (i : Nat) (d : StoredOrder), n ≤ i → db[i]? = some d → DocOk d.doc

/-- The invariant of the session of one sender together with the orders saved since process start. -/
def Inv (n : Nat) (s : String) (w : World) : Prop :=
  (∀ cart, w.orders.get s = some cart → CartOk cart.items) ∧
  ((w.awaitingQuantity.get s).isSome → w.awaitingOrderId.get s = none) ∧
  (∀ b, w.awaitingOrderId.get s = some b → b = true) ∧
  DbOk n w.orderDb

/-- The divisor of the average in `sendOrderSummary`: the accumulator `totalQuantity`. -/
def summaryDivisor (items : List CartLine) : JsNum :=
  (items.foldl summaryStep ⟨"Order Summary:\n", 0, 0, 0⟩).totalQuantity

/-- The divisor of the average in `sendReceipt`: the accumulator `totalQuantity`. -/
def receiptDivisor (order : OrderDoc) : JsNum :=
  order.items.foldl (fun t item => t + item.quantity) 0

/-- What can happen to the process: an inbound message, a tick of the notifier, a hotel-id timeout. -/
inductive Event where
  | message (env : Env) (sender message : String)
  | tick (env : Env)
  | timeout (env : Env) (sender : String)

/-- The state after one event. -/
def step (w : World) : Event → World
  | .message env sender message => webhook env w sender message
  | .tick env => checkForOrderUpdates env w
  | .timeout env sender => hotelIdTimeout env w sender

/-- The state after a sequence of events, oldest first. -/
def run (w : World) (events : List Event) : World :=
  events.foldl step w

/-- The menu collection of hotel `h1`: a burger and a cola, both available. -/
def exampleMenuDb : Dict (List MenuDoc) :=
  [("h1", [⟨"b1", "Burger", 100, "Main", true, 10⟩, ⟨"c1", "Cola", 50, "Drinks", true, 3⟩])]

/-- A sender greets, binds to `h1`, adds two burgers, then three more, then one cola; a notifier tick
and a hotel-id timeout happen in between. -/
def shoppingEvents : List Event :=
  [.message (exampleEnv 10) "919900000001" "hi",
   .message (exampleEnv 20) "919900000001" "h1",
   .message (exampleEnv 30) "919900000001" "Item_b1",
   .message (exampleEnv 40) "919900000001" "Qty_2",
   .tick (exampleEnv 45),
   .message (exampleEnv 50) "919900000001" "Item_b1",
   .message (exampleEnv 60) "919900000001" "Qty_3",
   .timeout (exampleEnv 300010) "919900000001",
   .message (exampleEnv 300020) "919900000001" "Item_c1",
   .message (exampleEnv 300030) "919900000001" "Qty_1"]

/-- A sender binds to `h1` and asks to track an order by id; the binding then expires, the sender
binds again and selects an item. -/
def trackingEvents : List Event :=
  [.message (exampleEnv 10) "919900000001" "hi",
   .message (exampleEnv 20) "919900000001" "h1",
   .message (exampleEnv 30) "919900000001" "TrackOrderByID",
   .message (exampleEnv 4000000) "919900000001" "h1"]

/-- A catalog item of price 1. -/
def rice : MenuItem := ⟨"r1", "Rice", 1, "Main", 1⟩

/-- A second catalog item of price 1. -/
def water : MenuItem := ⟨"w1", "Water", 1, "Drinks", 1⟩

/-- The example sender, bound and idle, with `2 ^ 53` portions of rice and one water in the cart. -/
def hugeCartWorld : World :=
  { World.init [("h1", [⟨"r1", "Rice", 1, "Main", true, 1⟩, ⟨"w1", "Water", 1, "Drinks", true, 1⟩])] [] with
    hotelIds := [("919900000001", ⟨"h1", 0⟩)]
    menuItems := [("919900000001", [rice, water])]
    orders := [("919900000001",
      ⟨[rice.toLine 9007199254740992, water.toLine 1], none, none, none⟩)]
    userInteractionTimestamps := [("919900000001", 0)] }

/-- A catalog item whose price is the Number `1.1`. -/
def samosa : MenuItem := ⟨"s1", "Samosa", JsNum.round (11 / 10), "Snacks", 5⟩

/-- The example sender, bound and idle, with one samosa in the cart. -/
def fractionWorld : World :=
  { World.init [("h1", [⟨"s1", "Samosa", JsNum.round (11 / 10), "Snacks", true, 5⟩])] [] with
    hotelIds := [("919900000001", ⟨"h1", 0⟩)]
    menuItems := [("919900000001", [samosa])]
    orders := [("919900000001", ⟨[samosa.toLine 1], none, none, none⟩)]
    userInteractionTimestamps := [("919900000001", 0)] }

/-- The quantity reply `Qty_` followed by 309 nines. -/
def overflowQuantityMessage : String := "Qty_" ++ String.mk (List.replicate 309 '9')

/-- A sender greets, binds to `h1`, selects the burger and answers with a quantity of 309 digits. -/
def overflowEvents : List Event :=
  [.message (exampleEnv 10) "919900000001" "hi",
   .message (exampleEnv 20) "919900000001" "h1",
   .message (exampleEnv 30) "919900000001" "Item_b1",
   .message (exampleEnv 40) "919900000001" overflowQuantityMessage]

/-- An environment in which every database query fails. -/
def readFailsEnv (now : Int) : Env :=
  { exampleEnv now with readOk := false }

/-! ## Theorems -/

/-! ### Arithmetic of Numbers -/

theorem clog_two (N : ℕ) (h : 2 ≤ N) : Nat.clog 2 N = Nat.log 2 (N - 1) + 1 := by
  apply le_antisymm
  · rw [← Nat.le_pow_iff_clog_le (by norm_num)]
    have := Nat.lt_pow_succ_log_self (b := 2) (by norm_num) (N - 1)
    omega
  · have h1 : N - 1 < 2 ^ Nat.clog 2 N := by
      have := Nat.le_pow_clog (b := 2) (by norm_num) N
      omega
    have h2 : Nat.log 2 (N - 1) < Nat.clog 2 N :=
      Nat.log_lt_of_lt_pow (by omega) h1
    omega

theorem JsNum.log2Fuel_eq (fuel : ℕ) : ∀ n : ℕ, n ≤ fuel → JsNum.log2Fuel fuel n = Nat.log 2 n := by
  induction fuel with
  | zero =>
    intro n hn
    have : n = 0 := by omega
    subst this
    simp [JsNum.log2Fuel]
  | succ k ih =>
    intro n hn
    unfold JsNum.log2Fuel
    by_cases h2 : 2 ≤ n
    · rw [if_pos h2, ih (n / 2) (by omega), Nat.log_of_one_lt_of_le (by norm_num) h2]
    · rw [if_neg h2, Nat.log_of_lt (by omega)]

theorem JsNum.log2_eq (n : ℕ) : JsNum.log2 n = Nat.log 2 n :=
  JsNum.log2Fuel_eq n n le_rfl

theorem JsNum.exponent_eq_log (x : ℚ) (hx : 0 < x) : JsNum.exponent x = Int.log 2 x := by
  unfold JsNum.exponent Int.log
  by_cases h1 : 1 ≤ x
  · rw [if_pos h1, if_pos h1, JsNum.log2_eq]
  · rw [if_neg h1, if_neg h1]
    have hlt : x < 1 := not_le.mp h1
    have hinv : 1 < x⁻¹ := by
      rw [one_lt_inv₀ hx]; exact hlt
    have h2 : 2 ≤ ⌈x⁻¹⌉₊ := by
      have : 1 < ⌈x⁻¹⌉₊ := Nat.lt_ceil.mpr (by exact_mod_cast hinv)
      omega
    rw [clog_two _ h2, JsNum.log2_eq]

theorem JsNum.roundPos_grid (x : ℚ) (hx : 0 < x) (t : ℤ)
    (ht : t = max (Int.log 2 x - 52) (-1074))
    (m : ℤ) (hm : x = (m : ℚ) * (2 : ℚ) ^ t) (hov : x < (2 : ℚ) ^ (1024 : ℕ)) :
    JsNum.roundPos x = .fin x := by
  rw [← JsNum.exponent_eq_log x hx] at ht
  have h2 : ((2 : ℚ) ^ t) ≠ 0 := zpow_ne_zero _ (by norm_num)
  have hy : x / (2 : ℚ) ^ t = (m : ℚ) := by
    rw [hm]; field_simp
  unfold JsNum.roundPos
  simp only [← ht, hy, Int.floor_intCast, sub_self]
  have h3 : ¬ ((1 : ℚ) / 2 < 0 ∨ ((0 : ℚ) = 1 / 2 ∧ m % 2 = 1)) := by
    intro h
    rcases h with h | h
    · norm_num at h
    · norm_num at h
  rw [if_neg h3, ← hm, if_neg (not_le.mpr hov)]

theorem JsNum.log_nat (n : ℕ) : Int.log 2 (n : ℚ) = (Nat.log 2 n : ℤ) := Int.log_natCast 2 n

theorem JsNum.roundPos_nat (n : ℕ) (h1 : 1 ≤ n) (h2 : n < 2 ^ 53) :
    JsNum.roundPos (n : ℚ) = .fin (n : ℚ) := by
  have hlog : Nat.log 2 n < 53 := Nat.log_lt_of_lt_pow (by omega) h2
  obtain ⟨k, hk⟩ : ∃ k : ℕ, Nat.log 2 n + k = 52 := ⟨52 - Nat.log 2 n, by omega⟩
  have ht : (-(k : ℤ)) = max (Int.log 2 (n : ℚ) - 52) (-1074) := by
    rw [JsNum.log_nat]
    have : ((Nat.log 2 n : ℕ) : ℤ) - 52 = -(k : ℤ) := by omega
    rw [this]
    have hk2 : (k : ℤ) ≤ 52 := by omega
    rw [max_eq_left (by omega)]
  have hnpos : (0 : ℚ) < (n : ℚ) := by exact_mod_cast h1
  refine JsNum.roundPos_grid (n : ℚ) hnpos (-(k : ℤ)) ht ((n * 2 ^ k : ℕ) : ℤ) ?_ ?_
  · rw [zpow_neg, zpow_natCast]
    push_cast
    field_simp
  · have : (n : ℚ) < ((2 ^ 53 : ℕ) : ℚ) := by exact_mod_cast h2
    refine lt_trans this ?_
    norm_num

theorem JsNum.round_int (n : ℤ) (h : |n| < 2 ^ 53) : JsNum.round (n : ℚ) = .fin (n : ℚ) := by
  unfold JsNum.round
  by_cases h0 : (n : ℚ) = 0
  · rw [if_pos h0, h0]
  rw [if_neg h0]
  have hn0 : n ≠ 0 := fun e => h0 (by rw [e]; simp)
  by_cases hp : (0 : ℚ) < (n : ℚ)
  · rw [if_pos hp]
    have hp2 : 0 < n := by exact_mod_cast hp
    obtain ⟨k, rfl⟩ := Int.eq_ofNat_of_zero_le hp2.le
    have hk : k < 2 ^ 53 := by
      rw [abs_of_pos hp2] at h
      exact_mod_cast h
    have := JsNum.roundPos_nat k (by omega) hk
    simpa using this
  · rw [if_neg hp]
    have hneg : n < 0 := by
      rcases lt_trichotomy n 0 with h1 | h1 | h1
      · exact h1
      · exact absurd h1 hn0
      · exact absurd (by exact_mod_cast h1) hp
    obtain ⟨k, hk⟩ := Int.eq_ofNat_of_zero_le (neg_nonneg.mpr hneg.le)
    have hk2 : k < 2 ^ 53 := by
      rw [abs_of_neg hneg, hk] at h
      exact_mod_cast h
    have hk1 : 1 ≤ k := by omega
    have hq : -(n : ℚ) = (k : ℚ) := by
      have : ((-n : ℤ) : ℚ) = ((k : ℤ) : ℚ) := by rw [hk]
      simpa using this
    rw [hq, JsNum.roundPos_nat k hk1 hk2]
    simp only [JsNum.neg]
    rw [← hq, neg_neg]

theorem JsNum.ofInt_safe (n : ℤ) (h : |n| < 2 ^ 53) : JsNum.ofInt n = .fin (n : ℚ) :=
  JsNum.round_int n h

theorem JsNum.roundPos_nat_pos (n : ℕ) (h1 : 1 ≤ n) :
    JsNum.roundPos (n : ℚ) = .inf false ∨ ∃ m : ℤ, 1 ≤ m ∧ JsNum.roundPos (n : ℚ) = .fin m := by
  by_cases h2 : n < 2 ^ 53
  · exact Or.inr ⟨n, by exact_mod_cast h1, by rw [JsNum.roundPos_nat n h1 h2]; simp⟩
  · have h3 : 2 ^ 53 ≤ n := Nat.le_of_not_lt h2
    have hlog : 53 ≤ Nat.log 2 n := by
      by_contra hc
      have h4 : Nat.log 2 n < 53 := Nat.lt_of_not_le hc
      have h5 := Nat.lt_pow_succ_log_self (b := 2) (by norm_num) n
      have h6 : 2 ^ (Nat.log 2 n).succ ≤ 2 ^ 53 := Nat.pow_le_pow_right (by norm_num) (by omega)
      omega
    obtain ⟨k, hk⟩ : ∃ k : ℕ, Nat.log 2 n = 52 + k := ⟨Nat.log 2 n - 52, by omega⟩
    have hk1 : 1 ≤ k := by omega
    have hnpos : (0 : ℚ) < (n : ℚ) := by exact_mod_cast h1
    have ht : max (JsNum.exponent (n : ℚ) - 52) (-1074) = (k : ℤ) := by
      rw [JsNum.exponent_eq_log _ hnpos, Int.log_natCast, hk]
      push_cast
      rw [max_eq_left (by omega)]
      ring
    have hpow : (2 : ℚ) ^ (k : ℤ) = ((2 ^ k : ℕ) : ℚ) := by
      rw [zpow_natCast]; push_cast; rfl
    have hle : 2 ^ k ≤ n := by
      have h4 : 2 ^ Nat.log 2 n ≤ n := Nat.pow_log_le_self 2 (by omega)
      have h5 : 2 ^ k ≤ 2 ^ Nat.log 2 n := Nat.pow_le_pow_right (by norm_num) (by omega)
      exact le_trans h5 h4
    have hfloor : (1 : ℤ) ≤ ⌊(n : ℚ) / ((2 ^ k : ℕ) : ℚ)⌋ := by
      rw [Int.le_floor]
      have hpos : (0 : ℚ) < ((2 ^ k : ℕ) : ℚ) := by positivity
      rw [Int.cast_one, le_div_iff₀ hpos, one_mul]
      exact_mod_cast hle
    unfold JsNum.roundPos
    simp only [ht, hpow]
    split_ifs with ha hb hb
    · exact Or.inl rfl
    · refine Or.inr ⟨(⌊(n : ℚ) / ((2 ^ k : ℕ) : ℚ)⌋ + 1) * ((2 ^ k : ℕ) : ℤ), ?_, ?_⟩
      · have : (1 : ℤ) ≤ ((2 ^ k : ℕ) : ℤ) := by exact_mod_cast Nat.one_le_two_pow
        nlinarith
      · push_cast; rfl
    · exact Or.inl rfl
    · refine Or.inr ⟨⌊(n : ℚ) / ((2 ^ k : ℕ) : ℚ)⌋ * ((2 ^ k : ℕ) : ℤ), ?_, ?_⟩
      · have : (1 : ℤ) ≤ ((2 ^ k : ℕ) : ℤ) := by exact_mod_cast Nat.one_le_two_pow
        nlinarith
      · push_cast; rfl

theorem JsNum.zero_eq : (0 : JsNum) = .fin 0 := by
  show JsNum.fin ((0 : ℕ) : ℚ) = .fin 0
  simp

theorem JsNum.toRat_fin (x : ℚ) : (JsNum.fin x).toRat = x := rfl

theorem JsNum.ofNat_eq (n : Nat) : (OfNat.ofNat n : JsNum) = .fin (n : ℚ) := rfl

theorem JsNum.add_def (a b : JsNum) : a + b = JsNum.add a b := rfl

theorem JsNum.mul_def (a b : JsNum) : a * b = JsNum.mul a b := rfl

theorem JsNum.div_def (a b : JsNum) : a / b = JsNum.div a b := rfl

theorem JsNum.lt_def (a b : JsNum) : a < b ↔ JsNum.lt a b = true := Iff.rfl

theorem JsNum.round_nat_pos (n : ℤ) (h1 : 1 ≤ n) :
    JsNum.round (n : ℚ) = .inf false ∨ ∃ m : ℤ, 1 ≤ m ∧ JsNum.round (n : ℚ) = .fin m := by
  obtain ⟨k, rfl⟩ := Int.eq_ofNat_of_zero_le (by omega : 0 ≤ n)
  have hk : 1 ≤ k := by omega
  have hpos : (0 : ℚ) < ((k : ℤ) : ℚ) := by
    have : (0 : ℤ) < (k : ℤ) := by omega
    exact_mod_cast this
  unfold JsNum.round
  rw [if_neg (ne_of_gt hpos), if_pos hpos]
  have := JsNum.roundPos_nat_pos k hk
  simpa using this

theorem QtyOk.pos {q : JsNum} (h : QtyOk q) : 0 < q := by
  rw [JsNum.lt_def, JsNum.zero_eq]
  rcases h with h | ⟨n, hn, h⟩
  · rw [h]; rfl
  · rw [h]
    simp only [JsNum.lt, decide_eq_true_eq]
    exact_mod_cast (by omega : (0 : ℤ) < n)

theorem QtyOk.of_round (n : ℤ) (h : 1 ≤ n) : QtyOk (JsNum.round (n : ℚ)) := by
  rcases JsNum.round_nat_pos n h with h1 | ⟨m, hm, h1⟩
  · exact Or.inl h1
  · exact Or.inr ⟨m, hm, h1⟩

theorem JsNum.round_nonpos (n : ℤ) (h : n ≤ 0) : ¬ (0 < JsNum.round (n : ℚ)) := by
  rw [JsNum.lt_def, JsNum.zero_eq]
  unfold JsNum.round
  by_cases h0 : (n : ℚ) = 0
  · rw [if_pos h0]
    simp [JsNum.lt]
  · rw [if_neg h0]
    have hn : ¬ ((0 : ℚ) < (n : ℚ)) := by
      intro hc
      have : (0 : ℤ) < n := by exact_mod_cast hc
      omega
    rw [if_neg hn]
    have hn0 : n ≠ 0 := fun e => h0 (by rw [e]; simp)
    have h1 : 1 ≤ -n := by omega
    have hq : -(n : ℚ) = ((-n : ℤ) : ℚ) := by push_cast; rfl
    obtain ⟨k, hk⟩ := Int.eq_ofNat_of_zero_le (by omega : 0 ≤ -n)
    have hk1 : 1 ≤ k := by omega
    have hq2 : -(n : ℚ) = (k : ℚ) := by
      rw [hq, hk]; simp
    rw [hq2]
    rcases JsNum.roundPos_nat_pos k hk1 with h2 | ⟨m, hm, h2⟩
    · rw [h2]; simp [JsNum.neg, JsNum.lt]
    · rw [h2]
      simp only [JsNum.neg, JsNum.lt, decide_eq_true_eq, not_lt]
      have : ((m : ℤ) : ℚ) ≥ 0 := by exact_mod_cast (by omega : (0 : ℤ) ≤ m)
      linarith

theorem parseInt_qtyOk (s : List Char) (h1 : (parseInt s).isNaN = false) (h2 : 0 < parseInt s) :
    QtyOk (parseInt s) := by
  unfold parseInt at h1 h2 ⊢
  cases hp : parseMathInt s with
  | none =>
    rw [hp] at h1
    simp [JsNum.isNaN] at h1
  | some n =>
    rw [hp] at h2
    simp only [JsNum.ofInt] at h2 ⊢
    by_cases hn : 1 ≤ n
    · exact QtyOk.of_round n hn
    · exact absurd h2 (JsNum.round_nonpos n (by omega))

theorem QtyOk.add {a b : JsNum} (ha : QtyOk a) (hb : QtyOk b) : QtyOk (a + b) := by
  rw [JsNum.add_def]
  rcases ha with ha | ⟨n, hn, ha⟩ <;> rcases hb with hb | ⟨m, hm, hb⟩ <;> rw [ha, hb]
  · exact Or.inl rfl
  · exact Or.inl rfl
  · exact Or.inl rfl
  · simp only [JsNum.add]
    have := QtyOk.of_round (n + m) (by omega)
    simpa using this

theorem QtyOk.from_zero {b : JsNum} (hb : QtyOk b) : QtyOk (0 + b) := by
  rw [JsNum.add_def, JsNum.zero_eq]
  rcases hb with hb | ⟨m, hm, hb⟩ <;> rw [hb]
  · exact Or.inl rfl
  · simp only [JsNum.add]
    rw [zero_add]
    exact QtyOk.of_round m hm

theorem JsNum.isInteger_iff (x : JsNum) : x.isInteger = true ↔ ∃ n : ℤ, x = .fin n := by
  constructor
  · intro h
    cases x with
    | nan => simp [JsNum.isInteger] at h
    | inf s => simp [JsNum.isInteger] at h
    | fin q =>
      simp only [JsNum.isInteger, decide_eq_true_eq] at h
      exact ⟨q.num, by rw [Rat.coe_int_num_of_den_eq_one h]⟩
  · rintro ⟨n, rfl⟩
    simp [JsNum.isInteger]

theorem maxSafeInteger_lt (n : ℤ) (h : |(n : ℚ)| ≤ maxSafeInteger) : |n| < 2 ^ 53 := by
  have h1 : ((|n| : ℤ) : ℚ) ≤ 9007199254740991 := by
    rw [Int.cast_abs]; exact h
  have h2 : |n| ≤ 9007199254740991 := by exact_mod_cast h1
  have : (2 : ℤ) ^ 53 = 9007199254740992 := by norm_num
  omega

theorem JsNum.round_safe (n : ℤ) (h : |(n : ℚ)| ≤ maxSafeInteger) :
    JsNum.round (n : ℚ) = .fin (n : ℚ) :=
  JsNum.round_int n (maxSafeInteger_lt n h)

theorem JsNum.mul_int (a b : ℤ) (h : |(a : ℚ) * (b : ℚ)| ≤ maxSafeInteger) :
    JsNum.fin (a : ℚ) * JsNum.fin (b : ℚ) = .fin ((a : ℚ) * (b : ℚ)) := by
  rw [JsNum.mul_def]
  simp only [JsNum.mul]
  have := JsNum.round_safe (a * b) (by push_cast; exact h)
  simpa using this

theorem JsNum.add_int (a b : ℤ) (h : |(a : ℚ) + (b : ℚ)| ≤ maxSafeInteger) :
    JsNum.fin (a : ℚ) + JsNum.fin (b : ℚ) = .fin ((a : ℚ) + (b : ℚ)) := by
  rw [JsNum.add_def]
  simp only [JsNum.add]
  have := JsNum.round_safe (a + b) (by push_cast; exact h)
  simpa using this

theorem abs_sum_nonneg {α : Type} (f : α → ℚ) (l : List α) : 0 ≤ (l.map fun x => |f x|).sum := by
  apply List.sum_nonneg
  intro x hx
  simp only [List.mem_map] at hx
  obtain ⟨y, _, rfl⟩ := hx
  exact abs_nonneg _

/-- Exactness of the accumulation `t += f(item) * g(item)` on integers within the safe range. -/
theorem foldl_mul_exact {α : Type} (f g : α → JsNum) :
    ∀ (items : List α) (A : ℤ),
      (∀ l ∈ items, (f l).isInteger = true ∧ (g l).isInteger = true) →
      |(A : ℚ)| + (items.map fun l => |(f l).toRat * (g l).toRat|).sum ≤ maxSafeInteger →
      items.foldl (fun t l => t + f l * g l) (.fin (A : ℚ)) =
        .fin ((A : ℚ) + (items.map fun l => (f l).toRat * (g l).toRat).sum) := by
  intro items
  induction items with
  | nil => intro A _ _; simp
  | cons x xs ih =>
    intro A hint hb
    obtain ⟨hf, hg⟩ := hint x (List.mem_cons_self _ _)
    obtain ⟨p, hp⟩ := (JsNum.isInteger_iff _).mp hf
    obtain ⟨q, hq⟩ := (JsNum.isInteger_iff _).mp hg
    have hfx : (f x).toRat = (p : ℚ) := by rw [hp]; rfl
    have hgx : (g x).toRat = (q : ℚ) := by rw [hq]; rfl
    simp only [List.map_cons, List.sum_cons, List.foldl_cons, hfx, hgx] at hb ⊢
    rw [hp, hq]
    have hrest := abs_sum_nonneg (fun l => (f l).toRat * (g l).toRat) xs
    have hA := abs_nonneg (A : ℚ)
    have hpq := abs_nonneg ((p : ℚ) * (q : ℚ))
    have h1 : |(p : ℚ) * (q : ℚ)| ≤ maxSafeInteger := by linarith
    have h2 : |(A : ℚ) + ((p * q : ℤ) : ℚ)| ≤ maxSafeInteger := by
      push_cast
      have := abs_add (A : ℚ) ((p : ℚ) * (q : ℚ))
      linarith
    rw [JsNum.mul_int p q h1]
    have h3 : JsNum.fin ((p : ℚ) * (q : ℚ)) = JsNum.fin (((p * q : ℤ)) : ℚ) := by push_cast; rfl
    rw [h3, JsNum.add_int A (p * q) h2]
    have h4 : JsNum.fin ((A : ℚ) + ((p * q : ℤ) : ℚ)) = JsNum.fin (((A + p * q : ℤ)) : ℚ) := by
      push_cast; rfl
    rw [h4, ih (A + p * q) (fun l hl => hint l (List.mem_cons_of_mem _ hl))]
    · push_cast; rw [add_assoc]
    · push_cast
      have := abs_add (A : ℚ) ((p : ℚ) * (q : ℚ))
      linarith

/-- Exactness of the accumulation `t += g(item)` on integers within the safe range. -/
theorem foldl_add_exact {α : Type} (g : α → JsNum) :
    ∀ (items : List α) (A : ℤ),
      (∀ l ∈ items, (g l).isInteger = true) →
      |(A : ℚ)| + (items.map fun l => |(g l).toRat|).sum ≤ maxSafeInteger →
      items.foldl (fun t l => t + g l) (.fin (A : ℚ)) =
        .fin ((A : ℚ) + (items.map fun l => (g l).toRat).sum) := by
  intro items
  induction items with
  | nil => intro A _ _; simp
  | cons x xs ih =>
    intro A hint hb
    obtain ⟨q, hq⟩ := (JsNum.isInteger_iff _).mp (hint x (List.mem_cons_self _ _))
    have hgx : (g x).toRat = (q : ℚ) := by rw [hq]; rfl
    simp only [List.map_cons, List.sum_cons, List.foldl_cons, hgx] at hb ⊢
    rw [hq]
    have hrest := abs_sum_nonneg (fun l => (g l).toRat) xs
    have hA := abs_nonneg (A : ℚ)
    have hpq := abs_nonneg (q : ℚ)
    have h2 : |(A : ℚ) + (q : ℚ)| ≤ maxSafeInteger := by
      have := abs_add (A : ℚ) (q : ℚ)
      linarith
    rw [JsNum.add_int A q h2]
    have h4 : JsNum.fin ((A : ℚ) + (q : ℚ)) = JsNum.fin (((A + q : ℤ)) : ℚ) := by
      push_cast; rfl
    rw [h4, ih (A + q) (fun l hl => hint l (List.mem_cons_of_mem _ hl))]
    · push_cast; rw [add_assoc]
    · push_cast
      have := abs_add (A : ℚ) (q : ℚ)
      linarith

theorem cartTotal_exact (items : List CartLine) (h : SafeCart items) :
    cartTotal items = .fin (specTotal items) := by
  unfold cartTotal specTotal
  rw [JsNum.zero_eq]
  have := foldl_mul_exact (fun l : CartLine => l.price) (fun l => l.quantity) items 0
    (fun l hl => ⟨(h.1 l hl).1, (h.1 l hl).2.2⟩) (by simpa using h.2.1)
  simpa using this

/-- Rounding a quotient of two safe positive integers never crosses an integer. -/
theorem JsNum.roundPos_quotient (T Q : ℕ) (hT1 : 1 ≤ T) (hT : T < 2 ^ 53) (hQ1 : 1 ≤ Q)
    (hQ : Q < 2 ^ 53) :
    ∃ v : ℚ, JsNum.roundPos ((T : ℚ) / (Q : ℚ)) = .fin v ∧
      ∀ c : ℤ, ((c : ℚ) < (T : ℚ) / (Q : ℚ) → (c : ℚ) < v) ∧
        ((T : ℚ) / (Q : ℚ) < (c : ℚ) → v < (c : ℚ)) ∧
        ((T : ℚ) / (Q : ℚ) = (c : ℚ) → v = (c : ℚ)) := by
  have hQpos : (0 : ℚ) < (Q : ℚ) := by exact_mod_cast hQ1
  have hTpos : (0 : ℚ) < (T : ℚ) := by exact_mod_cast hT1
  set x : ℚ := (T : ℚ) / (Q : ℚ) with hx
  have hxpos : 0 < x := div_pos hTpos hQpos
  have hTq : (T : ℚ) < (2 : ℚ) ^ (53 : ℕ) := by exact_mod_cast hT
  have hQq : (Q : ℚ) < (2 : ℚ) ^ (53 : ℕ) := by exact_mod_cast hQ
  have hT1q : (1 : ℚ) ≤ (T : ℚ) := by exact_mod_cast hT1
  have hQ1q : (1 : ℚ) ≤ (Q : ℚ) := by exact_mod_cast hQ1
  -- the exponent
  have hlo : (2 : ℚ) ^ (Int.log 2 x) ≤ x := Int.zpow_log_le_self (by norm_num) hxpos
  have hhi : x < (2 : ℚ) ^ (Int.log 2 x + 1) := Int.lt_zpow_succ_log_self (by norm_num) x
  have hx53 : x < (2 : ℚ) ^ (53 : ℤ) := by
    have : x ≤ (T : ℚ) := div_le_self hTpos.le hQ1q
    have h2 : (2 : ℚ) ^ (53 : ℤ) = (2 : ℚ) ^ (53 : ℕ) := by norm_num
    rw [h2]; linarith
  have hxlow : (2 : ℚ) ^ (-53 : ℤ) < x := by
    have h1 : (1 : ℚ) / (Q : ℚ) ≤ x := by
      rw [hx]; exact div_le_div_of_nonneg_right hT1q hQpos.le
    have h2 : (2 : ℚ) ^ (-53 : ℤ) < 1 / (Q : ℚ) := by
      rw [zpow_neg, ← one_div]
      apply one_div_lt_one_div_of_lt hQpos
      have : (2 : ℚ) ^ (53 : ℤ) = (2 : ℚ) ^ (53 : ℕ) := by norm_num
      rw [this]; exact hQq
    exact lt_of_lt_of_le h2 h1
  have he1 : Int.log 2 x < 53 := by
    have := lt_of_le_of_lt hlo hx53
    exact (zpow_lt_zpow_iff_right₀ (by norm_num : (1 : ℚ) < 2)).mp this
  have he2 : -53 < Int.log 2 x + 1 := by
    have := lt_trans hxlow hhi
    exact (zpow_lt_zpow_iff_right₀ (by norm_num : (1 : ℚ) < 2)).mp this
  obtain ⟨k, hk⟩ : ∃ k : ℕ, (k : ℤ) = 52 - Int.log 2 x := ⟨(52 - Int.log 2 x).toNat, by omega⟩
  have ht : max (Int.log 2 x - 52) (-1074) = -(k : ℤ) := by
    rw [max_eq_left (by omega)]; omega
  set P : ℚ := (2 : ℚ) ^ k with hP
  have hPpos : 0 < P := by positivity
  have hpow : (2 : ℚ) ^ (-(k : ℤ)) = P⁻¹ := by
    rw [zpow_neg, zpow_natCast]
  -- Q < 2 * P because 2 ^ e * Q ≤ T < 2 ^ 53
  have hQP : (Q : ℚ) < 2 * P := by
    have h1 : (2 : ℚ) ^ (Int.log 2 x) * (Q : ℚ) ≤ (T : ℚ) := by
      have := mul_le_mul_of_nonneg_right hlo hQpos.le
      rwa [hx, div_mul_cancel₀ _ (ne_of_gt hQpos)] at this
    have h2 : (2 : ℚ) ^ (Int.log 2 x) * (2 * P) = (2 : ℚ) ^ (53 : ℕ) := by
      have h3 : (2 : ℚ) * P = (2 : ℚ) ^ ((k : ℤ) + 1) := by
        rw [zpow_add_one₀ (by norm_num), zpow_natCast, mul_comm]
      rw [h3, ← zpow_add₀ (by norm_num : (2 : ℚ) ≠ 0)]
      have : Int.log 2 x + ((k : ℤ) + 1) = 53 := by omega
      rw [this]; norm_num
    have h4 : (0 : ℚ) < (2 : ℚ) ^ (Int.log 2 x) := by positivity
    by_contra hc
    have h5 : 2 * P ≤ (Q : ℚ) := not_lt.mp hc
    have := mul_le_mul_of_nonneg_left h5 h4.le
    linarith
  -- the rounded value
  set y : ℚ := x * P with hy
  set m : ℤ := ⌊y⌋ with hm
  have hm_le : (m : ℚ) ≤ y := Int.floor_le y
  have hm_lt : y < (m : ℚ) + 1 := Int.lt_floor_add_one y
  have hxy : x / (2 : ℚ) ^ (-(k : ℤ)) = y := by
    rw [hpow, div_inv_eq_mul]
  have hx1 : x < (2 : ℚ) ^ (1024 : ℕ) - 1 := by
    have h2 : (2 : ℚ) ^ (53 : ℤ) = (2 : ℚ) ^ (53 : ℕ) := by norm_num
    rw [h2] at hx53
    have : (2 : ℚ) ^ (53 : ℕ) ≤ (2 : ℚ) ^ (1024 : ℕ) - 1 := by norm_num
    linarith
  have hP1 : 1 ≤ P := one_le_pow₀ (by norm_num)
  -- a difference between x and an integer is at least 1 / Q
  have hgap : ∀ c : ℤ, (c : ℚ) < x → 1 / (Q : ℚ) ≤ x - (c : ℚ) := by
    intro c hc
    have h1 : (c : ℚ) * (Q : ℚ) < (T : ℚ) := by
      rwa [hx, lt_div_iff₀ hQpos] at hc
    have h2 : c * (Q : ℤ) < (T : ℤ) := by exact_mod_cast h1
    have h3 : c * (Q : ℤ) + 1 ≤ (T : ℤ) := by omega
    have h4 : (c : ℚ) * (Q : ℚ) + 1 ≤ (T : ℚ) := by exact_mod_cast h3
    rw [hx, le_sub_iff_add_le, div_add' _ _ _ (ne_of_gt hQpos), div_le_div_iff₀ hQpos hQpos]
    nlinarith
  have hgap2 : ∀ c : ℤ, x < (c : ℚ) → 1 / (Q : ℚ) ≤ (c : ℚ) - x := by
    intro c hc
    have h1 : (T : ℚ) < (c : ℚ) * (Q : ℚ) := by
      rwa [hx, div_lt_iff₀ hQpos] at hc
    have h2 : (T : ℤ) < c * (Q : ℤ) := by exact_mod_cast h1
    have h3 : (T : ℤ) + 1 ≤ c * (Q : ℤ) := by omega
    have h4 : (T : ℚ) + 1 ≤ (c : ℚ) * (Q : ℚ) := by exact_mod_cast h3
    rw [hx, le_sub_iff_add_le, div_add_div_same, div_le_iff₀ hQpos]
    linarith
  have hhalf : (1 : ℚ) / 2 < P / (Q : ℚ) := by
    rw [div_lt_div_iff₀ (by norm_num) hQpos]
    linarith
  unfold JsNum.roundPos
  simp only [JsNum.exponent_eq_log x hxpos, ht, hxy]
  rw [hpow]
  by_cases hup : 1 / 2 < y - (m : ℚ) ∨ (y - (m : ℚ) = 1 / 2 ∧ m % 2 = 1)
  · -- rounds up
    rw [if_pos hup]
    have hf : (1 : ℚ) / 2 ≤ y - (m : ℚ) := by
      rcases hup with h | h
      · exact h.le
      · exact h.1.ge
    have hv : (((m + 1 : ℤ)) : ℚ) * P⁻¹ ≤ x + 1 := by
      rw [← div_eq_mul_inv, div_le_iff₀ hPpos]
      push_cast
      have : (x + 1) * P = y + P := by rw [hy]; ring
      rw [this]; linarith
    rw [if_neg (by rw [not_le]; linarith)]
    refine ⟨_, rfl, fun c => ⟨?_, ?_, ?_⟩⟩
    · intro hc
      have h1 : ((c * 2 ^ k : ℤ) : ℚ) ≤ y := by
        push_cast; rw [hy, ← hP]
        exact (mul_lt_mul_of_pos_right hc hPpos).le
      have h2 : c * 2 ^ k ≤ m := Int.le_floor.mpr h1
      have h3 : (c : ℚ) * P ≤ (m : ℚ) := by
        have : ((c * 2 ^ k : ℤ) : ℚ) ≤ (m : ℚ) := by exact_mod_cast h2
        rw [hP]; push_cast at this; exact this
      rw [← div_eq_mul_inv, lt_div_iff₀ hPpos]
      push_cast; linarith
    · intro hc
      have h1 : y < ((c * 2 ^ k : ℤ) : ℚ) := by
        push_cast; rw [hy, ← hP]
        exact mul_lt_mul_of_pos_right hc hPpos
      have h2 : m < c * 2 ^ k := Int.floor_lt.mpr h1
      have h3 : (m : ℚ) + 1 ≤ (c : ℚ) * P := by
        have : m + 1 ≤ c * 2 ^ k := by omega
        have : ((m + 1 : ℤ) : ℚ) ≤ ((c * 2 ^ k : ℤ) : ℚ) := by exact_mod_cast this
        rw [hP]; push_cast at this; exact this
      by_cases h4 : (m : ℚ) + 1 = (c : ℚ) * P
      · exfalso
        have h5 := hgap2 c hc
        have h6 : y - (m : ℚ) = 1 - ((c : ℚ) - x) * P := by rw [hy]; linarith
        have h7 : P / (Q : ℚ) ≤ ((c : ℚ) - x) * P := by
          rw [div_eq_mul_one_div, mul_comm]
          exact mul_le_mul_of_nonneg_right h5 hPpos.le
        linarith
      · have h5 : (m : ℚ) + 1 < (c : ℚ) * P := lt_of_le_of_ne h3 h4
        rw [← div_eq_mul_inv, div_lt_iff₀ hPpos]
        push_cast; exact h5
    · intro hc
      exfalso
      have h1 : y = ((c * 2 ^ k : ℤ) : ℚ) := by
        push_cast; rw [hy, ← hP, hc]
      have h2 : (m : ℚ) = y := by
        rw [hm, h1, Int.floor_intCast]
      linarith
  · rw [if_neg hup]
    have hv : (m : ℚ) * P⁻¹ ≤ x := by
      rw [← div_eq_mul_inv, div_le_iff₀ hPpos]
      exact hm_le
    rw [if_neg (by rw [not_le]; linarith)]
    refine ⟨_, rfl, fun c => ⟨?_, ?_, ?_⟩⟩
    · intro hc
      have h1 : ((c * 2 ^ k : ℤ) : ℚ) ≤ y := by
        push_cast; rw [hy, ← hP]
        exact (mul_lt_mul_of_pos_right hc hPpos).le
      have h2 : c * 2 ^ k ≤ m := Int.le_floor.mpr h1
      have h3 : (c : ℚ) * P ≤ (m : ℚ) := by
        have : ((c * 2 ^ k : ℤ) : ℚ) ≤ (m : ℚ) := by exact_mod_cast h2
        rw [hP]; push_cast at this; exact this
      by_cases h4 : (c : ℚ) * P = (m : ℚ)
      · exfalso
        apply hup
        left
        have h5 := hgap c hc
        have h6 : y - (m : ℚ) = (x - (c : ℚ)) * P := by rw [hy, ← h4]; ring
        have h7 : P / (Q : ℚ) ≤ (x - (c : ℚ)) * P := by
          rw [div_eq_mul_one_div, mul_comm]
          exact mul_le_mul_of_nonneg_right h5 hPpos.le
        linarith
      · have h5 : (c : ℚ) * P < (m : ℚ) := lt_of_le_of_ne h3 h4
        rw [← div_eq_mul_inv, lt_div_iff₀ hPpos]
        exact h5
    · intro hc
      linarith
    · intro hc
      have h1 : y = ((c * 2 ^ k : ℤ) : ℚ) := by
        push_cast; rw [hy, ← hP, hc]
      have h2 : (m : ℚ) = y := by
        rw [hm, h1, Int.floor_intCast]
      rw [h2, hy, hc]
      field_simp

theorem JsNum.ceil_div_int (T Q : ℤ) (hT : |(T : ℚ)| ≤ maxSafeInteger) (hQ1 : 1 ≤ Q)
    (hQ : (Q : ℚ) ≤ maxSafeInteger) :
    JsNum.ceil (JsNum.fin (T : ℚ) / JsNum.fin (Q : ℚ)) =
      .fin ((⌈(T : ℚ) / (Q : ℚ)⌉ : ℤ) : ℚ) := by
  have hQpos : (0 : ℚ) < (Q : ℚ) := by exact_mod_cast (by omega : (0 : ℤ) < Q)
  have hTlt := maxSafeInteger_lt T hT
  have hQlt : |Q| < 2 ^ 53 := maxSafeInteger_lt Q (by rw [abs_of_pos hQpos]; exact hQ)
  rw [abs_of_pos (by omega : (0 : ℤ) < Q)] at hQlt
  obtain ⟨q, rfl⟩ := Int.eq_ofNat_of_zero_le (by omega : 0 ≤ Q)
  have hq1 : 1 ≤ q := by omega
  have hq : q < 2 ^ 53 := by exact_mod_cast hQlt
  rw [JsNum.div_def]
  simp only [JsNum.div]
  rw [if_neg (ne_of_gt hQpos)]
  unfold JsNum.round
  rcases lt_trichotomy T 0 with hneg | hz | hpos
  · -- negative numerator
    obtain ⟨t, ht⟩ := Int.eq_ofNat_of_zero_le (by omega : 0 ≤ -T)
    have ht1 : 1 ≤ t := by omega
    have htlt : t < 2 ^ 53 := by
      rw [abs_of_neg hneg, ht] at hTlt
      exact_mod_cast hTlt
    have hTq : (T : ℚ) = -(t : ℚ) := by
      have : ((-T : ℤ) : ℚ) = ((t : ℤ) : ℚ) := by rw [ht]
      push_cast at this
      linarith
    have hxneg : (T : ℚ) / ((q : ℤ) : ℚ) < 0 := by
      apply div_neg_of_neg_of_pos _ hQpos
      exact_mod_cast hneg
    rw [if_neg (ne_of_lt hxneg), if_neg (not_lt.mpr hxneg.le)]
    have hx : -((T : ℚ) / ((q : ℤ) : ℚ)) = (t : ℚ) / (q : ℚ) := by
      rw [hTq]; push_cast; ring
    rw [hx]
    obtain ⟨v, hv, hc⟩ := JsNum.roundPos_quotient t q ht1 htlt hq1 hq
    rw [hv]
    simp only [JsNum.neg, JsNum.ceil]
    congr 2
    have hT2 : (T : ℚ) / ((q : ℤ) : ℚ) = -((t : ℚ) / (q : ℚ)) := by rw [← hx, neg_neg]
    rw [hT2, Int.ceil_neg, Int.ceil_neg]
    congr 1
    rw [Int.floor_eq_iff]
    constructor
    · rcases lt_or_eq_of_le (Int.floor_le ((t : ℚ) / (q : ℚ))) with h | h
      · exact ((hc _).1 h).le
      · exact ((hc _).2.2 h.symm).ge
    · have h1 := Int.lt_floor_add_one ((t : ℚ) / (q : ℚ))
      have := (hc (⌊(t : ℚ) / (q : ℚ)⌋ + 1)).2.1 (by push_cast; exact h1)
      push_cast at this
      exact this
  · rw [hz]
    simp [JsNum.ceil]
  · obtain ⟨t, rfl⟩ := Int.eq_ofNat_of_zero_le (by omega : 0 ≤ T)
    have ht1 : 1 ≤ t := by omega
    have htlt : t < 2 ^ 53 := by
      rw [abs_of_pos hpos] at hTlt
      exact_mod_cast hTlt
    have hxpos : 0 < ((t : ℤ) : ℚ) / ((q : ℤ) : ℚ) := by
      apply div_pos _ hQpos
      exact_mod_cast hpos
    rw [if_neg (ne_of_gt hxpos), if_pos hxpos]
    have hx : ((t : ℤ) : ℚ) / ((q : ℤ) : ℚ) = (t : ℚ) / (q : ℚ) := by push_cast; rfl
    rw [hx]
    obtain ⟨v, hv, hc⟩ := JsNum.roundPos_quotient t q ht1 htlt hq1 hq
    rw [hv]
    simp only [JsNum.ceil]
    congr 2
    rw [Int.ceil_eq_iff]
    constructor
    · have h1 := Int.ceil_lt_add_one ((t : ℚ) / (q : ℚ))
      have := (hc (⌈(t : ℚ) / (q : ℚ)⌉ - 1)).1 (by push_cast; linarith)
      push_cast at this
      exact this
    · rcases lt_or_eq_of_le (Int.le_ceil ((t : ℚ) / (q : ℚ))) with h | h
      · exact ((hc _).2.1 h).le
      · exact ((hc _).2.2 h).le

/-! ### The program -/

theorem Dict.get_set_self {α : Type} (d : Dict α) (k : String) (v : α) :
    (d.set k v).get k = some v := by
  induction d with
  | nil => simp [Dict.set, Dict.get]
  | cons p rest ih =>
    obtain ⟨k', v'⟩ := p
    by_cases h : k' = k
    · simp [Dict.set, Dict.get, h]
    · simp [Dict.set, Dict.get, h, ih]

theorem Dict.get_set_other {α : Type} (d : Dict α) (k k2 : String) (v : α) (h : k ≠ k2) :
    (d.set k v).get k2 = d.get k2 := by
  induction d with
  | nil => simp [Dict.set, Dict.get, h]
  | cons p rest ih =>
    obtain ⟨k', v'⟩ := p
    by_cases h1 : k' = k
    · subst h1; simp [Dict.set, Dict.get, h]
    · by_cases h2 : k' = k2
      · subst h2
        simp [Dict.set, Dict.get, h1]
      · simp [Dict.set, Dict.get, h1, h2, ih]

theorem Dict.get_del_self {α : Type} (d : Dict α) (k : String) :
    (d.del k).get k = none := by
  induction d with
  | nil => simp [Dict.del, Dict.get]
  | cons p rest ih =>
    obtain ⟨k', v'⟩ := p
    by_cases h : k' = k
    · simp [Dict.del, h, ih]
    · simp [Dict.del, Dict.get, h, ih]

theorem Dict.get_del_other {α : Type} (d : Dict α) (k k2 : String) (h : k ≠ k2) :
    (d.del k).get k2 = d.get k2 := by
  induction d with
  | nil => simp [Dict.del, Dict.get]
  | cons p rest ih =>
    obtain ⟨k', v'⟩ := p
    by_cases h1 : k' = k
    · subst h1; simp [Dict.del, Dict.get, h, ih]
    · by_cases h2 : k' = k2
      · subst h2
        simp [Dict.del, Dict.get, h1]
      · simp [Dict.del, Dict.get, h1, h2, ih]

/-- C3: `isHotelConnectionActive(sender)` is true exactly when the sender has a binding and
`now - timestamp` is below 3600 seconds; a binding created at `t0` is active 3599 seconds later and
inactive 3600 and 3601 seconds later; a sender without a binding is never active. -/
theorem isHotelConnectionActive_spec (w : World) (now : Int) (sender : String) :
    (isHotelConnectionActive w now sender = true ↔
        ∃ c, w.hotelIds.get sender = some c ∧ now - c.timestamp < 3600 * 1000) ∧
    (∀ (hotelId : String) (t0 : Int),
        isHotelConnectionActive { w with hotelIds := w.hotelIds.set sender ⟨hotelId, t0⟩ }
          (t0 + 3599 * 1000) sender = true ∧
        isHotelConnectionActive { w with hotelIds := w.hotelIds.set sender ⟨hotelId, t0⟩ }
          (t0 + 3600 * 1000) sender = false ∧
        isHotelConnectionActive { w with hotelIds := w.hotelIds.set sender ⟨hotelId, t0⟩ }
          (t0 + 3601 * 1000) sender = false) ∧
    (w.hotelIds.get sender = none → ∀ t, isHotelConnectionActive w t sender = false) := by
  refine ⟨?_, ?_, ?_⟩
  · unfold isHotelConnectionActive
    cases h : w.hotelIds.get sender with
    | none => simp
    | some c => simp
  · intro hotelId t0
    simp [isHotelConnectionActive, Dict.get_set_self]
  · intro h t
    simp [isHotelConnectionActive, h]

theorem summary_foldl (items : List CartLine) (acc : SummaryAcc) :
    items.foldl summaryStep acc =
      { orderSummary := items.foldl (fun s l => s ++ (l.title ++ " x " ++ numToString l.quantity ++ " = ₹" ++
          numToString (l.price * l.quantity) ++ "\n")) acc.orderSummary
        totalAmount := items.foldl (fun t l => t + l.price * l.quantity) acc.totalAmount
        totalEstimatedTime :=
          items.foldl (fun t l => t + l.estimatedTime * l.quantity) acc.totalEstimatedTime
        totalQuantity := items.foldl (fun t l => t + l.quantity) acc.totalQuantity } := by
  induction items generalizing acc with
  | nil => rfl
  | cons l ls ih =>
    simp only [List.foldl_cons, ih]
    rfl

theorem int_sum_mul (f g : CartLine → JsNum) (items : List CartLine)
    (h : ∀ l ∈ items, (f l).isInteger = true ∧ (g l).isInteger = true) :
    ∃ n : ℤ, (items.map fun l => (f l).toRat * (g l).toRat).sum = (n : ℚ) := by
  induction items with
  | nil => exact ⟨0, by simp⟩
  | cons x xs ih =>
    obtain ⟨n, hn⟩ := ih (fun l hl => h l (List.mem_cons_of_mem _ hl))
    obtain ⟨p, hp⟩ := (JsNum.isInteger_iff _).mp (h x (List.mem_cons_self _ _)).1
    obtain ⟨q, hq⟩ := (JsNum.isInteger_iff _).mp (h x (List.mem_cons_self _ _)).2
    refine ⟨p * q + n, ?_⟩
    have hfx : (f x).toRat = (p : ℚ) := by rw [hp]; rfl
    have hgx : (g x).toRat = (q : ℚ) := by rw [hq]; rfl
    simp only [List.map_cons, List.sum_cons, hn, hfx, hgx]
    push_cast
    rfl

theorem int_sum (g : CartLine → JsNum) (items : List CartLine)
    (h : ∀ l ∈ items, (g l).isInteger = true) :
    ∃ n : ℤ, (items.map fun l => (g l).toRat).sum = (n : ℚ) := by
  induction items with
  | nil => exact ⟨0, by simp⟩
  | cons x xs ih =>
    obtain ⟨n, hn⟩ := ih (fun l hl => h l (List.mem_cons_of_mem _ hl))
    obtain ⟨q, hq⟩ := (JsNum.isInteger_iff _).mp (h x (List.mem_cons_self _ _))
    refine ⟨q + n, ?_⟩
    have hgx : (g x).toRat = (q : ℚ) := by rw [hq]; rfl
    simp only [List.map_cons, List.sum_cons, hn, hgx]
    push_cast
    rfl

theorem abs_sum_le {α : Type} (f : α → ℚ) (l : List α) :
    |(l.map f).sum| ≤ (l.map fun x => |f x|).sum := by
  induction l with
  | nil => simp
  | cons x xs ih =>
    simp only [List.map_cons, List.sum_cons]
    exact le_trans (abs_add _ _) (by linarith)

theorem one_le_of_pos_int (x : JsNum) (hi : x.isInteger = true) (hp : 0 < x) : 1 ≤ x.toRat := by
  obtain ⟨n, rfl⟩ := (JsNum.isInteger_iff _).mp hi
  rw [JsNum.lt_def, JsNum.zero_eq] at hp
  simp only [JsNum.lt, decide_eq_true_eq] at hp
  have h1 : (0 : ℤ) < n := by exact_mod_cast hp
  have h2 : (1 : ℤ) ≤ n := by omega
  simp only [JsNum.toRat]
  exact_mod_cast h2

theorem sum_quantity_pos (items : List CartLine) (hne : items ≠ [])
    (hi : ∀ l ∈ items, l.quantity.isInteger = true)
    (hq : ∀ l ∈ items, 0 < l.quantity) : 1 ≤ (items.map fun l => l.quantity.toRat).sum := by
  induction items with
  | nil => exact absurd rfl hne
  | cons l ls ih =>
    simp only [List.map_cons, List.sum_cons]
    have h1 : 1 ≤ l.quantity.toRat :=
      one_le_of_pos_int _ (hi l (List.mem_cons_self _ _)) (hq l (List.mem_cons_self _ _))
    have h2 : 0 ≤ (ls.map fun l => l.quantity.toRat).sum := by
      apply List.sum_nonneg
      intro x hx
      simp only [List.mem_map] at hx
      obtain ⟨y, hy, rfl⟩ := hx
      have := one_le_of_pos_int _ (hi y (List.mem_cons_of_mem _ hy)) (hq y (List.mem_cons_of_mem _ hy))
      linarith
    linarith

/-- The accumulators of `sendOrderSummary` on a cart within the safe range: the exact sums. -/
theorem summary_exact (items : List CartLine) (hne : items ≠ []) (hsafe : SafeCart items)
    (hq : ∀ l ∈ items, 0 < l.quantity) :
    (items.foldl summaryStep ⟨"Order Summary:\n", 0, 0, 0⟩).totalAmount =
        .fin (specTotal items) ∧
    JsNum.ceil ((items.foldl summaryStep ⟨"Order Summary:\n", 0, 0, 0⟩).totalEstimatedTime /
        (items.foldl summaryStep ⟨"Order Summary:\n", 0, 0, 0⟩).totalQuantity) =
      .fin ((specAverageEstimatedTime items : ℤ) : ℚ) := by
  obtain ⟨hint, hb1, hb2, hb3⟩ := hsafe
  have e1 := foldl_mul_exact (fun l : CartLine => l.price) (fun l => l.quantity) items 0
    (fun l hl => ⟨(hint l hl).1, (hint l hl).2.2⟩) (by simpa using hb1)
  have e2 := foldl_mul_exact (fun l : CartLine => l.estimatedTime) (fun l => l.quantity) items 0
    (fun l hl => ⟨(hint l hl).2.1, (hint l hl).2.2⟩) (by simpa using hb2)
  have e3 := foldl_add_exact (fun l : CartLine => l.quantity) items 0
    (fun l hl => (hint l hl).2.2) (by simpa using hb3)
  simp only [Int.cast_zero, zero_add] at e1 e2 e3
  rw [summary_foldl]
  simp only [JsNum.zero_eq]
  rw [e1, e2, e3]
  refine ⟨rfl, ?_⟩
  obtain ⟨T, hT⟩ := int_sum_mul (fun l : CartLine => l.estimatedTime) (fun l => l.quantity) items
    (fun l hl => ⟨(hint l hl).2.1, (hint l hl).2.2⟩)
  obtain ⟨Q, hQ⟩ := int_sum (fun l : CartLine => l.quantity) items (fun l hl => (hint l hl).2.2)
  have hQ1 := sum_quantity_pos items hne (fun l hl => (hint l hl).2.2) hq
  have hTb := abs_sum_le (fun l : CartLine => l.estimatedTime.toRat * l.quantity.toRat) items
  have hQb := abs_sum_le (fun l : CartLine => l.quantity.toRat) items
  simp only [specAverageEstimatedTime]
  simp only [hT, hQ] at hQ1 hTb hQb ⊢
  have hQ1z : (1 : ℤ) ≤ Q := by exact_mod_cast hQ1
  exact JsNum.ceil_div_int T Q (le_trans hTb hb2) hQ1z (le_trans (le_abs_self _) (le_trans hQb hb3))

/-- C2 (amended): for a non-empty cart whose prices, estimated times and quantities are integers, the
quantities positive, and whose sums of the absolute products and of the quantities stay within the
safe integers (at most `2 ^ 53 - 1`), `sendOrderSummary` hands the dispatcher a summary whose total is
the sum of price times quantity and whose waiting time is the ceiling of the quantity-weighted
average of the estimated times; the cart with prices 100 and 50 and quantities 2 and 1 has total
250. -/
theorem sendOrderSummary_reports (env : Env) (w : World) (sender : String) (cart : Cart)
    (hget : w.orders.get sender = some cart) (hne : cart.items ≠ [])
    (hsafe : SafeCart cart.items) (hq : ∀ l ∈ cart.items, 0 < l.quantity) :
    sendOrderSummary env w sender =
        sendReplyWithPaymentOptions env w sender
          (summaryLinesText cart.items ++
            ("Total Amount: ₹" ++ numToString (.fin (specTotal cart.items)) ++ "\n") ++
            ("Estimated Waiting Time: " ++
              numToString (.fin ((specAverageEstimatedTime cart.items : ℤ) : ℚ)) ++
              " minutes\n")) ∧
    (∀ a b : CartLine, a.price = 100 → a.quantity = 2 → b.price = 50 → b.quantity = 1 →
        specTotal [a, b] = 250) := by
  constructor
  · have hlen : cart.items.length > 0 := List.length_pos.mpr hne
    obtain ⟨h1, h2⟩ := summary_exact cart.items hne hsafe hq
    simp only [sendOrderSummary, hget, hlen, if_true, orderSummaryText, h1, h2, summaryLinesText]
    rw [summary_foldl]
  · intro a b h1 h2 h3 h4
    simp only [specTotal, List.map_cons, List.map_nil, List.sum_cons, List.sum_nil, h1, h2, h3, h4,
      JsNum.ofNat_eq, JsNum.toRat_fin]
    norm_num

theorem post_session (env : Env) (w : World) (m : Outbound) :
    (post env w m).session = w.session := by
  unfold post
  split <;> rfl

theorem sendInWindow_session (env : Env) (w : World) (sender : String) (m : Outbound) :
    (sendInWindow env w sender m).session = w.session := by
  unfold sendInWindow sendTemplateMessage
  dsimp only
  split <;> exact post_session _ _ _

theorem sendReplyWithButton_session (env : Env) (w : World) (sender reply : String) (c : Bool) :
    (sendReplyWithButton env w sender reply c).session = w.session := by
  unfold sendReplyWithButton
  exact sendInWindow_session _ _ _ _

theorem sendReply_session (env : Env) (w : World) (sender reply : String) (b : Bool) :
    (sendReply env w sender reply b).session = w.session := by
  unfold sendReply sendTextMessage sendTemplateMessage
  dsimp only
  split_ifs <;> simp only [sendReplyWithButton_session, post_session]

theorem sendOrderOptions_session (env : Env) (w : World) (sender text : String) :
    (sendOrderOptions env w sender text).session = w.session := by
  unfold sendOrderOptions
  exact sendInWindow_session _ _ _ _

theorem sendQuantityOptions_session (env : Env) (w : World) (sender : String) (item : MenuItem) :
    (sendQuantityOptions env w sender item).session = w.session := by
  unfold sendQuantityOptions sendReplyInteractive
  exact sendInWindow_session _ _ _ _

theorem digitValue_digit (d : Nat) (hd : d < 10) : digitValue 10 (Char.ofNat (48 + d)) = some d := by
  interval_cases d <;> decide

theorem natDigitsAux_isDigit (fuel n : Nat) :
    ∀ c ∈ natDigitsAux fuel n, 48 ≤ c.toNat ∧ c.toNat ≤ 57 := by
  induction fuel generalizing n with
  | zero => simp [natDigitsAux]
  | succ f ih =>
    intro c hc
    unfold natDigitsAux at hc
    split at hc
    · simp only [List.mem_singleton] at hc
      subst hc
      rename_i h
      interval_cases n <;> decide
    · simp only [List.mem_append, List.mem_singleton] at hc
      rcases hc with hc | hc
      · exact ih _ c hc
      · subst hc
        have : n % 10 < 10 := Nat.mod_lt _ (by decide)
        generalize n % 10 = r at this
        interval_cases r <;> decide

theorem natDigitsAux_ne_nil (fuel n : Nat) : natDigitsAux (fuel + 1) n ≠ [] := by
  unfold natDigitsAux
  split <;> simp

theorem readDigits_natDigitsAux (fuel : Nat) :
    ∀ (n : Nat), n < fuel → ∀ (acc : Nat) (seen : Bool) (rest : List Char),
      ∃ p, readDigits 10 (natDigitsAux fuel n ++ rest) acc seen =
        readDigits 10 rest (acc * 10 ^ p + n) true := by
  induction fuel with
  | zero => intro n hn; omega
  | succ f ih =>
    intro n hn acc seen rest
    unfold natDigitsAux
    split
    · rename_i h
      refine ⟨1, ?_⟩
      simp [readDigits, digitValue_digit n h]
    · rename_i h
      have h1 : n / 10 < f := by omega
      obtain ⟨p, hp⟩ := ih (n / 10) h1 acc seen (Char.ofNat (48 + n % 10) :: rest)
      refine ⟨p + 1, ?_⟩
      rw [List.append_assoc, List.singleton_append, hp]
      have h2 : n % 10 < 10 := Nat.mod_lt _ (by decide)
      simp only [readDigits, digitValue_digit _ h2]
      congr 1
      rw [pow_succ]
      have := Nat.div_add_mod n 10
      nlinarith [this]

theorem natDigits_isDigit (n : Nat) : ∀ c ∈ natDigits n, 48 ≤ c.toNat ∧ c.toNat ≤ 57 :=
  natDigitsAux_isDigit _ _

theorem dropWhile_ws_digits (l : List Char) (h : ∀ c ∈ l, 48 ≤ c.toNat ∧ c.toNat ≤ 57) :
    l.dropWhile isJsWhitespace = l := by
  cases l with
  | nil => rfl
  | cons c cs =>
    have hc := h c (List.mem_cons_self _ _)
    have : isJsWhitespace c = false := by
      simp only [isJsWhitespace, decide_eq_false_iff_not]
      omega
    simp [List.dropWhile, this]

theorem readSign_digits (l : List Char) (h : ∀ c ∈ l, 48 ≤ c.toNat ∧ c.toNat ≤ 57) :
    readSign l = (false, l) := by
  unfold readSign
  split
  · have := h '-' (by simp); simp at this
  · have := h '+' (by simp); simp at this
  · rfl

theorem readRadix_digits (l : List Char) (h : ∀ c ∈ l, 48 ≤ c.toNat ∧ c.toNat ≤ 57) :
    readRadix l = (10, l) := by
  unfold readRadix
  split
  · have := h 'x' (by simp); simp at this
  · have := h 'X' (by simp); simp at this
  · rfl

theorem parseMathInt_natDigits (n : Nat) : parseMathInt (natDigits n) = some (n : Int) := by
  have hd := natDigits_isDigit n
  unfold parseMathInt
  rw [dropWhile_ws_digits _ hd, readSign_digits _ hd]
  dsimp only
  rw [readRadix_digits _ hd]
  dsimp only
  obtain ⟨p, hp⟩ := readDigits_natDigitsAux (n + 1) n (Nat.lt_succ_self n) 0 false []
  rw [List.append_nil] at hp
  unfold natDigits
  rw [hp]
  simp [readDigits]

theorem parseMathInt_intToString (q : Int) (hq : 0 ≤ q) :
    parseMathInt (intToString q).data = some q := by
  obtain ⟨n, rfl⟩ := Int.eq_ofNat_of_zero_le hq
  exact parseMathInt_natDigits n

theorem parseInt_intToString (q : Int) (hq : 0 ≤ q) :
    parseInt (intToString q).data = JsNum.ofInt q := by
  unfold parseInt
  rw [parseMathInt_intToString q hq]

theorem splitUnderscore_no_underscore (l : List Char) (h : '_' ∉ l) : splitUnderscore l = [l] := by
  induction l with
  | nil => rfl
  | cons c cs ih =>
    have hc : c ≠ '_' := fun e => h (by simp [e])
    have hcs : '_' ∉ cs := fun e => h (by simp [e])
    simp [splitUnderscore, hc, ih hcs]

theorem intToString_no_underscore (q : Int) : '_' ∉ (intToString q).data := by
  intro h
  cases q with
  | ofNat n =>
    have := natDigits_isDigit n _ h
    simp at this
  | negSucc n =>
    simp only [intToString, List.mem_cons] at h
    rcases h with h | h
    · exact absurd h (by decide)
    · have := natDigits_isDigit _ _ h
      simp at this

theorem splitField1_qty (s : String) (h : '_' ∉ s.data) : splitField1 ("Qty_" ++ s) = some s := by
  have : ("Qty_" ++ s).data = 'Q' :: 't' :: 'y' :: '_' :: s.data := rfl
  simp [splitField1, this, splitUnderscore, splitUnderscore_no_underscore _ h]

theorem splitField1_item (s : String) (h : '_' ∉ s.data) : splitField1 ("Item_" ++ s) = some s := by
  have : ("Item_" ++ s).data = 'I' :: 't' :: 'e' :: 'm' :: '_' :: s.data := rfl
  simp [splitField1, this, splitUnderscore, splitUnderscore_no_underscore _ h]

theorem startsWith_qty (s : String) : startsWith ("Qty_" ++ s) "Qty_" = true := by
  have : ("Qty_" ++ s).data = 'Q' :: 't' :: 'y' :: '_' :: s.data := rfl
  have h2 : ("Qty_" : String).data = ['Q', 't', 'y', '_'] := rfl
  simp [startsWith, this, h2]

theorem startsWith_item (s : String) : startsWith ("Item_" ++ s) "Item_" = true := by
  have : ("Item_" ++ s).data = 'I' :: 't' :: 'e' :: 'm' :: '_' :: s.data := rfl
  have h2 : ("Item_" : String).data = ['I', 't', 'e', 'm', '_'] := rfl
  simp [startsWith, this, h2]

theorem item_ne_literal (s t : String) (ht : t.data.head? ≠ some 'I') : "Item_" ++ s ≠ t := by
  intro h
  apply ht
  rw [← h]
  rfl

theorem webhook_item (env : Env) (w : World) (sender : String) (X : MenuItem)
    (c : HotelConnection) (items : List MenuItem)
    (hb : w.hotelIds.get sender = some c) (hact : env.now - c.timestamp < 3600000)
    (hq : w.awaitingQuantity.get sender = none) (ho : w.awaitingOrderId.get sender ≠ some true)
    (hm : w.menuItems.get sender = some items)
    (hf : items.find? (fun i => decide (i.id = X.id)) = some X) (hu : '_' ∉ X.id.data) :
    webhook env w sender ("Item_" ++ X.id) =
      sendQuantityOptions env
        { updateLastInteraction w env.now sender with
            awaitingQuantity := w.awaitingQuantity.set sender X } sender X := by
  have e1 := item_ne_literal X.id "ViewMenu" (by decide)
  have e2 := item_ne_literal X.id "PlaceOrder" (by decide)
  have e3 := item_ne_literal X.id "EditOrder" (by decide)
  have e4 := item_ne_literal X.id "MainMenu" (by decide)
  have e5 := item_ne_literal X.id "TrackOrderStatus" (by decide)
  have e6 := item_ne_literal X.id "TrackCurrentOrder" (by decide)
  have e7 := item_ne_literal X.id "TrackOrderByID" (by decide)
  simp [webhook, handleIncomingMessage, handleBody, updateLastInteraction, hb,
    isHotelConnectionActive, hact, hq, ho, e1, e2, e3, e4, e5, e6, e7, startsWith_item,
    handleItem, splitField1_item _ hu, hm, hf]

theorem webhook_qty (env : Env) (w : World) (sender : String) (X : MenuItem)
    (c : HotelConnection) (q : Int)
    (hb : w.hotelIds.get sender = some c) (hact : env.now - c.timestamp < 3600000)
    (hq : w.awaitingQuantity.get sender = some X) (hpos : 0 < q) :
    (webhook env w sender ("Qty_" ++ intToString q)).session =
      World.session
        { updateLastInteraction w env.now sender with
            awaitingQuantity := w.awaitingQuantity.del sender
            orders := w.orders.set sender
              { (w.orders.get sender).getD ⟨[], none, none, none⟩ with
                items := addToCart ((w.orders.get sender).getD ⟨[], none, none, none⟩).items X
                  (JsNum.ofInt q) } } := by
  have hok : QtyOk (JsNum.ofInt q) := QtyOk.of_round q (by omega)
  have hgt : JsNum.ofInt q > 0 := hok.pos
  have hnan : (JsNum.ofInt q).isNaN = false := by
    rcases hok with h | ⟨n, _, h⟩ <;> rw [h] <;> rfl
  simp only [webhook, handleIncomingMessage, handleBody, updateLastInteraction, hb,
    isHotelConnectionActive, hact, hq, handleQuantity, startsWith_qty,
    splitField1_qty _ (intToString_no_underscore q), parseInt_intToString q hpos.le]
  simp [hgt, hnan, sendOrderOptions_session]

theorem addToCart_fresh (items : List CartLine) (X : MenuItem) (q : JsNum)
    (h : ∀ l ∈ items, l.id ≠ X.id) : addToCart items X q = items ++ [X.toLine q] := by
  have hf : items.find? (fun i => decide (i.id = X.id)) = none := by
    rw [List.find?_eq_none]
    intro l hl
    simpa using h l hl
  simp [addToCart, hf, MenuItem.toLine]

theorem bumpFirst_append (items : List CartLine) (line : CartLine) (q : JsNum)
    (h : ∀ l ∈ items, l.id ≠ line.id) :
    bumpFirst line.id q (items ++ [line]) = items ++ [{ line with quantity := line.quantity + q }] := by
  induction items with
  | nil => simp [bumpFirst]
  | cons l ls ih =>
    have h1 : l.id ≠ line.id := h l (List.mem_cons_self _ _)
    have h2 : ∀ l ∈ ls, l.id ≠ line.id := fun x hx => h x (List.mem_cons_of_mem _ hx)
    simp [bumpFirst, h1, ih h2]

theorem addToCart_again (items : List CartLine) (X : MenuItem) (n m : JsNum)
    (h : ∀ l ∈ items, l.id ≠ X.id) :
    addToCart (items ++ [X.toLine n]) X m = items ++ [X.toLine (n + m)] := by
  have hf : ∃ l, (items ++ [X.toLine n]).find? (fun i => decide (i.id = X.id)) = some l := by
    cases hfind : (items ++ [X.toLine n]).find? (fun i => decide (i.id = X.id)) with
    | some l => exact ⟨l, rfl⟩
    | none =>
      rw [List.find?_eq_none] at hfind
      have := hfind (X.toLine n) (by simp)
      simp [MenuItem.toLine] at this
  obtain ⟨l, hl⟩ := hf
  have hb := bumpFirst_append items (X.toLine n) m h
  simp only [addToCart, hl]
  exact hb

theorem cartItems_eq_getD (w : World) (sender : String) :
    ((w.orders.get sender).getD ⟨[], none, none, none⟩).items = cartItems w sender := by
  unfold cartItems
  cases w.orders.get sender <;> rfl

/-- One selection of an item followed by one quantity answer, from an idle bound session. -/
theorem select_then_quantity (e1 e2 : Env) (w : World) (sender : String) (X : MenuItem)
    (c : HotelConnection) (items : List MenuItem) (q : Int)
    (hb : w.hotelIds.get sender = some c)
    (h1 : e1.now - c.timestamp < 3600000) (h2 : e2.now - c.timestamp < 3600000)
    (hq : w.awaitingQuantity.get sender = none) (ho : w.awaitingOrderId.get sender ≠ some true)
    (hm : w.menuItems.get sender = some items)
    (hf : items.find? (fun i => decide (i.id = X.id)) = some X) (hu : '_' ∉ X.id.data)
    (hpos : 0 < q) :
    let w2 := webhook e2 (webhook e1 w sender ("Item_" ++ X.id)) sender ("Qty_" ++ intToString q)
    w2.hotelIds = w.hotelIds ∧ w2.menuItems = w.menuItems ∧
      w2.awaitingQuantity.get sender = none ∧ w2.awaitingOrderId = w.awaitingOrderId ∧
      cartItems w2 sender = addToCart (cartItems w sender) X (JsNum.ofInt q) := by
  intro w2
  have hs1 := webhook_item e1 w sender X c items hb h1 hq ho hm hf hu
  have hsess1 : (webhook e1 w sender ("Item_" ++ X.id)).session =
      World.session { updateLastInteraction w e1.now sender with
            awaitingQuantity := w.awaitingQuantity.set sender X } := by
    rw [hs1, sendQuantityOptions_session]
  have hb1 : (webhook e1 w sender ("Item_" ++ X.id)).hotelIds.get sender = some c := by
    have := congrArg World.hotelIds hsess1
    simp only [World.session, updateLastInteraction] at this
    rw [this]; exact hb
  have hq1 : (webhook e1 w sender ("Item_" ++ X.id)).awaitingQuantity.get sender = some X := by
    have := congrArg World.awaitingQuantity hsess1
    simp only [World.session, updateLastInteraction] at this
    rw [this]; exact Dict.get_set_self _ _ _
  have hsess2 := webhook_qty e2 _ sender X c q hb1 h2 hq1 hpos
  have f1 := congrArg World.hotelIds hsess2
  have f2 := congrArg World.menuItems hsess2
  have f3 := congrArg World.awaitingQuantity hsess2
  have f4 := congrArg World.awaitingOrderId hsess2
  have f5 := congrArg World.orders hsess2
  have g1 := congrArg World.hotelIds hsess1
  have g2 := congrArg World.menuItems hsess1
  have g4 := congrArg World.awaitingOrderId hsess1
  have g5 := congrArg World.orders hsess1
  simp only [World.session, updateLastInteraction] at f1 f2 f3 f4 f5 g1 g2 g4 g5
  refine ⟨f1.trans g1, f2.trans g2, ?_, f4.trans g4, ?_⟩
  · show w2.awaitingQuantity.get sender = none
    rw [show w2.awaitingQuantity = _ from f3]
    exact Dict.get_del_self _ _
  · show cartItems w2 sender = _
    unfold cartItems
    rw [show w2.orders = _ from f5, Dict.get_set_self, g5]
    simp only
    rw [cartItems_eq_getD]
    rfl

/-- C1 (amended): from an idle bound session whose cart has no line for the catalog item `X`, whose id has no
underscore, selecting `X` and answering `Qty_n`, then selecting `X` again and answering `Qty_m`, for
integers `n, m > 0` with `n + m` a safe integer (at most `2 ^ 53 - 1`), leaves the old cart lines
unchanged in their positions followed by exactly one line for `X`, of quantity `n + m`. -/
theorem add_same_item_twice_merges (e1 e2 e3 e4 : Env) (w : World) (sender : String)
    (X : MenuItem) (n m : Int) (c : HotelConnection) (items : List MenuItem)
    (hn : 0 < n) (hm : 0 < m) (hsafe : n + m ≤ 9007199254740991)
    (hb : w.hotelIds.get sender = some c)
    (h1 : e1.now - c.timestamp < 3600000) (h2 : e2.now - c.timestamp < 3600000)
    (h3 : e3.now - c.timestamp < 3600000) (h4 : e4.now - c.timestamp < 3600000)
    (hq : w.awaitingQuantity.get sender = none) (ho : w.awaitingOrderId.get sender ≠ some true)
    (hcat : w.menuItems.get sender = some items)
    (hX : items.find? (fun i => decide (i.id = X.id)) = some X) (hid : '_' ∉ X.id.data)
    (hfresh : ∀ l ∈ cartItems w sender, l.id ≠ X.id) :
    cartItems
        (webhook e4
          (webhook e3
            (webhook e2 (webhook e1 w sender ("Item_" ++ X.id)) sender ("Qty_" ++ intToString n))
            sender ("Item_" ++ X.id))
          sender ("Qty_" ++ intToString m)) sender
      = cartItems w sender ++ [X.toLine (.fin ((n + m : ℤ) : ℚ))] ∧
    (cartItems
        (webhook e4
          (webhook e3
            (webhook e2 (webhook e1 w sender ("Item_" ++ X.id)) sender ("Qty_" ++ intToString n))
            sender ("Item_" ++ X.id))
          sender ("Qty_" ++ intToString m)) sender).filter (fun l => decide (l.id = X.id))
      = [X.toLine (.fin ((n + m : ℤ) : ℚ))] := by
  obtain ⟨a1, a2, a3, a4, a5⟩ :=
    select_then_quantity e1 e2 w sender X c items n hb h1 h2 hq ho hcat hX hid hn
  have hb2 := a1 ▸ hb
  have hcat2 := a2 ▸ hcat
  have ho2 := a4 ▸ ho
  obtain ⟨b1, b2, b3, b4, b5⟩ :=
    select_then_quantity e3 e4 _ sender X c items m hb2 h3 h4 a3 ho2 hcat2 hX hid hm
  have hsum : JsNum.ofInt n + JsNum.ofInt m = .fin ((n + m : ℤ) : ℚ) := by
    have hn2 : |n| < 2 ^ 53 := by
      rw [abs_of_pos hn]
      have : (2 : ℤ) ^ 53 = 9007199254740992 := by norm_num
      omega
    have hm2 : |m| < 2 ^ 53 := by
      rw [abs_of_pos hm]
      have : (2 : ℤ) ^ 53 = 9007199254740992 := by norm_num
      omega
    rw [JsNum.ofInt_safe n hn2, JsNum.ofInt_safe m hm2, JsNum.add_int n m]
    · push_cast; rfl
    · have h5 : (0 : ℚ) ≤ (n : ℚ) + (m : ℚ) := by
        have : (0 : ℤ) ≤ n + m := by omega
        exact_mod_cast this
      rw [abs_of_nonneg h5]
      have : ((n + m : ℤ) : ℚ) ≤ ((9007199254740991 : ℤ) : ℚ) := by exact_mod_cast hsafe
      simpa [maxSafeInteger] using this
  have key : cartItems
        (webhook e4
          (webhook e3
            (webhook e2 (webhook e1 w sender ("Item_" ++ X.id)) sender ("Qty_" ++ intToString n))
            sender ("Item_" ++ X.id))
          sender ("Qty_" ++ intToString m)) sender
      = cartItems w sender ++ [X.toLine (.fin ((n + m : ℤ) : ℚ))] := by
    rw [b5, a5, addToCart_fresh _ _ _ hfresh, addToCart_again _ _ _ _ hfresh, hsum]
  refine ⟨key, ?_⟩
  rw [key, List.filter_append]
  have : (cartItems w sender).filter (fun l => decide (l.id = X.id)) = [] := by
    rw [List.filter_eq_nil_iff]
    intro l hl
    simpa using hfresh l hl
  rw [this]
  simp [MenuItem.toLine]

/-- C1 at the example sender: two burgers, then three more, next to the cola line already in the cart. -/
theorem add_same_item_twice_merges_witness :
    cartItems
        (webhook (exampleEnv 4000)
          (webhook (exampleEnv 3000)
            (webhook (exampleEnv 2000)
              (webhook (exampleEnv 1000) exampleWorld "919900000001" ("Item_" ++ burger.id))
              "919900000001" ("Qty_" ++ intToString 2))
            "919900000001" ("Item_" ++ burger.id))
          "919900000001" ("Qty_" ++ intToString 3)) "919900000001"
      = [cola.toLine 1, burger.toLine (.fin (((2 : ℤ) + 3 : ℤ) : ℚ))] :=
  (add_same_item_twice_merges (exampleEnv 1000) (exampleEnv 2000) (exampleEnv 3000)
    (exampleEnv 4000) exampleWorld "919900000001" burger 2 3 ⟨"h1", 0⟩ [burger, cola]
    (by decide) (by decide) (by decide) (by decide) (by decide) (by decide) (by decide)
    (by decide) (by decide) (by decide) (by decide) (by decide) (by decide) (by decide)).1

set_option maxRecDepth 20000 in
/-- C1 as stated fails: with a quantity beyond the safe integers, `Qty_9007199254740993` stores
9007199254740992 and adding 1 leaves 9007199254740992, not the sum 9007199254740994; and the item
whose id is `a_b` cannot be selected at all: its row selects the item with id `a`, so the cart ends
with five of that item and no line for `a_b`. -/
theorem same_item_twice_does_not_sum :
    cartItems
        (webhook (exampleEnv 4000)
          (webhook (exampleEnv 3000)
            (webhook (exampleEnv 2000)
              (webhook (exampleEnv 1000) exampleWorld "919900000001" ("Item_" ++ burger.id))
              "919900000001" "Qty_9007199254740993")
            "919900000001" ("Item_" ++ burger.id))
          "919900000001" "Qty_1") "919900000001"
      = [cola.toLine 1, burger.toLine 9007199254740992] ∧
    cartItems
        (webhook (exampleEnv 4000)
          (webhook (exampleEnv 3000)
            (webhook (exampleEnv 2000)
              (webhook (exampleEnv 1000) underscoreWorld "919900000001" ("Item_" ++ coffee.id))
              "919900000001" "Qty_2")
            "919900000001" ("Item_" ++ coffee.id))
          "919900000001" "Qty_3") "919900000001"
      = [tea.toLine 5] := by
  constructor <;> decide!

theorem mem_indexed {α : Type} (db : List α) (p : Nat × α) :
    p ∈ (List.range db.length).zip db ↔ db[p.1]? = some p.2 := by
  rw [← List.enum_eq_zip_range]
  obtain ⟨i, x⟩ := p
  exact List.mk_mem_enum_iff_getElem?

theorem findOrder_some (db : List StoredOrder) (hotelId orderId sender : String) (idx : Nat)
    (order : OrderDoc) (h : findOrder db hotelId orderId sender = some (idx, order)) :
    db[idx]? = some ⟨hotelId, order⟩ ∧ order.orderId = orderId ∧ order.sender = sender := by
  unfold findOrder at h
  obtain ⟨p, hp, hf⟩ := List.exists_of_findSome?_eq_some h
  rw [mem_indexed] at hp
  split at hf
  · rename_i hc
    simp only [Option.some.injEq, Prod.mk.injEq] at hf
    obtain ⟨h1, h2⟩ := hf
    subst h1 h2
    obtain ⟨c1, c2, c3⟩ := hc
    refine ⟨?_, c2, c3⟩
    rw [hp, ← c1]
  · exact absurd hf (by simp)

/-- C4: `cancelOrder` sets the status to `Cancelled` only for an order with the given id that belongs
to the sender and whose persisted status is `Pending`; for any other status, and when there is no
such order, the order store is unchanged and the reply is the "Cannot cancel the order..." message. -/
theorem cancelOrder_only_pending (env : Env) (w : World) (sender orderId : String)
    (conn : HotelConnection) (hb : w.hotelIds.get sender = some conn) (hr : env.readOk = true) :
    (∀ idx order, findOrder w.orderDb conn.hotelId orderId sender = some (idx, order) →
        order.status = .Pending → env.saveError idx = none →
        w.orderDb[idx]? = some ⟨conn.hotelId, order⟩ ∧
        (cancelOrder env w sender orderId).orderDb =
          w.orderDb.set idx ⟨conn.hotelId, { order with status := .Cancelled }⟩) ∧
    ((∀ idx order, findOrder w.orderDb conn.hotelId orderId sender = some (idx, order) →
        order.status ≠ .Pending) →
        (cancelOrder env w sender orderId).orderDb = w.orderDb ∧
        cancelOrder env w sender orderId = sendReply env w sender cannotCancelText true) ∧
    ((cancelOrder env w sender orderId).orderDb ≠ w.orderDb →
        ∃ idx order, findOrder w.orderDb conn.hotelId orderId sender = some (idx, order) ∧
          order.status = .Pending) := by
  have hdb : ∀ (w1 : World) (t : String) (b : Bool), (sendReply env w1 sender t b).orderDb = w1.orderDb := by
    intro w1 t b
    have h := congrArg World.orderDb (sendReply_session env w1 sender t b)
    exact h
  refine ⟨?_, ?_, ?_⟩
  · intro idx order hf hs hsave
    have hget := (findOrder_some _ _ _ _ _ _ hf).1
    refine ⟨hget, ?_⟩
    simp only [cancelOrder, hb, hr, if_true, hf, hs, hsave, hdb, updateOrder,
      List.get?_eq_getElem?, hget]
  · intro hno
    cases hf : findOrder w.orderDb conn.hotelId orderId sender with
    | none => simp only [cancelOrder, hb, hr, if_true, hf, hdb, and_self]
    | some p =>
      obtain ⟨idx, order⟩ := p
      have := hno idx order hf
      simp only [cancelOrder, hb, hr, if_true, hf, this, if_false, hdb, and_self]
  · intro hne
    cases hf : findOrder w.orderDb conn.hotelId orderId sender with
    | none =>
      exfalso; apply hne
      simp only [cancelOrder, hb, hr, if_true, hf, hdb]
    | some p =>
      obtain ⟨idx, order⟩ := p
      by_cases hs : order.status = .Pending
      · exact ⟨idx, order, rfl, hs⟩
      · exfalso; apply hne
        simp only [cancelOrder, hb, hr, if_true, hf, hs, if_false, hdb]

theorem sendStatusUpdate_session (env : Env) (w : World) (sender : String) (s : OrderStatus) :
    (sendStatusUpdate env w sender s).session = w.session := by
  unfold sendStatusUpdate
  exact sendReply_session _ _ _ _ _

theorem settle_settle (d : StoredOrder) : settle (settle d) = settle d := rfl

theorem Settles.refl (db : List StoredOrder) : Settles db db :=
  ⟨rfl, fun _ _ h => Or.inl h⟩

theorem Settles.trans {a b c : List StoredOrder} (h1 : Settles a b) (h2 : Settles b c) :
    Settles a c := by
  refine ⟨h2.1.trans h1.1, ?_⟩
  intro i d hd
  rcases h1.2 i d hd with h | h
  · exact h2.2 i d h
  · rcases h2.2 i _ h with h' | h'
    · exact Or.inr h'
    · exact Or.inr (by rw [h', settle_settle])

theorem Settles.set_settle (db : List StoredOrder) (idx : Nat) (d : StoredOrder)
    (h : db[idx]? = some d) : Settles db (db.set idx (settle d)) := by
  refine ⟨by simp, ?_⟩
  intro i e he
  by_cases hi : idx = i
  · subst hi
    right
    have hlt : idx < db.length := by
      by_contra hc
      have := List.getElem?_eq_none (Nat.le_of_not_lt hc)
      rw [this] at h; exact absurd h (by simp)
    rw [h] at he
    cases he
    simp [List.getElem?_set, hlt]
  · left
    simp [List.getElem?_set, hi, he]

theorem Settles.noDrift {db db1 : List StoredOrder} (h : Settles db db1) (hotelId sender : String)
    (hn : NoDrift db hotelId sender) : NoDrift db1 hotelId sender := by
  intro d hd h1 h2
  obtain ⟨i, hi⟩ := List.getElem?_of_mem hd
  have hlt : i < db.length := by
    rw [← h.1]
    by_contra hc
    have := List.getElem?_eq_none (Nat.le_of_not_lt hc)
    rw [this] at hi; exact absurd hi (by simp)
  have h0 : db[i]? = some db[i] := List.getElem?_eq_getElem hlt
  have hmem : db[i] ∈ db := List.getElem_mem hlt
  rcases h.2 i _ h0 with h' | h'
  · rw [h'] at hi
    cases hi
    exact hn _ hmem h1 h2
  · rw [h'] at hi
    cases hi
    rfl

theorem getElem?_lt_of_some {α : Type} {l : List α} {i : Nat} {a : α} (h : l[i]? = some a) :
    i < l.length := by
  by_contra hc
  have := List.getElem?_eq_none (Nat.le_of_not_lt hc)
  rw [this] at h; exact absurd h (by simp)

theorem mem_findOrdersToUpdate (db : List StoredOrder) (hotelId sender : String) (i : Nat)
    (doc : OrderDoc) :
    (i, doc) ∈ findOrdersToUpdate db hotelId sender ↔
      ∃ d, db[i]? = some d ∧ d.doc = doc ∧ d.hotelId = hotelId ∧ d.doc.sender = sender ∧
        d.doc.status ≠ d.doc.lastNotifiedStatus := by
  unfold findOrdersToUpdate
  simp only [List.mem_map, List.mem_filter, mem_indexed, decide_eq_true_eq, Prod.mk.injEq]
  constructor
  · rintro ⟨p, ⟨hp, h1, h2, h3⟩, rfl, rfl⟩
    exact ⟨p.2, hp, rfl, h1, h2, h3⟩
  · rintro ⟨d, hd, rfl, h1, h2, h3⟩
    exact ⟨(i, d), ⟨hd, h1, h2, h3⟩, rfl, rfl⟩

theorem notifyOrders_settles (env : Env) (sender : String) (hsave : ∀ i, env.saveError i = none)
    (db0 : List StoredOrder) :
    ∀ (l : List (Nat × OrderDoc)) (w : World), Settles db0 w.orderDb →
      (∀ p ∈ l, ∃ d, db0[p.1]? = some d ∧ d.doc = p.2) →
      Settles w.orderDb (notifyOrders env sender l w).orderDb ∧
      (notifyOrders env sender l w).hotelIds = w.hotelIds ∧
      (∀ p ∈ l, ∀ d, db0[p.1]? = some d →
        (notifyOrders env sender l w).orderDb[p.1]? = some (settle d)) := by
  intro l
  induction l with
  | nil =>
    intro w _ _
    exact ⟨Settles.refl _, rfl, fun p hp => absurd hp (List.not_mem_nil _)⟩
  | cons p rest ih =>
    intro w hs hl
    obtain ⟨idx, order⟩ := p
    obtain ⟨d, hd, hdoc⟩ := hl (idx, order) (List.mem_cons_self _ _)
    have hrest : ∀ p ∈ rest, ∃ d, db0[p.1]? = some d ∧ d.doc = p.2 :=
      fun p hp => hl p (List.mem_cons_of_mem _ hp)
    simp only at hd hdoc
    by_cases hdrift : order.status = order.lastNotifiedStatus
    · -- no drift: the document is skipped
      have hstep : notifyOrders env sender ((idx, order) :: rest) w = notifyOrders env sender rest w := by
        simp [notifyOrders, hdrift]
      rw [hstep]
      obtain ⟨i1, i2, i3⟩ := ih w hs hrest
      refine ⟨i1, i2, ?_⟩
      intro p hp d' hd'
      rcases List.mem_cons.mp hp with rfl | hp
      · simp only at hd'
        rw [hd] at hd'; cases hd'
        have hsd : settle d = d := by
          cases d with
          | mk h doc =>
            simp only at hdoc
            subst hdoc
            cases doc
            simp only at hdrift
            subst hdrift
            rfl
        rw [hsd]
        rcases (hs.trans i1).2 idx d hd with h | h
        · exact h
        · rw [h, hsd]
      · exact i3 p hp d' hd'
    · -- drift: notice sent and the document settled
      let w1 := sendStatusUpdate env w sender order.status
      have hw1 : w1.orderDb = w.orderDb := by
        have h := congrArg World.orderDb (sendStatusUpdate_session env w sender order.status)
        exact h
      have hw1h : w1.hotelIds = w.hotelIds := by
        have h := congrArg World.hotelIds (sendStatusUpdate_session env w sender order.status)
        exact h
      -- the current document at idx
      obtain ⟨cur, hcur, hcurst⟩ : ∃ cur, w.orderDb[idx]? = some cur ∧ settle cur = settle d := by
        rcases hs.2 idx d hd with h | h
        · exact ⟨d, h, rfl⟩
        · exact ⟨settle d, h, rfl⟩
      have hcs : cur.doc.status = order.status := by
        have := congrArg (fun s => s.doc.status) hcurst
        simp only [settle] at this
        rw [this, hdoc]
      let w2 : World := { w1 with orderDb := w.orderDb.set idx (settle cur) }
      have hstep : notifyOrders env sender ((idx, order) :: rest) w = notifyOrders env sender rest w2 := by
        have hne : order.status ≠ order.lastNotifiedStatus := hdrift
        simp only [notifyOrders, ne_eq, hdrift, not_false_eq_true, if_true, hsave, updateOrder,
          List.get?_eq_getElem?]
        show notifyOrders env sender rest _ = notifyOrders env sender rest w2
        congr 1
        show ({ w1 with orderDb := _ } : World) = w2
        simp only [w2]
        congr 1
        rw [hw1, hcur]
        simp only [settle, hcs]
      rw [hstep]
      have hs2 : Settles w.orderDb w2.orderDb := Settles.set_settle _ _ _ hcur
      obtain ⟨i1, i2, i3⟩ := ih w2 (hs.trans hs2) hrest
      refine ⟨hs2.trans i1, i2.trans hw1h, ?_⟩
      intro p hp d' hd'
      rcases List.mem_cons.mp hp with rfl | hp
      · simp only at hd'
        rw [hd] at hd'; cases hd'
        have h2 : w2.orderDb[idx]? = some (settle d) := by
          show (w.orderDb.set idx (settle cur))[idx]? = _
          rw [hcurst]
          simp [List.getElem?_set, getElem?_lt_of_some hcur]
        rcases i1.2 idx _ h2 with h | h
        · exact h
        · rw [h, settle_settle]
      · exact i3 p hp d' hd'

theorem noDrift_after_notifyOrders (env : Env) (sender hotelId : String)
    (hsave : ∀ i, env.saveError i = none) (w : World) :
    NoDrift (notifyOrders env sender (findOrdersToUpdate w.orderDb hotelId sender) w).orderDb
      hotelId sender := by
  have hl : ∀ p ∈ findOrdersToUpdate w.orderDb hotelId sender,
      ∃ d, w.orderDb[p.1]? = some d ∧ d.doc = p.2 := by
    intro p hp
    obtain ⟨i, doc⟩ := p
    obtain ⟨d, h1, h2, _⟩ := (mem_findOrdersToUpdate _ _ _ _ _).mp hp
    exact ⟨d, h1, h2⟩
  obtain ⟨s1, _, s3⟩ := notifyOrders_settles env sender hsave w.orderDb _ w (Settles.refl _) hl
  intro d' hd' h1 h2
  obtain ⟨i, hi⟩ := List.getElem?_of_mem hd'
  have hlt : i < w.orderDb.length := by
    rw [← s1.1]; exact getElem?_lt_of_some hi
  have h0 : w.orderDb[i]? = some w.orderDb[i] := List.getElem?_eq_getElem hlt
  rcases s1.2 i _ h0 with h | h
  · rw [h] at hi
    cases hi
    by_contra hne
    have hm : (i, w.orderDb[i].doc) ∈ findOrdersToUpdate w.orderDb hotelId sender :=
      (mem_findOrdersToUpdate _ _ _ _ _).mpr ⟨_, h0, rfl, h1, h2, hne⟩
    have := s3 _ hm _ h0
    simp only at this
    rw [h] at this
    cases hw : w.orderDb[i] with
    | mk hh doc =>
      rw [hw] at this hne
      simp only [settle, Option.some.injEq, StoredOrder.mk.injEq, true_and] at this
      apply hne
      have := congrArg OrderDoc.lastNotifiedStatus this
      simp only at this
      exact this.symm
  · rw [h] at hi
    cases hi
    rfl

theorem notifySenders_settles (env : Env) (hr : env.readOk = true)
    (hsave : ∀ i, env.saveError i = none) :
    ∀ (senders : List (String × HotelConnection)) (w : World),
      Settles w.orderDb (notifySenders env senders w).orderDb ∧
      (notifySenders env senders w).hotelIds = w.hotelIds ∧
      ∀ p ∈ senders, NoDrift (notifySenders env senders w).orderDb p.2.hotelId p.1 := by
  intro senders
  induction senders with
  | nil =>
    intro w
    exact ⟨Settles.refl _, rfl, fun p hp => absurd hp (List.not_mem_nil _)⟩
  | cons p rest ih =>
    intro w
    obtain ⟨sender, conn⟩ := p
    have hstep : notifySenders env ((sender, conn) :: rest) w =
        notifySenders env rest
          (notifyOrders env sender (findOrdersToUpdate w.orderDb conn.hotelId sender) w) := by
      simp [notifySenders, hr]
    rw [hstep]
    have hl : ∀ p ∈ findOrdersToUpdate w.orderDb conn.hotelId sender,
        ∃ d, w.orderDb[p.1]? = some d ∧ d.doc = p.2 := by
      intro p hp
      obtain ⟨i, doc⟩ := p
      obtain ⟨d, h1, h2, _⟩ := (mem_findOrdersToUpdate _ _ _ _ _).mp hp
      exact ⟨d, h1, h2⟩
    obtain ⟨s1, s2, _⟩ := notifyOrders_settles env sender hsave w.orderDb _ w (Settles.refl _) hl
    have hnd := noDrift_after_notifyOrders env sender conn.hotelId hsave w
    obtain ⟨i1, i2, i3⟩ :=
      ih (notifyOrders env sender (findOrdersToUpdate w.orderDb conn.hotelId sender) w)
    refine ⟨s1.trans i1, i2.trans s2, ?_⟩
    intro p hp
    rcases List.mem_cons.mp hp with rfl | hp
    · exact i1.noDrift _ _ hnd
    · exact i3 p hp

theorem findOrdersToUpdate_noDrift (db : List StoredOrder) (hotelId sender : String)
    (h : NoDrift db hotelId sender) : findOrdersToUpdate db hotelId sender = [] := by
  cases hl : findOrdersToUpdate db hotelId sender with
  | nil => rfl
  | cons p rest =>
    exfalso
    obtain ⟨i, doc⟩ := p
    have hm : (i, doc) ∈ findOrdersToUpdate db hotelId sender := by rw [hl]; simp
    obtain ⟨d, h1, _, h3, h4, h5⟩ := (mem_findOrdersToUpdate _ _ _ _ _).mp hm
    exact h5 (h d (List.getElem?_mem h1) h3 h4)

theorem notifySenders_noDrift (env : Env) :
    ∀ (senders : List (String × HotelConnection)) (w : World),
      (∀ p ∈ senders, NoDrift w.orderDb p.2.hotelId p.1) → notifySenders env senders w = w := by
  intro senders
  induction senders with
  | nil => intro w _; rfl
  | cons p rest ih =>
    intro w h
    obtain ⟨sender, conn⟩ := p
    have h1 := findOrdersToUpdate_noDrift _ _ _ (h (sender, conn) (List.mem_cons_self _ _))
    simp only at h1
    unfold notifySenders
    split
    · simp only [h1, notifyOrders]
      exact ih w (fun p hp => h p (List.mem_cons_of_mem _ hp))
    · rfl

/-- C5 (amended): when the queries and saves of a notifier tick succeed, a second tick that follows it
with no status change in between leaves the state as it is: it emits no outbound message (and attempts
none). -/
theorem checkForOrderUpdates_idempotent (env1 env2 : Env) (w : World)
    (hr : env1.readOk = true) (hsave : ∀ i, env1.saveError i = none) :
    checkForOrderUpdates env2 (checkForOrderUpdates env1 w) = checkForOrderUpdates env1 w ∧
    (checkForOrderUpdates env2 (checkForOrderUpdates env1 w)).outbox =
      (checkForOrderUpdates env1 w).outbox ∧
    (checkForOrderUpdates env2 (checkForOrderUpdates env1 w)).dropped =
      (checkForOrderUpdates env1 w).dropped := by
  have key : checkForOrderUpdates env2 (checkForOrderUpdates env1 w) =
      checkForOrderUpdates env1 w := by
    obtain ⟨_, h2, h3⟩ := notifySenders_settles env1 hr hsave w.hotelIds w
    show notifySenders env2 (checkForOrderUpdates env1 w).hotelIds (checkForOrderUpdates env1 w) = _
    have hh : (checkForOrderUpdates env1 w).hotelIds = w.hotelIds := h2
    rw [hh]
    exact notifySenders_noDrift env2 _ _ h3
  exact ⟨key, by rw [key], by rw [key]⟩

theorem sendReply_delivered (env : Env) (w : World) (sender reply : String)
    (hwin : isWithin24Hours env.now (getLastInteractionTimestamp w sender) = true)
    (ht : ∀ m, env.transport m = true) :
    sendReply env w sender reply true =
      { w with outbox := w.outbox ++ [.text sender reply, .buttons sender statusButtonText statusButtons] } := by
  have hwin2 : ∀ o, isWithin24Hours env.now
      (getLastInteractionTimestamp { w with outbox := o } sender) = true := fun _ => hwin
  simp only [sendReply, hwin, if_true, sendTextMessage, post, ht, sendReplyWithButton, sendInWindow,
    hwin2, Bool.false_eq_true, if_false, statusButtons, List.append_assoc, List.singleton_append]

/-- C7 (amended): for a bound sender, inside the 24-hour window, whose only order with a pending notice has
status `Cooking` and notified status `Pending`, one notifier tick emits two outbound messages for that
order, the text "Your food is being cooked!" followed by the status-button prompt, and sets the
order's notified status to `Cooking`; the tick then goes on with the other bound senders. -/
theorem tick_cooking_notice (env : Env) (w : World) (sender : String) (conn : HotelConnection)
    (rest : List (String × HotelConnection)) (idx : Nat) (order : OrderDoc)
    (hh : w.hotelIds = (sender, conn) :: rest)
    (hr : env.readOk = true) (hsave : env.saveError idx = none)
    (hwin : isWithin24Hours env.now (getLastInteractionTimestamp w sender) = true)
    (ht : ∀ m, env.transport m = true)
    (hfind : findOrdersToUpdate w.orderDb conn.hotelId sender = [(idx, order)])
    (hst : order.status = .Cooking) (hln : order.lastNotifiedStatus = .Pending) :
    checkForOrderUpdates env w =
      notifySenders env rest
        { w with
          outbox := w.outbox ++
            [.text sender "Your food is being cooked!", .buttons sender statusButtonText statusButtons]
          orderDb := w.orderDb.set idx ⟨conn.hotelId, { order with lastNotifiedStatus := .Cooking }⟩ } := by
  have hm : (idx, order) ∈ findOrdersToUpdate w.orderDb conn.hotelId sender := by
    rw [hfind]; simp
  obtain ⟨d, h1, h2, h3, _⟩ := (mem_findOrdersToUpdate _ _ _ _ _).mp hm
  have hd : d = ⟨conn.hotelId, order⟩ := by
    cases d; simp only at h2 h3; subst h2 h3; rfl
  subst hd
  have hne : order.status ≠ order.lastNotifiedStatus := by rw [hst, hln]; decide
  simp only [checkForOrderUpdates, hh, notifySenders, hr, if_true, hfind, notifyOrders, ne_eq,
    hne, not_false_eq_true, sendStatusUpdate, hsave]
  rw [sendReply_delivered env w sender _ hwin ht]
  simp only [updateOrder, List.get?_eq_getElem?, h1, hst, statusUpdateMessage]
  rw [hh]

/-- The amended C7 at the example sender: the whole tick. -/
theorem tick_cooking_notice_witness :
    checkForOrderUpdates (exampleEnv 1000) tickWorld =
      { tickWorld with
        outbox := [.text "919900000001" "Your food is being cooked!",
          .buttons "919900000001" statusButtonText statusButtons]
        orderDb := [⟨"h1", { cookingOrder with lastNotifiedStatus := .Cooking }⟩] } :=
  tick_cooking_notice (exampleEnv 1000) tickWorld "919900000001" ⟨"h1", 0⟩ [] 0 cookingOrder
    rfl rfl rfl (by decide) (fun _ => rfl) (by decide) rfl rfl

/-- C7 as stated fails: the tick emits two outbound messages for the order, not exactly one. -/
theorem tick_emits_two_messages :
    (checkForOrderUpdates (exampleEnv 1000) tickWorld).outbox =
      [.text "919900000001" "Your food is being cooked!",
       .buttons "919900000001" statusButtonText statusButtons] ∧
    (checkForOrderUpdates (exampleEnv 1000) tickWorld).outbox.length ≠ 1 := by
  decide

/-- C6 on the code: when every post to the messaging API fails, the tick still sets the notified
status of the order to `Cooking`, nothing reaches the user, and the next tick sends nothing. -/
theorem tick_advances_status_when_send_fails :
    (checkForOrderUpdates (transportDownEnv 1000) tickWorld).outbox = [] ∧
    (checkForOrderUpdates (transportDownEnv 1000) tickWorld).dropped =
      [.text "919900000001" "Your food is being cooked!",
       .buttons "919900000001" statusButtonText statusButtons] ∧
    (checkForOrderUpdates (transportDownEnv 1000) tickWorld).orderDb =
      [⟨"h1", { cookingOrder with lastNotifiedStatus := .Cooking }⟩] ∧
    checkForOrderUpdates (exampleEnv 61000) (checkForOrderUpdates (transportDownEnv 1000) tickWorld) =
      checkForOrderUpdates (transportDownEnv 1000) tickWorld := by
  refine ⟨by decide, by decide, by decide, ?_⟩
  rfl

theorem fields_of_session {a b : World} (h : a.session = b.session) :
    a.orderDb = b.orderDb ∧ a.hotelIds = b.hotelIds ∧ a.awaitingHotelId = b.awaitingHotelId ∧
    a.awaitingQuantity = b.awaitingQuantity ∧ a.awaitingOrderId = b.awaitingOrderId ∧
    a.menuItems = b.menuItems ∧ a.orders = b.orders ∧ a.gatewayCalls = b.gatewayCalls ∧
    a.userInteractionTimestamps = b.userInteractionTimestamps ∧ a.menuDb = b.menuDb ∧
    a.timers = b.timers := by
  have h1 := congrArg World.orderDb h
  have h2 := congrArg World.hotelIds h
  have h3 := congrArg World.awaitingHotelId h
  have h4 := congrArg World.awaitingQuantity h
  have h5 := congrArg World.awaitingOrderId h
  have h6 := congrArg World.menuItems h
  have h7 := congrArg World.orders h
  have h8 := congrArg World.gatewayCalls h
  have h9 := congrArg World.userInteractionTimestamps h
  have h10 := congrArg World.menuDb h
  have h11 := congrArg World.timers h
  exact ⟨h1, h2, h3, h4, h5, h6, h7, h8, h9, h10, h11⟩

theorem within_after_update (env : Env) (w : World) (sender : String) :
    isWithin24Hours env.now
      (getLastInteractionTimestamp (updateLastInteraction w env.now sender) sender) = true := by
  simp [isWithin24Hours, getLastInteractionTimestamp, updateLastInteraction, Dict.get_set_self]

theorem webhook_placeOrder (env : Env) (w : World) (sender : String) (conn : HotelConnection)
    (hb : w.hotelIds.get sender = some conn) (hact : env.now - conn.timestamp < 3600000)
    (hq : w.awaitingQuantity.get sender = none) (ho : w.awaitingOrderId.get sender ≠ some true) :
    webhook env w sender "PlaceOrder" =
      sendOrderSummary env (updateLastInteraction w env.now sender) sender := by
  simp [webhook, handleIncomingMessage, handleBody, updateLastInteraction, hb,
    isHotelConnectionActive, hact, hq, ho]

/-- C8 (amended): for a bound idle sender whose cart is empty or absent, `PlaceOrder` is answered by
`sendReply` with the "You have no items in your order" text, which posts that text followed by the
status-button prompt (two outbound messages); no order is persisted and binding, flags, catalog and
cart are unchanged. -/
theorem placeOrder_empty_cart (env : Env) (w : World) (sender : String) (conn : HotelConnection)
    (hb : w.hotelIds.get sender = some conn) (hact : env.now - conn.timestamp < 3600000)
    (hq : w.awaitingQuantity.get sender = none) (ho : w.awaitingOrderId.get sender ≠ some true)
    (hcart : cartItems w sender = []) :
    webhook env w sender "PlaceOrder" =
        sendReply env (updateLastInteraction w env.now sender) sender noItemsText true ∧
    ((∀ m, env.transport m = true) →
      (webhook env w sender "PlaceOrder").outbox =
        w.outbox ++ [.text sender noItemsText, .buttons sender statusButtonText statusButtons]) ∧
    (webhook env w sender "PlaceOrder").orderDb = w.orderDb ∧
    (webhook env w sender "PlaceOrder").hotelIds = w.hotelIds ∧
    (webhook env w sender "PlaceOrder").awaitingHotelId = w.awaitingHotelId ∧
    (webhook env w sender "PlaceOrder").awaitingQuantity = w.awaitingQuantity ∧
    (webhook env w sender "PlaceOrder").awaitingOrderId = w.awaitingOrderId ∧
    (webhook env w sender "PlaceOrder").menuItems = w.menuItems ∧
    (webhook env w sender "PlaceOrder").orders = w.orders := by
  have h0 : webhook env w sender "PlaceOrder" =
      sendReply env (updateLastInteraction w env.now sender) sender noItemsText true := by
    rw [webhook_placeOrder env w sender conn hb hact hq ho]
    unfold sendOrderSummary
    have : (updateLastInteraction w env.now sender).orders = w.orders := rfl
    rw [this]
    unfold cartItems at hcart
    cases hc : w.orders.get sender with
    | none => rfl
    | some cart =>
      rw [hc] at hcart
      simp only at hcart
      simp [hcart, noItemsText]
  have hs := sendReply_session env (updateLastInteraction w env.now sender) sender noItemsText true
  rw [← h0] at hs
  refine ⟨h0, ?_, ?_, ?_, ?_, ?_, ?_, ?_, ?_⟩
  · intro ht
    rw [h0, sendReply_delivered env _ sender _ (within_after_update env w sender) ht]
    rfl
  · exact (fields_of_session hs).1
  · exact (fields_of_session hs).2.1
  · exact (fields_of_session hs).2.2.1
  · exact (fields_of_session hs).2.2.2.1
  · exact (fields_of_session hs).2.2.2.2.1
  · exact (fields_of_session hs).2.2.2.2.2.1
  · exact (fields_of_session hs).2.2.2.2.2.2.1

/-- The amended C8 at the example sender. -/
theorem placeOrder_empty_cart_witness :
    (webhook (exampleEnv 1000) tickWorld "919900000001" "PlaceOrder").outbox =
      [.text "919900000001" noItemsText, .buttons "919900000001" statusButtonText statusButtons] :=
  (placeOrder_empty_cart (exampleEnv 1000) tickWorld "919900000001" ⟨"h1", 0⟩
    rfl (by decide) rfl (by decide) rfl).2.1 (fun _ => rfl)

/-- C8 as stated fails: `PlaceOrder` on an empty cart produces two outbound messages, not exactly one. -/
theorem placeOrder_empty_cart_two_messages :
    (webhook (exampleEnv 1000) tickWorld "919900000001" "PlaceOrder").outbox =
      [.text "919900000001" noItemsText, .buttons "919900000001" statusButtonText statusButtons] ∧
    (webhook (exampleEnv 1000) tickWorld "919900000001" "PlaceOrder").outbox.length ≠ 1 := by
  decide

theorem sendReceipt_session (env : Env) (w : World) (sender orderId : String) :
    (sendReceipt env w sender orderId).session = w.session := by
  unfold sendReceipt
  split
  · exact sendReply_session _ _ _ _ _
  · split
    · split
      · exact sendReply_session _ _ _ _ _
      · exact sendReply_session _ _ _ _ _
    · exact sendReply_session _ _ _ _ _

theorem handleBody_payCash (env : Env) (w : World) (sender : String) (conn : HotelConnection)
    (hb : w.hotelIds.get sender = some conn) (hact : env.now - conn.timestamp < 3600000)
    (hq : w.awaitingQuantity.get sender = none) (ho : w.awaitingOrderId.get sender ≠ some true) :
    handleBody env (updateLastInteraction w env.now sender) sender "PayCash" =
      handlePayCash env (updateLastInteraction w env.now sender) sender := by
  have s1 : startsWith "PayCash" "Item_" = false := by decide
  have s2 : startsWith "PayCash" "Remove_" = false := by decide
  have s3 : startsWith "PayCash" "CancelOrder_" = false := by decide
  simp [handleBody, updateLastInteraction, hb, isHotelConnectionActive, hact, hq, ho, s1, s2, s3]

theorem webhook_paymentCompleted (env : Env) (w : World) (sender : String) (conn : HotelConnection)
    (hb : w.hotelIds.get sender = some conn) (hact : env.now - conn.timestamp < 3600000)
    (hq : w.awaitingQuantity.get sender = none) (ho : w.awaitingOrderId.get sender ≠ some true) :
    webhook env w sender "PaymentCompleted" =
      handlePaymentCompleted env (updateLastInteraction w env.now sender) sender := by
  have s1 : startsWith "PaymentCompleted" "Item_" = false := by decide
  have s2 : startsWith "PaymentCompleted" "Remove_" = false := by decide
  have s3 : startsWith "PaymentCompleted" "CancelOrder_" = false := by decide
  simp [webhook, handleIncomingMessage, handleBody, updateLastInteraction, hb,
    isHotelConnectionActive, hact, hq, ho, s1, s2, s3]

theorem handlePayCash_saved (env : Env) (w : World) (sender : String) (conn : HotelConnection)
    (cart : Cart)
    (hb : w.hotelIds.get sender = some conn) (hact : env.now - conn.timestamp < 3600000)
    (hq : w.awaitingQuantity.get sender = none) (ho : w.awaitingOrderId.get sender ≠ some true)
    (hc : w.orders.get sender = some cart) (hne : cart.items ≠ [])
    (hsave : env.saveError w.orderDb.length = none) :
    (webhook env w sender "PayCash").orderDb =
      w.orderDb ++ [⟨conn.hotelId,
        { sender := sender, items := cart.items.map CartLine.toOrderItem, orderId := env.orderId,
          totalAmount := cartTotal cart.items, paymentMethod := .Cash, paymentStatus := .Pending,
          date := env.now, status := .Pending, lastNotifiedStatus := .Pending }⟩] ∧
    (webhook env w sender "PayCash").orders.get sender = none ∧
    cartItems (webhook env w sender "PayCash") sender = [] := by
  have hlen : cart.items.length > 0 := List.length_pos.mpr hne
  have hsave0 : saveOrderToDatabase env (updateLastInteraction w env.now sender) sender env.orderId
      .Cash .Pending =
      .ok (resetOrder { updateLastInteraction w env.now sender with
        orderDb := w.orderDb ++ [⟨conn.hotelId,
          { sender := sender, items := cart.items.map CartLine.toOrderItem, orderId := env.orderId,
            totalAmount := cartTotal cart.items, paymentMethod := .Cash, paymentStatus := .Pending,
            date := env.now, status := .Pending, lastNotifiedStatus := .Pending }⟩] } sender) := by
    simp [saveOrderToDatabase, updateLastInteraction, hb, hc, hlen, hsave]
  have hs : (webhook env w sender "PayCash").session = World.session
      (resetOrder { updateLastInteraction w env.now sender with
        orderDb := w.orderDb ++ [⟨conn.hotelId,
          { sender := sender, items := cart.items.map CartLine.toOrderItem, orderId := env.orderId,
            totalAmount := cartTotal cart.items, paymentMethod := .Cash, paymentStatus := .Pending,
            date := env.now, status := .Pending, lastNotifiedStatus := .Pending }⟩] } sender) := by
    unfold webhook handleIncomingMessage
    rw [handleBody_payCash env w sender conn hb hact hq ho]
    simp only [handlePayCash, hsave0, sendReply_session, sendReceipt_session]
  obtain ⟨f1, _, _, _, _, _, f7, _⟩ := fields_of_session hs
  have horders : (webhook env w sender "PayCash").orders.get sender = none := by
    rw [f7]
    exact Dict.get_del_self _ _
  refine ⟨f1, horders, ?_⟩
  simp [cartItems, horders]

theorem cartTotal_exact_total (items : List CartLine) (h : SafeTotal items) :
    cartTotal items = .fin (specTotal items) := by
  unfold cartTotal specTotal
  rw [JsNum.zero_eq]
  have := foldl_mul_exact (fun l : CartLine => l.price) (fun l => l.quantity) items 0
    h.1 (by simpa using h.2)
  simpa using this

/-- C9 (amended): for a bound idle sender with a non-empty cart, when the save succeeds, `PayCash`
appends exactly one order to the collection of the bound hotel, with that sender, the cart lines in
order, the total that the loop `totalAmount += item.price * item.quantity` accumulates in Numbers,
`Cash`, payment status `Pending`, status `Pending` and notified status `Pending`; afterwards the
sender has no cart. When the prices and quantities are integers with the sum of the absolute products
within the safe integers, that total is exactly the sum of price times quantity. -/
theorem payCash_persists_order (env : Env) (w : World) (sender : String) (conn : HotelConnection)
    (cart : Cart)
    (hb : w.hotelIds.get sender = some conn) (hact : env.now - conn.timestamp < 3600000)
    (hq : w.awaitingQuantity.get sender = none) (ho : w.awaitingOrderId.get sender ≠ some true)
    (hc : w.orders.get sender = some cart) (hne : cart.items ≠ [])
    (hsave : env.saveError w.orderDb.length = none) :
    (webhook env w sender "PayCash").orderDb =
      w.orderDb ++ [⟨conn.hotelId,
        { sender := sender, items := cart.items.map CartLine.toOrderItem, orderId := env.orderId,
          totalAmount := cartTotal cart.items, paymentMethod := .Cash,
          paymentStatus := .Pending,
          date := env.now, status := .Pending, lastNotifiedStatus := .Pending }⟩] ∧
    (webhook env w sender "PayCash").orders.get sender = none ∧
    cartItems (webhook env w sender "PayCash") sender = [] ∧
    (SafeTotal cart.items → cartTotal cart.items = .fin (specTotal cart.items)) := by
  obtain ⟨h1, h2, h3⟩ := handlePayCash_saved env w sender conn cart hb hact hq ho hc hne hsave
  exact ⟨h1, h2, h3, cartTotal_exact_total cart.items⟩

/-- C10: when persisting the order fails during checkout (`PayCash`, or `PaymentCompleted` with a paid
payment link), the cart entry of the sender and the order store are as before the message and the
user receives a failure reply that asks to try again. -/
theorem checkout_persist_failure_keeps_cart (env : Env) (w : World) (sender : String)
    (conn : HotelConnection) (cart : Cart) (e : String)
    (hb : w.hotelIds.get sender = some conn) (hact : env.now - conn.timestamp < 3600000)
    (hq : w.awaitingQuantity.get sender = none) (ho : w.awaitingOrderId.get sender ≠ some true)
    (hc : w.orders.get sender = some cart) (hne : cart.items ≠ [])
    (hfail : env.saveError w.orderDb.length = some e) :
    (webhook env w sender "PayCash" =
        sendReply env (updateLastInteraction w env.now sender) sender
          ("An error occurred: " ++ e ++ ". Please try again.") true ∧
      (webhook env w sender "PayCash").orders = w.orders ∧
      (webhook env w sender "PayCash").orderDb = w.orderDb) ∧
    (∀ id, cart.paymentLinkId = some id → id ≠ "" → env.gatewayFetch id = some "paid" →
      webhook env w sender "PaymentCompleted" =
        sendReply env
          { updateLastInteraction w env.now sender with
            gatewayCalls := w.gatewayCalls ++ [.fetch id] } sender
          "Failed to verify payment. Please try again later." true ∧
      (webhook env w sender "PaymentCompleted").orders = w.orders ∧
      (webhook env w sender "PaymentCompleted").orderDb = w.orderDb) := by
  have hlen : cart.items.length > 0 := List.length_pos.mpr hne
  constructor
  · have hsave0 : saveOrderToDatabase env (updateLastInteraction w env.now sender) sender
        env.orderId .Cash .Pending = .threw (updateLastInteraction w env.now sender) e := by
      simp [saveOrderToDatabase, updateLastInteraction, hb, hc, hlen, hfail]
    have hw : webhook env w sender "PayCash" =
        sendReply env (updateLastInteraction w env.now sender) sender
          ("An error occurred: " ++ e ++ ". Please try again.") true := by
      unfold webhook handleIncomingMessage
      rw [handleBody_payCash env w sender conn hb hact hq ho]
      simp only [handlePayCash, hsave0]
    have hs := sendReply_session env (updateLastInteraction w env.now sender) sender
      ("An error occurred: " ++ e ++ ". Please try again.") true
    rw [← hw] at hs
    obtain ⟨f1, _, _, _, _, _, f7, _⟩ := fields_of_session hs
    exact ⟨hw, f7, f1⟩
  · intro id hid hne2 hfetch
    have hw := webhook_paymentCompleted env w sender conn hb hact hq ho
    have hsave0 : saveOrderToDatabase env
        { updateLastInteraction w env.now sender with
            gatewayCalls := w.gatewayCalls ++ [.fetch id] } sender
        env.orderId .Online .Paid =
        .threw { updateLastInteraction w env.now sender with
            gatewayCalls := w.gatewayCalls ++ [.fetch id] } e := by
      simp [saveOrderToDatabase, updateLastInteraction, hb, hc, hlen, hfail]
    have hw2 : webhook env w sender "PaymentCompleted" =
        sendReply env
          { updateLastInteraction w env.now sender with
            gatewayCalls := w.gatewayCalls ++ [.fetch id] } sender
          "Failed to verify payment. Please try again later." true := by
      rw [hw]
      have ho2 : (updateLastInteraction w env.now sender).orders.get sender = some cart := hc
      simp only [handlePaymentCompleted, ho2, hid, truthy, ne_eq, hne2, not_false_eq_true,
        decide_True, if_true, Option.getD_some, hfetch]
      have hg : (updateLastInteraction w env.now sender).gatewayCalls = w.gatewayCalls := rfl
      rw [hg, hsave0]
    have hs := sendReply_session env { updateLastInteraction w env.now sender with
            gatewayCalls := w.gatewayCalls ++ [.fetch id] } sender
          "Failed to verify payment. Please try again later." true
    rw [← hw2] at hs
    obtain ⟨f1, _, _, _, _, _, f7, _⟩ := fields_of_session hs
    exact ⟨hw2, f7, f1⟩

set_option maxRecDepth 20000 in
/-- C2 at the cart of two burgers (price 100) and one cola (price 50): the total reported is 250. -/
theorem sendOrderSummary_reports_witness :
    sendOrderSummary (exampleEnv 1000) cartWorld "919900000001" =
      sendReplyWithPaymentOptions (exampleEnv 1000) cartWorld "919900000001"
        (summaryLinesText [burger.toLine 2, cola.toLine 1] ++
          ("Total Amount: ₹" ++
            numToString (.fin (specTotal [burger.toLine 2, cola.toLine 1])) ++ "\n") ++
          ("Estimated Waiting Time: " ++
            numToString
              (.fin ((specAverageEstimatedTime [burger.toLine 2, cola.toLine 1] : ℤ) : ℚ)) ++
            " minutes\n")) ∧
    (sendOrderSummary (exampleEnv 1000) cartWorld "919900000001").outbox =
      [.buttons "919900000001"
        "Order Summary:\nBurger x 2 = ₹200\nCola x 1 = ₹50\nTotal Amount: ₹250\nEstimated Waiting Time: 8 minutes\n\n\nPlease choose a payment method:"
        [⟨"PayOnline", "Pay Online"⟩, ⟨"PayCash", "Pay Cash"⟩,
         ⟨"DisconnectHotel", "Disconnect Hotel"⟩]] :=
  ⟨(sendOrderSummary_reports (exampleEnv 1000) cartWorld "919900000001"
      ⟨[burger.toLine 2, cola.toLine 1], some "plink_1", some "https://rzp.io/i/abc", some 250⟩
      rfl (by decide) (by decide!) (by decide!)).1,
   by decide!⟩

/-- C4 at the example sender: a pending order is cancelled, an order being cooked and an unknown id are refused. -/
theorem cancelOrder_only_pending_witness :
    (cancelOrder (exampleEnv 1000) pendingWorld "919900000001" "48213377").orderDb =
        [⟨"h1", { cookingOrder with status := .Cancelled }⟩] ∧
    cancelOrder (exampleEnv 1000) tickWorld "919900000001" "48213377" =
        sendReply (exampleEnv 1000) tickWorld "919900000001" cannotCancelText true ∧
    cancelOrder (exampleEnv 1000) tickWorld "919900000001" "00000000" =
        sendReply (exampleEnv 1000) tickWorld "919900000001" cannotCancelText true :=
  ⟨((cancelOrder_only_pending (exampleEnv 1000) pendingWorld "919900000001" "48213377" ⟨"h1", 0⟩
      rfl rfl).1 0 { cookingOrder with status := .Pending } (by decide) rfl rfl).2,
   ((cancelOrder_only_pending (exampleEnv 1000) tickWorld "919900000001" "48213377" ⟨"h1", 0⟩
      rfl rfl).2.1 (by
        intro idx order h
        have h2 : findOrder tickWorld.orderDb "h1" "48213377" "919900000001" =
            some (0, cookingOrder) := by decide
        have h3 : some (0, cookingOrder) = some (idx, order) := h2.symm.trans h
        cases h3
        decide)).2,
   ((cancelOrder_only_pending (exampleEnv 1000) tickWorld "919900000001" "00000000" ⟨"h1", 0⟩
      rfl rfl).2.1 (by
        intro idx order h
        have h2 : findOrder tickWorld.orderDb "h1" "00000000" "919900000001" = none := by decide
        have h3 : none = some (idx, order) := h2.symm.trans h
        cases h3)).2⟩

/-- C5 at the example sender: the second tick adds nothing to the outbox. -/
theorem checkForOrderUpdates_idempotent_witness :
    (checkForOrderUpdates (exampleEnv 61000) (checkForOrderUpdates (exampleEnv 1000) tickWorld)).outbox =
      (checkForOrderUpdates (exampleEnv 1000) tickWorld).outbox :=
  (checkForOrderUpdates_idempotent (exampleEnv 1000) (exampleEnv 61000) tickWorld rfl
    (fun _ => rfl)).2.1

set_option maxRecDepth 20000 in
/-- C9 at the cart of two burgers and one cola. -/
theorem payCash_persists_order_witness :
    (webhook (exampleEnv 1000) cartWorld "919900000001" "PayCash").orderDb =
      [⟨"h1",
        { sender := "919900000001",
          items := [⟨"b1", "Burger", 100, 2, 10⟩, ⟨"c1", "Cola", 50, 1, 3⟩],
          orderId := "48213377", totalAmount := 250, paymentMethod := .Cash,
          paymentStatus := .Pending, date := 1000, status := .Pending,
          lastNotifiedStatus := .Pending }⟩] ∧
    cartItems (webhook (exampleEnv 1000) cartWorld "919900000001" "PayCash") "919900000001" = [] ∧
    cartTotal [burger.toLine 2, cola.toLine 1] = .fin (specTotal [burger.toLine 2, cola.toLine 1]) :=
  ⟨((payCash_persists_order (exampleEnv 1000) cartWorld "919900000001" ⟨"h1", 0⟩
      ⟨[burger.toLine 2, cola.toLine 1], some "plink_1", some "https://rzp.io/i/abc", some 250⟩
      rfl (by decide) rfl (by decide) rfl (by decide) rfl).1).trans (by decide!),
   (payCash_persists_order (exampleEnv 1000) cartWorld "919900000001" ⟨"h1", 0⟩
      ⟨[burger.toLine 2, cola.toLine 1], some "plink_1", some "https://rzp.io/i/abc", some 250⟩
      rfl (by decide) rfl (by decide) rfl (by decide) rfl).2.2.1,
   (payCash_persists_order (exampleEnv 1000) cartWorld "919900000001" ⟨"h1", 0⟩
      ⟨[burger.toLine 2, cola.toLine 1], some "plink_1", some "https://rzp.io/i/abc", some 250⟩
      rfl (by decide) rfl (by decide) rfl (by decide) rfl).2.2.2 (by decide!)⟩

/-- C10 at the cart of two burgers and one cola with a failing save. -/
theorem checkout_persist_failure_keeps_cart_witness :
    (webhook (saveFailsEnv 1000 "write failed") cartWorld "919900000001" "PayCash" =
        sendReply (saveFailsEnv 1000 "write failed")
          (updateLastInteraction cartWorld 1000 "919900000001") "919900000001"
          ("An error occurred: " ++ "write failed" ++ ". Please try again.") true ∧
      (webhook (saveFailsEnv 1000 "write failed") cartWorld "919900000001" "PayCash").orders =
        cartWorld.orders ∧
      (webhook (saveFailsEnv 1000 "write failed") cartWorld "919900000001" "PayCash").orderDb = []) ∧
    (webhook (saveFailsEnv 1000 "write failed") cartWorld "919900000001" "PaymentCompleted").orders =
      cartWorld.orders ∧
    (webhook (saveFailsEnv 1000 "write failed") cartWorld "919900000001" "PayCash").outbox =
      [.text "919900000001" "An error occurred: write failed. Please try again.",
       .buttons "919900000001" statusButtonText statusButtons] ∧
    (webhook (saveFailsEnv 1000 "write failed") cartWorld "919900000001" "PaymentCompleted").outbox =
      [.text "919900000001" "Failed to verify payment. Please try again later.",
       .buttons "919900000001" statusButtonText statusButtons] :=
  ⟨(checkout_persist_failure_keeps_cart (saveFailsEnv 1000 "write failed") cartWorld "919900000001"
      ⟨"h1", 0⟩
      ⟨[burger.toLine 2, cola.toLine 1], some "plink_1", some "https://rzp.io/i/abc", some 250⟩
      "write failed" rfl (by decide) rfl (by decide) rfl (by decide) rfl).1,
   ((checkout_persist_failure_keeps_cart (saveFailsEnv 1000 "write failed") cartWorld "919900000001"
      ⟨"h1", 0⟩
      ⟨[burger.toLine 2, cola.toLine 1], some "plink_1", some "https://rzp.io/i/abc", some 250⟩
      "write failed" rfl (by decide) rfl (by decide) rfl (by decide) rfl).2
        "plink_1" rfl (by decide) rfl).2.1,
   by decide, by decide⟩

theorem webhook_cancelOrderCommand (env : Env) (w : World) (sender : String)
    (conn : HotelConnection)
    (hb : w.hotelIds.get sender = some conn) (hact : env.now - conn.timestamp < 3600000)
    (hq : w.awaitingQuantity.get sender = none) (ho : w.awaitingOrderId.get sender ≠ some true) :
    webhook env w sender "CancelOrder" =
      handleCancelOrder env (updateLastInteraction w env.now sender) sender := by
  have s1 : startsWith "CancelOrder" "Item_" = false := by decide
  have s2 : startsWith "CancelOrder" "Remove_" = false := by decide
  have s3 : startsWith "CancelOrder" "CancelOrder_" = false := by decide
  simp [webhook, handleIncomingMessage, handleBody, updateLastInteraction, hb,
    isHotelConnectionActive, hact, hq, ho, s1, s2, s3]

theorem handleCancelOrder_eq (env : Env) (w : World) (sender : String) :
    handleCancelOrder env w sender =
      sendReply env (resetOrder w sender) sender "Your order has been cancelled." true := by
  have hs := sendReply_session env (resetOrder w sender) sender "Your order has been cancelled." true
  have ho : (sendReply env (resetOrder w sender) sender "Your order has been cancelled." true).orders.get
      sender = none := by
    rw [(fields_of_session hs).2.2.2.2.2.2.1]
    exact Dict.get_del_self _ _
  simp only [handleCancelOrder, ho]

/-- C11 on the code: for a bound idle sender with a payment link and a non-empty cart, when the gateway
reports the link as paid and the save succeeds, `PaymentCompleted` persists the `Online`/`Paid` order,
deletes the cart entry and sends the receipt, and then answers "Failed to verify payment. Please try
again later.": the cart entry is gone when its `paymentLinkId` is deleted, which throws. -/
theorem paymentCompleted_paid_ends_in_failure_reply (env : Env) (w : World) (sender : String)
    (conn : HotelConnection) (cart : Cart) (id : String)
    (hb : w.hotelIds.get sender = some conn) (hact : env.now - conn.timestamp < 3600000)
    (hq : w.awaitingQuantity.get sender = none) (ho : w.awaitingOrderId.get sender ≠ some true)
    (hc : w.orders.get sender = some cart) (hne : cart.items ≠ [])
    (hid : cart.paymentLinkId = some id) (hid2 : id ≠ "")
    (hfetch : env.gatewayFetch id = some "paid")
    (hsave : env.saveError w.orderDb.length = none) :
    webhook env w sender "PaymentCompleted" =
      sendReply env
        (sendReceipt env
          (resetOrder
            { updateLastInteraction w env.now sender with
              gatewayCalls := w.gatewayCalls ++ [.fetch id]
              orderDb := w.orderDb ++ [⟨conn.hotelId,
                { sender := sender, items := cart.items.map CartLine.toOrderItem,
                  orderId := env.orderId, totalAmount := cartTotal cart.items,
                  paymentMethod := .Online, paymentStatus := .Paid, date := env.now,
                  status := .Pending, lastNotifiedStatus := .Pending }⟩] } sender)
          sender env.orderId)
        sender "Failed to verify payment. Please try again later." true := by
  have hlen : cart.items.length > 0 := List.length_pos.mpr hne
  rw [webhook_paymentCompleted env w sender conn hb hact hq ho]
  have ho2 : (updateLastInteraction w env.now sender).orders.get sender = some cart := hc
  have hg : (updateLastInteraction w env.now sender).gatewayCalls = w.gatewayCalls := rfl
  have hsave0 : saveOrderToDatabase env
      { updateLastInteraction w env.now sender with
          gatewayCalls := w.gatewayCalls ++ [.fetch id] } sender env.orderId .Online .Paid =
      .ok (resetOrder
            { updateLastInteraction w env.now sender with
              gatewayCalls := w.gatewayCalls ++ [.fetch id]
              orderDb := w.orderDb ++ [⟨conn.hotelId,
                { sender := sender, items := cart.items.map CartLine.toOrderItem,
                  orderId := env.orderId, totalAmount := cartTotal cart.items,
                  paymentMethod := .Online, paymentStatus := .Paid, date := env.now,
                  status := .Pending, lastNotifiedStatus := .Pending }⟩] } sender) := by
    simp [saveOrderToDatabase, updateLastInteraction, hb, hc, hlen, hsave,
      resetOrder]
  simp only [handlePaymentCompleted, ho2, hid, truthy, ne_eq, hid2, not_false_eq_true,
    decide_True, if_true, Option.getD_some, hfetch, hg, hsave0]
  have hs := sendReceipt_session env
    (resetOrder
            { updateLastInteraction w env.now sender with
              gatewayCalls := w.gatewayCalls ++ [.fetch id]
              orderDb := w.orderDb ++ [⟨conn.hotelId,
                { sender := sender, items := cart.items.map CartLine.toOrderItem,
                  orderId := env.orderId, totalAmount := cartTotal cart.items,
                  paymentMethod := .Online, paymentStatus := .Paid, date := env.now,
                  status := .Pending, lastNotifiedStatus := .Pending }⟩] } sender)
    sender env.orderId
  have hnone : (sendReceipt env
    (resetOrder
            { updateLastInteraction w env.now sender with
              gatewayCalls := w.gatewayCalls ++ [.fetch id]
              orderDb := w.orderDb ++ [⟨conn.hotelId,
                { sender := sender, items := cart.items.map CartLine.toOrderItem,
                  orderId := env.orderId, totalAmount := cartTotal cart.items,
                  paymentMethod := .Online, paymentStatus := .Paid, date := env.now,
                  status := .Pending, lastNotifiedStatus := .Pending }⟩] } sender)
    sender env.orderId).orders.get sender = none := by
    rw [(fields_of_session hs).2.2.2.2.2.2.1]
    exact Dict.get_del_self _ _
  simp only [hnone]

set_option maxRecDepth 20000 in
/-- C11 at the example cart: the receipt is followed by the failure text, the confirmation is never sent. -/
theorem paymentCompleted_paid_ends_in_failure_reply_witness :
    webhook (exampleEnv 1000) cartWorld "919900000001" "PaymentCompleted" =
      sendReply (exampleEnv 1000)
        (sendReceipt (exampleEnv 1000)
          (resetOrder
            { updateLastInteraction cartWorld 1000 "919900000001" with
              gatewayCalls := [.fetch "plink_1"]
              orderDb := [⟨"h1",
                { sender := "919900000001",
                  items := [⟨"b1", "Burger", 100, 2, 10⟩, ⟨"c1", "Cola", 50, 1, 3⟩],
                  orderId := "48213377", totalAmount := 250,
                  paymentMethod := .Online, paymentStatus := .Paid, date := 1000,
                  status := .Pending, lastNotifiedStatus := .Pending }⟩] } "919900000001")
          "919900000001" "48213377")
        "919900000001" "Failed to verify payment. Please try again later." true ∧
    (webhook (exampleEnv 1000) cartWorld "919900000001" "PaymentCompleted").outbox =
      [.text "919900000001"
         "Order Receipt:\nOrder ID: 48213377\n\nBurger x 2 = ₹200\nCola x 1 = ₹50\n\nTotal Amount: ₹250\nPayment Method: Online\nOrder Status: Pending\n*Your Order Will Be Ready in* : 8 minutes\n\nThank you for your order!",
       .text "919900000001" "Failed to verify payment. Please try again later.",
       .buttons "919900000001" statusButtonText statusButtons] ∧
    (webhook (exampleEnv 1000) cartWorld "919900000001" "PaymentCompleted").orders.get
      "919900000001" = none :=
  ⟨by
    have h := paymentCompleted_paid_ends_in_failure_reply (exampleEnv 1000) cartWorld "919900000001"
      ⟨"h1", 0⟩
      ⟨[burger.toLine 2, cola.toLine 1], some "plink_1", some "https://rzp.io/i/abc", some 250⟩
      "plink_1" rfl (by decide) rfl (by decide) rfl (by decide) rfl (by decide) rfl rfl
    have e : cartTotal [burger.toLine 2, cola.toLine 1] = 250 := by decide!
    simp only [e] at h
    exact h,
   by decide!, by decide!⟩

/-- C12 on the code: for a bound idle sender, `CancelOrder` deletes the cart entry first and then looks
for its `paymentLinkId`, so no call reaches the payment gateway, whatever payment link was stored;
afterwards the sender has no cart entry. -/
theorem cancelOrder_command_never_reaches_gateway (env : Env) (w : World) (sender : String)
    (conn : HotelConnection)
    (hb : w.hotelIds.get sender = some conn) (hact : env.now - conn.timestamp < 3600000)
    (hq : w.awaitingQuantity.get sender = none) (ho : w.awaitingOrderId.get sender ≠ some true) :
    webhook env w sender "CancelOrder" =
        sendReply env (resetOrder (updateLastInteraction w env.now sender) sender) sender
          "Your order has been cancelled." true ∧
    (webhook env w sender "CancelOrder").gatewayCalls = w.gatewayCalls ∧
    (webhook env w sender "CancelOrder").orders.get sender = none := by
  have h0 : webhook env w sender "CancelOrder" =
      sendReply env (resetOrder (updateLastInteraction w env.now sender) sender) sender
        "Your order has been cancelled." true := by
    rw [webhook_cancelOrderCommand env w sender conn hb hact hq ho, handleCancelOrder_eq]
  have hs := sendReply_session env (resetOrder (updateLastInteraction w env.now sender) sender)
    sender "Your order has been cancelled." true
  rw [← h0] at hs
  refine ⟨h0, ?_, ?_⟩
  · exact (fields_of_session hs).2.2.2.2.2.2.2.1
  · rw [(fields_of_session hs).2.2.2.2.2.2.1]
    exact Dict.get_del_self _ _

/-- C12 at the example cart with the stored payment link `plink_1`: no gateway call is made. -/
theorem cancelOrder_command_never_reaches_gateway_witness :
    cartWorld.orders.get "919900000001" =
      some ⟨[burger.toLine 2, cola.toLine 1], some "plink_1", some "https://rzp.io/i/abc", some 250⟩ ∧
    (webhook (exampleEnv 1000) cartWorld "919900000001" "CancelOrder").gatewayCalls = [] ∧
    (webhook (exampleEnv 1000) cartWorld "919900000001" "CancelOrder").orders.get
      "919900000001" = none :=
  ⟨rfl, (cancelOrder_command_never_reaches_gateway (exampleEnv 1000) cartWorld "919900000001"
      ⟨"h1", 0⟩ rfl (by decide) rfl (by decide)).2⟩

/-- C20 on the code: for a bound idle sender and a message `Item_<id>` whose parsed id matches no item
of the loaded catalog, the turn only records the interaction time: nothing is sent, not even a failed
attempt. -/
theorem unknown_item_is_silent (env : Env) (w : World) (sender id k : String)
    (conn : HotelConnection) (items : List MenuItem)
    (hb : w.hotelIds.get sender = some conn) (hact : env.now - conn.timestamp < 3600000)
    (hq : w.awaitingQuantity.get sender = none) (ho : w.awaitingOrderId.get sender ≠ some true)
    (hm : w.menuItems.get sender = some items)
    (hk : splitField1 ("Item_" ++ id) = some k) (hno : ∀ i ∈ items, i.id ≠ k) :
    webhook env w sender ("Item_" ++ id) = updateLastInteraction w env.now sender ∧
    (webhook env w sender ("Item_" ++ id)).outbox = w.outbox ∧
    (webhook env w sender ("Item_" ++ id)).dropped = w.dropped := by
  have hf : items.find? (fun i => decide (i.id = k)) = none := by
    rw [List.find?_eq_none]
    intro l hl
    simpa using hno l hl
  have e1 := item_ne_literal id "ViewMenu" (by decide)
  have e2 := item_ne_literal id "PlaceOrder" (by decide)
  have e3 := item_ne_literal id "EditOrder" (by decide)
  have e4 := item_ne_literal id "MainMenu" (by decide)
  have e5 := item_ne_literal id "TrackOrderStatus" (by decide)
  have e6 := item_ne_literal id "TrackCurrentOrder" (by decide)
  have e7 := item_ne_literal id "TrackOrderByID" (by decide)
  have h0 : webhook env w sender ("Item_" ++ id) = updateLastInteraction w env.now sender := by
    simp [webhook, handleIncomingMessage, handleBody, updateLastInteraction, hb,
      isHotelConnectionActive, hact, hq, ho, e1, e2, e3, e4, e5, e6, e7, startsWith_item,
      handleItem, hk, hm, hf]
  exact ⟨h0, by rw [h0]; rfl, by rw [h0]; rfl⟩

/-- C20 at the example sender: `Item_zzz` with a catalog that holds only `b1`. -/
theorem unknown_item_is_silent_witness :
    (webhook (exampleEnv 1000) tickWorld "919900000001" ("Item_" ++ "zzz")).outbox = [] ∧
    (webhook (exampleEnv 1000) tickWorld "919900000001" ("Item_" ++ "zzz")).dropped = [] :=
  (unknown_item_is_silent (exampleEnv 1000) tickWorld "919900000001" "zzz" "zzz" ⟨"h1", 0⟩ [burger]
    rfl (by decide) rfl (by decide) rfl (by decide) (by decide)).2

theorem sendReplyInteractive_session (env : Env) (w : World) (sender : String) (m : Outbound) :
    (sendReplyInteractive env w sender m).session = w.session :=
  sendInWindow_session _ _ _ _

theorem sendCatalog_session (env : Env) (w : World) (sender text : String) :
    (sendCatalog env w sender text).session = w.session := by
  unfold sendCatalog
  exact sendReplyInteractive_session _ _ _ _

theorem sendReplyWithCancelOption_session (env : Env) (w : World) (sender reply orderId : String) :
    (sendReplyWithCancelOption env w sender reply orderId).session = w.session := by
  unfold sendReplyWithCancelOption
  exact sendInWindow_session _ _ _ _

theorem sendPaymentLinkWithButtons_session (env : Env) (w : World) (sender link total : String) :
    (sendPaymentLinkWithButtons env w sender link total).session = w.session := by
  unfold sendPaymentLinkWithButtons
  exact sendInWindow_session _ _ _ _

theorem sendReplyWithPaymentOptions_session (env : Env) (w : World) (sender text : String) :
    (sendReplyWithPaymentOptions env w sender text).session = w.session := by
  unfold sendReplyWithPaymentOptions
  exact sendReplyInteractive_session _ _ _ _

theorem sendTrackOrderOptions_session (env : Env) (w : World) (sender : String) :
    (sendTrackOrderOptions env w sender).session = w.session := by
  unfold sendTrackOrderOptions
  exact sendReplyInteractive_session _ _ _ _

theorem sendTrackingReply_session (env : Env) (w : World) (sender : String) (order : OrderDoc) :
    (sendTrackingReply env w sender order).session = w.session := by
  unfold sendTrackingReply
  dsimp only
  split
  · exact sendReplyWithCancelOption_session _ _ _ _ _
  · exact sendReplyWithButton_session _ _ _ _ _

theorem trackOrderStatus_session (env : Env) (w : World) (sender : String) :
    (trackOrderStatus env w sender).session = w.session := by
  unfold trackOrderStatus
  split
  · exact sendReplyWithButton_session _ _ _ _ _
  · split
    · split
      · exact sendTrackingReply_session _ _ _ _
      · exact sendReplyWithButton_session _ _ _ _ _
    · exact sendReplyWithButton_session _ _ _ _ _

theorem trackOrderByID_session (env : Env) (w : World) (sender orderId : String) :
    (trackOrderByID env w sender orderId).session = w.session := by
  unfold trackOrderByID
  split
  · exact sendReplyWithButton_session _ _ _ _ _
  · split
    · split
      · exact sendTrackingReply_session _ _ _ _
      · exact sendReplyWithButton_session _ _ _ _ _
    · exact sendReplyWithButton_session _ _ _ _ _

theorem sendMenuChunks_session (env : Env) (sender category : String) :
    ∀ (chunks : List (List MenuItem)) (i : Nat) (w : World),
      (sendMenuChunks env sender category i chunks w).session = w.session := by
  intro chunks
  induction chunks with
  | nil => intro i w; rfl
  | cons c rest ih =>
    intro i w
    unfold sendMenuChunks
    rw [ih, sendReplyInteractive_session]

theorem sendMenuCategories_session (env : Env) (sender : String) :
    ∀ (cats : List (String × List MenuItem)) (w : World),
      (sendMenuCategories env sender cats w).session = w.session := by
  intro cats
  induction cats with
  | nil => intro w; rfl
  | cons c rest ih =>
    intro w
    obtain ⟨category, items⟩ := c
    unfold sendMenuCategories
    rw [ih, sendMenuChunks_session]

theorem sendMenu_session (env : Env) (w : World) (sender : String) :
    (sendMenu env w sender).session = w.session := by
  unfold sendMenu
  split
  · exact sendReply_session _ _ _ _ _
  · split
    · exact sendReply_session _ _ _ _ _
    · exact sendMenuCategories_session _ _ _ _

theorem sendEditOrderOptions_session (env : Env) (w : World) (sender : String) :
    (sendEditOrderOptions env w sender).session = w.session := by
  unfold sendEditOrderOptions
  dsimp only
  split
  · exact sendReply_session _ _ _ _ _
  · exact sendReplyInteractive_session _ _ _ _

theorem sendOrderSummary_session (env : Env) (w : World) (sender : String) :
    (sendOrderSummary env w sender).session = w.session := by
  unfold sendOrderSummary
  split
  · split
    · exact sendReplyWithPaymentOptions_session _ _ _ _
    · exact sendReply_session _ _ _ _ _
  · exact sendReply_session _ _ _ _ _

theorem post_fields (env : Env) (w : World) (m : Outbound) :
    (post env w m).orderDb = w.orderDb ∧
    (post env w m).hotelIds = w.hotelIds ∧
    (post env w m).awaitingHotelId = w.awaitingHotelId ∧
    (post env w m).awaitingQuantity = w.awaitingQuantity ∧
    (post env w m).awaitingOrderId = w.awaitingOrderId ∧
    (post env w m).menuItems = w.menuItems ∧
    (post env w m).orders = w.orders ∧
    (post env w m).gatewayCalls = w.gatewayCalls ∧
    (post env w m).userInteractionTimestamps = w.userInteractionTimestamps ∧
    (post env w m).menuDb = w.menuDb ∧
    (post env w m).timers = w.timers :=
  fields_of_session (post_session env w m)

theorem sendInWindow_fields (env : Env) (w : World) (sender : String) (m : Outbound) :
    (sendInWindow env w sender m).orderDb = w.orderDb ∧
    (sendInWindow env w sender m).hotelIds = w.hotelIds ∧
    (sendInWindow env w sender m).awaitingHotelId = w.awaitingHotelId ∧
    (sendInWindow env w sender m).awaitingQuantity = w.awaitingQuantity ∧
    (sendInWindow env w sender m).awaitingOrderId = w.awaitingOrderId ∧
    (sendInWindow env w sender m).menuItems = w.menuItems ∧
    (sendInWindow env w sender m).orders = w.orders ∧
    (sendInWindow env w sender m).gatewayCalls = w.gatewayCalls ∧
    (sendInWindow env w sender m).userInteractionTimestamps = w.userInteractionTimestamps ∧
    (sendInWindow env w sender m).menuDb = w.menuDb ∧
    (sendInWindow env w sender m).timers = w.timers :=
  fields_of_session (sendInWindow_session env w sender m)

theorem sendReplyInteractive_fields (env : Env) (w : World) (sender : String) (m : Outbound) :
    (sendReplyInteractive env w sender m).orderDb = w.orderDb ∧
    (sendReplyInteractive env w sender m).hotelIds = w.hotelIds ∧
    (sendReplyInteractive env w sender m).awaitingHotelId = w.awaitingHotelId ∧
    (sendReplyInteractive env w sender m).awaitingQuantity = w.awaitingQuantity ∧
    (sendReplyInteractive env w sender m).awaitingOrderId = w.awaitingOrderId ∧
    (sendReplyInteractive env w sender m).menuItems = w.menuItems ∧
    (sendReplyInteractive env w sender m).orders = w.orders ∧
    (sendReplyInteractive env w sender m).gatewayCalls = w.gatewayCalls ∧
    (sendReplyInteractive env w sender m).userInteractionTimestamps = w.userInteractionTimestamps ∧
    (sendReplyInteractive env w sender m).menuDb = w.menuDb ∧
    (sendReplyInteractive env w sender m).timers = w.timers :=
  fields_of_session (sendReplyInteractive_session env w sender m)

theorem sendReplyWithButton_fields (env : Env) (w : World) (sender reply : String) (c : Bool) :
    (sendReplyWithButton env w sender reply c).orderDb = w.orderDb ∧
    (sendReplyWithButton env w sender reply c).hotelIds = w.hotelIds ∧
    (sendReplyWithButton env w sender reply c).awaitingHotelId = w.awaitingHotelId ∧
    (sendReplyWithButton env w sender reply c).awaitingQuantity = w.awaitingQuantity ∧
    (sendReplyWithButton env w sender reply c).awaitingOrderId = w.awaitingOrderId ∧
    (sendReplyWithButton env w sender reply c).menuItems = w.menuItems ∧
    (sendReplyWithButton env w sender reply c).orders = w.orders ∧
    (sendReplyWithButton env w sender reply c).gatewayCalls = w.gatewayCalls ∧
    (sendReplyWithButton env w sender reply c).userInteractionTimestamps = w.userInteractionTimestamps ∧
    (sendReplyWithButton env w sender reply c).menuDb = w.menuDb ∧
    (sendReplyWithButton env w sender reply c).timers = w.timers :=
  fields_of_session (sendReplyWithButton_session env w sender reply c)

theorem sendReply_fields (env : Env) (w : World) (sender reply : String) (b : Bool) :
    (sendReply env w sender reply b).orderDb = w.orderDb ∧
    (sendReply env w sender reply b).hotelIds = w.hotelIds ∧
    (sendReply env w sender reply b).awaitingHotelId = w.awaitingHotelId ∧
    (sendReply env w sender reply b).awaitingQuantity = w.awaitingQuantity ∧
    (sendReply env w sender reply b).awaitingOrderId = w.awaitingOrderId ∧
    (sendReply env w sender reply b).menuItems = w.menuItems ∧
    (sendReply env w sender reply b).orders = w.orders ∧
    (sendReply env w sender reply b).gatewayCalls = w.gatewayCalls ∧
    (sendReply env w sender reply b).userInteractionTimestamps = w.userInteractionTimestamps ∧
    (sendReply env w sender reply b).menuDb = w.menuDb ∧
    (sendReply env w sender reply b).timers = w.timers :=
  fields_of_session (sendReply_session env w sender reply b)

theorem sendOrderOptions_fields (env : Env) (w : World) (sender text : String) :
    (sendOrderOptions env w sender text).orderDb = w.orderDb ∧
    (sendOrderOptions env w sender text).hotelIds = w.hotelIds ∧
    (sendOrderOptions env w sender text).awaitingHotelId = w.awaitingHotelId ∧
    (sendOrderOptions env w sender text).awaitingQuantity = w.awaitingQuantity ∧
    (sendOrderOptions env w sender text).awaitingOrderId = w.awaitingOrderId ∧
    (sendOrderOptions env w sender text).menuItems = w.menuItems ∧
    (sendOrderOptions env w sender text).orders = w.orders ∧
    (sendOrderOptions env w sender text).gatewayCalls = w.gatewayCalls ∧
    (sendOrderOptions env w sender text).userInteractionTimestamps = w.userInteractionTimestamps ∧
    (sendOrderOptions env w sender text).menuDb = w.menuDb ∧
    (sendOrderOptions env w sender text).timers = w.timers :=
  fields_of_session (sendOrderOptions_session env w sender text)

theorem sendQuantityOptions_fields (env : Env) (w : World) (sender : String) (item : MenuItem) :
    (sendQuantityOptions env w sender item).orderDb = w.orderDb ∧
    (sendQuantityOptions env w sender item).hotelIds = w.hotelIds ∧
    (sendQuantityOptions env w sender item).awaitingHotelId = w.awaitingHotelId ∧
    (sendQuantityOptions env w sender item).awaitingQuantity = w.awaitingQuantity ∧
    (sendQuantityOptions env w sender item).awaitingOrderId = w.awaitingOrderId ∧
    (sendQuantityOptions env w sender item).menuItems = w.menuItems ∧
    (sendQuantityOptions env w sender item).orders = w.orders ∧
    (sendQuantityOptions env w sender item).gatewayCalls = w.gatewayCalls ∧
    (sendQuantityOptions env w sender item).userInteractionTimestamps = w.userInteractionTimestamps ∧
    (sendQuantityOptions env w sender item).menuDb = w.menuDb ∧
    (sendQuantityOptions env w sender item).timers = w.timers :=
  fields_of_session (sendQuantityOptions_session env w sender item)

theorem sendCatalog_fields (env : Env) (w : World) (sender text : String) :
    (sendCatalog env w sender text).orderDb = w.orderDb ∧
    (sendCatalog env w sender text).hotelIds = w.hotelIds ∧
    (sendCatalog env w sender text).awaitingHotelId = w.awaitingHotelId ∧
    (sendCatalog env w sender text).awaitingQuantity = w.awaitingQuantity ∧
    (sendCatalog env w sender text).awaitingOrderId = w.awaitingOrderId ∧
    (sendCatalog env w sender text).menuItems = w.menuItems ∧
    (sendCatalog env w sender text).orders = w.orders ∧
    (sendCatalog env w sender text).gatewayCalls = w.gatewayCalls ∧
    (sendCatalog env w sender text).userInteractionTimestamps = w.userInteractionTimestamps ∧
    (sendCatalog env w sender text).menuDb = w.menuDb ∧
    (sendCatalog env w sender text).timers = w.timers :=
  fields_of_session (sendCatalog_session env w sender text)

theorem sendReplyWithCancelOption_fields (env : Env) (w : World) (sender reply orderId : String) :
    (sendReplyWithCancelOption env w sender reply orderId).orderDb = w.orderDb ∧
    (sendReplyWithCancelOption env w sender reply orderId).hotelIds = w.hotelIds ∧
    (sendReplyWithCancelOption env w sender reply orderId).awaitingHotelId = w.awaitingHotelId ∧
    (sendReplyWithCancelOption env w sender reply orderId).awaitingQuantity = w.awaitingQuantity ∧
    (sendReplyWithCancelOption env w sender reply orderId).awaitingOrderId = w.awaitingOrderId ∧
    (sendReplyWithCancelOption env w sender reply orderId).menuItems = w.menuItems ∧
    (sendReplyWithCancelOption env w sender reply orderId).orders = w.orders ∧
    (sendReplyWithCancelOption env w sender reply orderId).gatewayCalls = w.gatewayCalls ∧
    (sendReplyWithCancelOption env w sender reply orderId).userInteractionTimestamps = w.userInteractionTimestamps ∧
    (sendReplyWithCancelOption env w sender reply orderId).menuDb = w.menuDb ∧
    (sendReplyWithCancelOption env w sender reply orderId).timers = w.timers :=
  fields_of_session (sendReplyWithCancelOption_session env w sender reply orderId)

theorem sendPaymentLinkWithButtons_fields (env : Env) (w : World) (sender link total : String) :
    (sendPaymentLinkWithButtons env w sender link total).orderDb = w.orderDb ∧
    (sendPaymentLinkWithButtons env w sender link total).hotelIds = w.hotelIds ∧
    (sendPaymentLinkWithButtons env w sender link total).awaitingHotelId = w.awaitingHotelId ∧
    (sendPaymentLinkWithButtons env w sender link total).awaitingQuantity = w.awaitingQuantity ∧
    (sendPaymentLinkWithButtons env w sender link total).awaitingOrderId = w.awaitingOrderId ∧
    (sendPaymentLinkWithButtons env w sender link total).menuItems = w.menuItems ∧
    (sendPaymentLinkWithButtons env w sender link total).orders = w.orders ∧
    (sendPaymentLinkWithButtons env w sender link total).gatewayCalls = w.gatewayCalls ∧
    (sendPaymentLinkWithButtons env w sender link total).userInteractionTimestamps = w.userInteractionTimestamps ∧
    (sendPaymentLinkWithButtons env w sender link total).menuDb = w.menuDb ∧
    (sendPaymentLinkWithButtons env w sender link total).timers = w.timers :=
  fields_of_session (sendPaymentLinkWithButtons_session env w sender link total)

theorem sendReplyWithPaymentOptions_fields (env : Env) (w : World) (sender text : String) :
    (sendReplyWithPaymentOptions env w sender text).orderDb = w.orderDb ∧
    (sendReplyWithPaymentOptions env w sender text).hotelIds = w.hotelIds ∧
    (sendReplyWithPaymentOptions env w sender text).awaitingHotelId = w.awaitingHotelId ∧
    (sendReplyWithPaymentOptions env w sender text).awaitingQuantity = w.awaitingQuantity ∧
    (sendReplyWithPaymentOptions env w sender text).awaitingOrderId = w.awaitingOrderId ∧
    (sendReplyWithPaymentOptions env w sender text).menuItems = w.menuItems ∧
    (sendReplyWithPaymentOptions env w sender text).orders = w.orders ∧
    (sendReplyWithPaymentOptions env w sender text).gatewayCalls = w.gatewayCalls ∧
    (sendReplyWithPaymentOptions env w sender text).userInteractionTimestamps = w.userInteractionTimestamps ∧
    (sendReplyWithPaymentOptions env w sender text).menuDb = w.menuDb ∧
    (sendReplyWithPaymentOptions env w sender text).timers = w.timers :=
  fields_of_session (sendReplyWithPaymentOptions_session env w sender text)

theorem sendTrackOrderOptions_fields (env : Env) (w : World) (sender : String) :
    (sendTrackOrderOptions env w sender).orderDb = w.orderDb ∧
    (sendTrackOrderOptions env w sender).hotelIds = w.hotelIds ∧
    (sendTrackOrderOptions env w sender).awaitingHotelId = w.awaitingHotelId ∧
    (sendTrackOrderOptions env w sender).awaitingQuantity = w.awaitingQuantity ∧
    (sendTrackOrderOptions env w sender).awaitingOrderId = w.awaitingOrderId ∧
    (sendTrackOrderOptions env w sender).menuItems = w.menuItems ∧
    (sendTrackOrderOptions env w sender).orders = w.orders ∧
    (sendTrackOrderOptions env w sender).gatewayCalls = w.gatewayCalls ∧
    (sendTrackOrderOptions env w sender).userInteractionTimestamps = w.userInteractionTimestamps ∧
    (sendTrackOrderOptions env w sender).menuDb = w.menuDb ∧
    (sendTrackOrderOptions env w sender).timers = w.timers :=
  fields_of_session (sendTrackOrderOptions_session env w sender)

theorem sendReceipt_fields (env : Env) (w : World) (sender orderId : String) :
    (sendReceipt env w sender orderId).orderDb = w.orderDb ∧
    (sendReceipt env w sender orderId).hotelIds = w.hotelIds ∧
    (sendReceipt env w sender orderId).awaitingHotelId = w.awaitingHotelId ∧
    (sendReceipt env w sender orderId).awaitingQuantity = w.awaitingQuantity ∧
    (sendReceipt env w sender orderId).awaitingOrderId = w.awaitingOrderId ∧
    (sendReceipt env w sender orderId).menuItems = w.menuItems ∧
    (sendReceipt env w sender orderId).orders = w.orders ∧
    (sendReceipt env w sender orderId).gatewayCalls = w.gatewayCalls ∧
    (sendReceipt env w sender orderId).userInteractionTimestamps = w.userInteractionTimestamps ∧
    (sendReceipt env w sender orderId).menuDb = w.menuDb ∧
    (sendReceipt env w sender orderId).timers = w.timers :=
  fields_of_session (sendReceipt_session env w sender orderId)

theorem trackOrderStatus_fields (env : Env) (w : World) (sender : String) :
    (trackOrderStatus env w sender).orderDb = w.orderDb ∧
    (trackOrderStatus env w sender).hotelIds = w.hotelIds ∧
    (trackOrderStatus env w sender).awaitingHotelId = w.awaitingHotelId ∧
    (trackOrderStatus env w sender).awaitingQuantity = w.awaitingQuantity ∧
    (trackOrderStatus env w sender).awaitingOrderId = w.awaitingOrderId ∧
    (trackOrderStatus env w sender).menuItems = w.menuItems ∧
    (trackOrderStatus env w sender).orders = w.orders ∧
    (trackOrderStatus env w sender).gatewayCalls = w.gatewayCalls ∧
    (trackOrderStatus env w sender).userInteractionTimestamps = w.userInteractionTimestamps ∧
    (trackOrderStatus env w sender).menuDb = w.menuDb ∧
    (trackOrderStatus env w sender).timers = w.timers :=
  fields_of_session (trackOrderStatus_session env w sender)

theorem trackOrderByID_fields (env : Env) (w : World) (sender orderId : String) :
    (trackOrderByID env w sender orderId).orderDb = w.orderDb ∧
    (trackOrderByID env w sender orderId).hotelIds = w.hotelIds ∧
    (trackOrderByID env w sender orderId).awaitingHotelId = w.awaitingHotelId ∧
    (trackOrderByID env w sender orderId).awaitingQuantity = w.awaitingQuantity ∧
    (trackOrderByID env w sender orderId).awaitingOrderId = w.awaitingOrderId ∧
    (trackOrderByID env w sender orderId).menuItems = w.menuItems ∧
    (trackOrderByID env w sender orderId).orders = w.orders ∧
    (trackOrderByID env w sender orderId).gatewayCalls = w.gatewayCalls ∧
    (trackOrderByID env w sender orderId).userInteractionTimestamps = w.userInteractionTimestamps ∧
    (trackOrderByID env w sender orderId).menuDb = w.menuDb ∧
    (trackOrderByID env w sender orderId).timers = w.timers :=
  fields_of_session (trackOrderByID_session env w sender orderId)

theorem sendMenu_fields (env : Env) (w : World) (sender : String) :
    (sendMenu env w sender).orderDb = w.orderDb ∧
    (sendMenu env w sender).hotelIds = w.hotelIds ∧
    (sendMenu env w sender).awaitingHotelId = w.awaitingHotelId ∧
    (sendMenu env w sender).awaitingQuantity = w.awaitingQuantity ∧
    (sendMenu env w sender).awaitingOrderId = w.awaitingOrderId ∧
    (sendMenu env w sender).menuItems = w.menuItems ∧
    (sendMenu env w sender).orders = w.orders ∧
    (sendMenu env w sender).gatewayCalls = w.gatewayCalls ∧
    (sendMenu env w sender).userInteractionTimestamps = w.userInteractionTimestamps ∧
    (sendMenu env w sender).menuDb = w.menuDb ∧
    (sendMenu env w sender).timers = w.timers :=
  fields_of_session (sendMenu_session env w sender)

theorem sendEditOrderOptions_fields (env : Env) (w : World) (sender : String) :
    (sendEditOrderOptions env w sender).orderDb = w.orderDb ∧
    (sendEditOrderOptions env w sender).hotelIds = w.hotelIds ∧
    (sendEditOrderOptions env w sender).awaitingHotelId = w.awaitingHotelId ∧
    (sendEditOrderOptions env w sender).awaitingQuantity = w.awaitingQuantity ∧
    (sendEditOrderOptions env w sender).awaitingOrderId = w.awaitingOrderId ∧
    (sendEditOrderOptions env w sender).menuItems = w.menuItems ∧
    (sendEditOrderOptions env w sender).orders = w.orders ∧
    (sendEditOrderOptions env w sender).gatewayCalls = w.gatewayCalls ∧
    (sendEditOrderOptions env w sender).userInteractionTimestamps = w.userInteractionTimestamps ∧
    (sendEditOrderOptions env w sender).menuDb = w.menuDb ∧
    (sendEditOrderOptions env w sender).timers = w.timers :=
  fields_of_session (sendEditOrderOptions_session env w sender)

theorem sendOrderSummary_fields (env : Env) (w : World) (sender : String) :
    (sendOrderSummary env w sender).orderDb = w.orderDb ∧
    (sendOrderSummary env w sender).hotelIds = w.hotelIds ∧
    (sendOrderSummary env w sender).awaitingHotelId = w.awaitingHotelId ∧
    (sendOrderSummary env w sender).awaitingQuantity = w.awaitingQuantity ∧
    (sendOrderSummary env w sender).awaitingOrderId = w.awaitingOrderId ∧
    (sendOrderSummary env w sender).menuItems = w.menuItems ∧
    (sendOrderSummary env w sender).orders = w.orders ∧
    (sendOrderSummary env w sender).gatewayCalls = w.gatewayCalls ∧
    (sendOrderSummary env w sender).userInteractionTimestamps = w.userInteractionTimestamps ∧
    (sendOrderSummary env w sender).menuDb = w.menuDb ∧
    (sendOrderSummary env w sender).timers = w.timers :=
  fields_of_session (sendOrderSummary_session env w sender)

theorem sendStatusUpdate_fields (env : Env) (w : World) (sender : String) (s : OrderStatus) :
    (sendStatusUpdate env w sender s).orderDb = w.orderDb ∧
    (sendStatusUpdate env w sender s).hotelIds = w.hotelIds ∧
    (sendStatusUpdate env w sender s).awaitingHotelId = w.awaitingHotelId ∧
    (sendStatusUpdate env w sender s).awaitingQuantity = w.awaitingQuantity ∧
    (sendStatusUpdate env w sender s).awaitingOrderId = w.awaitingOrderId ∧
    (sendStatusUpdate env w sender s).menuItems = w.menuItems ∧
    (sendStatusUpdate env w sender s).orders = w.orders ∧
    (sendStatusUpdate env w sender s).gatewayCalls = w.gatewayCalls ∧
    (sendStatusUpdate env w sender s).userInteractionTimestamps = w.userInteractionTimestamps ∧
    (sendStatusUpdate env w sender s).menuDb = w.menuDb ∧
    (sendStatusUpdate env w sender s).timers = w.timers :=
  fields_of_session (sendStatusUpdate_session env w sender s)

theorem webhook_disconnect (env : Env) (w : World) (sender : String) (conn : HotelConnection)
    (hb : w.hotelIds.get sender = some conn) (hact : env.now - conn.timestamp < 3600000)
    (hq : w.awaitingQuantity.get sender = none) (ho : w.awaitingOrderId.get sender ≠ some true) :
    webhook env w sender "DisconnectHotel" =
      handleDisconnectHotel env (updateLastInteraction w env.now sender) sender := by
  have s1 : startsWith "DisconnectHotel" "Item_" = false := by decide
  have s2 : startsWith "DisconnectHotel" "Remove_" = false := by decide
  have s3 : startsWith "DisconnectHotel" "CancelOrder_" = false := by decide
  simp [webhook, handleIncomingMessage, handleBody, updateLastInteraction, hb,
    isHotelConnectionActive, hact, hq, ho, s1, s2, s3]

/-- C13 (amended): for a bound sender, `DisconnectHotel` sent while idle deletes the tenant binding, sets
`awaitingHotelId` and arms the five-minute timeout, and leaves the cart entry (lines and payment link)
and the pending-input flags as they were; sent while a quantity is awaited it is answered by the
quantity prompt and the sender stays bound and awaiting that quantity; sent while an order id is awaited
it is looked up as an order id and the sender stays bound. -/
theorem disconnectHotel_clears_binding_only (env : Env) (w : World) (sender : String)
    (conn : HotelConnection)
    (hb : w.hotelIds.get sender = some conn) (hact : env.now - conn.timestamp < 3600000) :
    (w.awaitingQuantity.get sender = none → w.awaitingOrderId.get sender ≠ some true →
      (webhook env w sender "DisconnectHotel").hotelIds.get sender = none ∧
      (webhook env w sender "DisconnectHotel").awaitingHotelId.get sender = some true ∧
      (webhook env w sender "DisconnectHotel").timers = w.timers ++ [(sender, env.now + 300000)] ∧
      (webhook env w sender "DisconnectHotel").orders = w.orders ∧
      (webhook env w sender "DisconnectHotel").awaitingQuantity = w.awaitingQuantity ∧
      (webhook env w sender "DisconnectHotel").awaitingOrderId = w.awaitingOrderId) ∧
    (∀ X, w.awaitingQuantity.get sender = some X →
      (webhook env w sender "DisconnectHotel").hotelIds.get sender = some conn ∧
      (webhook env w sender "DisconnectHotel").awaitingQuantity.get sender = some X ∧
      (webhook env w sender "DisconnectHotel").orders = w.orders ∧
      webhook env w sender "DisconnectHotel" =
        sendQuantityOptions env
          { updateLastInteraction w env.now sender with
            awaitingQuantity := (w.awaitingQuantity.del sender).set sender X } sender X) ∧
    (w.awaitingQuantity.get sender = none → w.awaitingOrderId.get sender = some true →
      (webhook env w sender "DisconnectHotel").hotelIds.get sender = some conn ∧
      (webhook env w sender "DisconnectHotel").orders = w.orders ∧
      webhook env w sender "DisconnectHotel" =
        trackOrderByID env
          { updateLastInteraction w env.now sender with
            awaitingOrderId := w.awaitingOrderId.del sender } sender "DisconnectHotel") := by
  refine ⟨?_, ?_, ?_⟩
  · intro hq ho
    rw [webhook_disconnect env w sender conn hb hact hq ho]
    simp only [handleDisconnectHotel, armHotelIdTimeout, sendReply_fields, updateLastInteraction,
      Dict.get_del_self, Dict.get_set_self, and_self]
  · intro X hX
    have s1 : startsWith "DisconnectHotel" "Qty_" = false := by decide
    have h0 : webhook env w sender "DisconnectHotel" =
        sendQuantityOptions env
          { updateLastInteraction w env.now sender with
            awaitingQuantity := (w.awaitingQuantity.del sender).set sender X } sender X := by
      simp [webhook, handleIncomingMessage, handleBody, updateLastInteraction, hb,
        isHotelConnectionActive, hact, hX, handleQuantity, s1]
    rw [h0]
    simp only [sendQuantityOptions_fields, updateLastInteraction, Dict.get_set_self, hb, and_self]
  · intro hq ho
    have h0 : webhook env w sender "DisconnectHotel" =
        trackOrderByID env
          { updateLastInteraction w env.now sender with
            awaitingOrderId := w.awaitingOrderId.del sender } sender "DisconnectHotel" := by
      simp [webhook, handleIncomingMessage, handleBody, updateLastInteraction, hb,
        isHotelConnectionActive, hact, hq, ho]
    rw [h0]
    simp only [trackOrderByID_fields, updateLastInteraction, hb, and_self]

/-- The amended C13 at the example sender with two burgers, one cola and a payment link in the cart. -/
theorem disconnectHotel_clears_binding_only_witness :
    (webhook (exampleEnv 1000) cartWorld "919900000001" "DisconnectHotel").hotelIds.get
      "919900000001" = none ∧
    (webhook (exampleEnv 1000) cartWorld "919900000001" "DisconnectHotel").awaitingHotelId.get
      "919900000001" = some true ∧
    (webhook (exampleEnv 1000) cartWorld "919900000001" "DisconnectHotel").timers =
      [("919900000001", 301000)] ∧
    (webhook (exampleEnv 1000) cartWorld "919900000001" "DisconnectHotel").orders =
      cartWorld.orders :=
  let h := (disconnectHotel_clears_binding_only (exampleEnv 1000) cartWorld "919900000001"
    ⟨"h1", 0⟩ rfl (by decide)).1 rfl (by decide)
  ⟨h.1, h.2.1, h.2.2.1, h.2.2.2.1⟩

/-- C13 as stated fails: after `DisconnectHotel` the cart lines and the payment link are still there, and
a sender who is awaiting a quantity is not disconnected at all. -/
theorem disconnectHotel_keeps_cart :
    cartItems (webhook (exampleEnv 1000) cartWorld "919900000001" "DisconnectHotel")
      "919900000001" = [burger.toLine 2, cola.toLine 1] ∧
    (webhook (exampleEnv 1000) cartWorld "919900000001" "DisconnectHotel").orders.get
      "919900000001" =
      some ⟨[burger.toLine 2, cola.toLine 1], some "plink_1", some "https://rzp.io/i/abc", some 250⟩ ∧
    (webhook (exampleEnv 2000)
      (webhook (exampleEnv 1000) tickWorld "919900000001" "Item_b1")
      "919900000001" "DisconnectHotel").hotelIds.get "919900000001" = some ⟨"h1", 0⟩ ∧
    (webhook (exampleEnv 2000)
      (webhook (exampleEnv 1000) tickWorld "919900000001" "Item_b1")
      "919900000001" "DisconnectHotel").awaitingQuantity.get "919900000001" = some burger := by
  decide

theorem handleUnbound_orders (env : Env) (w : World) (sender message : String) :
    (handleUnbound env w sender message).orders = w.orders := by
  unfold handleUnbound loadMenuItems
  simp only [Dict.get_set_self]
  split_ifs <;> simp only [sendReply_fields, sendCatalog_fields, armHotelIdTimeout]

theorem handleUnbound_binding (env : Env) (w : World) (sender message : String) :
    (handleUnbound env w sender message).hotelIds.get sender = none ∨
    (handleUnbound env w sender message).hotelIds.get sender = some ⟨trim message, env.now⟩ := by
  unfold handleUnbound loadMenuItems
  simp only [Dict.get_set_self]
  split_ifs <;>
    simp only [sendReply_fields, sendCatalog_fields, armHotelIdTimeout, Dict.get_del_self,
      Dict.get_set_self, true_or, or_true]

theorem webhook_unbound (env : Env) (w : World) (sender message : String)
    (h : (w.hotelIds.get sender).isNone ∨ isHotelConnectionActive w env.now sender = false) :
    webhook env w sender message =
      handleUnbound env (updateLastInteraction w env.now sender) sender message := by
  have h2 : ((updateLastInteraction w env.now sender).hotelIds.get sender).isNone ∨
      isHotelConnectionActive (updateLastInteraction w env.now sender) env.now sender = false := h
  simp only [webhook, handleIncomingMessage, handleBody, h2, if_true]

/-- C14 (amended): for every sender whose binding is older than one hour, handling the next inbound
message deletes the expired binding (afterwards the sender has no binding, or a new one created by
this message) and leaves the cart entry, lines and payment link, exactly as it was. -/
theorem expired_binding_eviction_keeps_cart (env : Env) (w : World) (sender message : String)
    (conn : HotelConnection)
    (hb : w.hotelIds.get sender = some conn) (hexp : 3600000 ≤ env.now - conn.timestamp) :
    (webhook env w sender message).orders = w.orders ∧
    cartItems (webhook env w sender message) sender = cartItems w sender ∧
    ((webhook env w sender message).hotelIds.get sender = none ∨
      (webhook env w sender message).hotelIds.get sender = some ⟨trim message, env.now⟩) := by
  have hin : isHotelConnectionActive w env.now sender = false := by
    simp only [isHotelConnectionActive, hb, decide_eq_false_iff_not, not_lt]
    exact hexp
  rw [webhook_unbound env w sender message (Or.inr hin)]
  have ho := handleUnbound_orders env (updateLastInteraction w env.now sender) sender message
  refine ⟨ho, ?_, handleUnbound_binding env _ sender message⟩
  unfold cartItems
  rw [ho]
  rfl

/-- The amended C14 at the example cart, for the greeting sent 4000 seconds after the binding. -/
theorem expired_binding_eviction_keeps_cart_witness :
    (webhook (exampleEnv 4000000) cartWorld "919900000001" "hi").orders = cartWorld.orders ∧
    cartItems (webhook (exampleEnv 4000000) cartWorld "919900000001" "hi") "919900000001" =
      [burger.toLine 2, cola.toLine 1] :=
  let h := expired_binding_eviction_keeps_cart (exampleEnv 4000000) cartWorld "919900000001" "hi"
    ⟨"h1", 0⟩ rfl (by decide)
  ⟨h.1, h.2.1⟩

/-- C14 as stated fails: the expired binding is deleted but the cart lines are carried over. -/
theorem expired_binding_keeps_cart_lines :
    isHotelConnectionActive cartWorld 4000000 "919900000001" = false ∧
    (webhook (exampleEnv 4000000) cartWorld "919900000001" "hi").hotelIds.get "919900000001" = none ∧
    cartItems (webhook (exampleEnv 4000000) cartWorld "919900000001" "hi") "919900000001" =
      [burger.toLine 2, cola.toLine 1] ∧
    cartItems (webhook (exampleEnv 4000000) cartWorld "919900000001" "hi") "919900000001" ≠ [] := by
  decide

theorem post_refresh (env : Env) (now : Int) (w : World) (m : Outbound) :
    post env (refreshBindings now w) m = refreshBindings now (post env w m) := by
  unfold post
  split <;> rfl

theorem sendInWindow_refresh (env : Env) (now : Int) (w : World) (sender : String) (m : Outbound) :
    sendInWindow env (refreshBindings now w) sender m =
      refreshBindings now (sendInWindow env w sender m) := by
  unfold sendInWindow sendTemplateMessage
  have h : getLastInteractionTimestamp (refreshBindings now w) sender =
      getLastInteractionTimestamp w sender := rfl
  dsimp only
  rw [h]
  split <;> exact post_refresh _ _ _ _

theorem sendReply_refresh (env : Env) (now : Int) (w : World) (sender reply : String) (b : Bool) :
    sendReply env (refreshBindings now w) sender reply b =
      refreshBindings now (sendReply env w sender reply b) := by
  unfold sendReply sendTextMessage sendTemplateMessage sendReplyWithButton
  have h : getLastInteractionTimestamp (refreshBindings now w) sender =
      getLastInteractionTimestamp w sender := rfl
  dsimp only
  rw [h]
  split_ifs <;> simp only [post_refresh, sendInWindow_refresh]

theorem notifyOrders_refresh (env : Env) (now : Int) (sender : String) :
    ∀ (l : List (Nat × OrderDoc)) (w : World),
      notifyOrders env sender l (refreshBindings now w) =
        refreshBindings now (notifyOrders env sender l w) := by
  intro l
  induction l with
  | nil => intro w; rfl
  | cons p rest ih =>
    intro w
    obtain ⟨idx, order⟩ := p
    unfold notifyOrders
    dsimp only
    split
    · simp only [sendStatusUpdate, sendReply_refresh]
      split
      · rw [← ih]; rfl
      · rw [← ih]
    · exact ih w

theorem notifySenders_refresh (env : Env) (now : Int) :
    ∀ (l : List (String × HotelConnection)) (w : World),
      notifySenders env (l.map fun p => (p.1, ⟨p.2.hotelId, now⟩)) (refreshBindings now w) =
        refreshBindings now (notifySenders env l w) := by
  intro l
  induction l with
  | nil => intro w; rfl
  | cons p rest ih =>
    intro w
    obtain ⟨sender, conn⟩ := p
    simp only [List.map_cons, notifySenders]
    split
    · have hdb : (refreshBindings now w).orderDb = w.orderDb := rfl
      rw [hdb, notifyOrders_refresh, ih]
    · rfl

theorem get_refreshed (now : Int) (d : Dict HotelConnection) (sender : String) :
    Dict.get (d.map fun p => (p.1, (⟨p.2.hotelId, now⟩ : HotelConnection))) sender =
      (d.get sender).map fun c => ⟨c.hotelId, now⟩ := by
  induction d with
  | nil => rfl
  | cons p rest ih =>
    obtain ⟨k, v⟩ := p
    by_cases h : k = sender
    · simp [Dict.get, h]
    · simp only [List.map_cons, Dict.get, h, if_false]
      exact ih

/-- C16 (amended): the notifier processes every sender that has a tenant binding, whatever its age: a
tick emits and persists exactly what it would if every binding had just been created (and were
therefore active). -/
theorem notifier_ignores_binding_age (env : Env) (w : World) :
    checkForOrderUpdates env (refreshBindings env.now w) =
      refreshBindings env.now (checkForOrderUpdates env w) ∧
    (checkForOrderUpdates env w).outbox =
      (checkForOrderUpdates env (refreshBindings env.now w)).outbox ∧
    (checkForOrderUpdates env w).dropped =
      (checkForOrderUpdates env (refreshBindings env.now w)).dropped ∧
    (checkForOrderUpdates env w).orderDb =
      (checkForOrderUpdates env (refreshBindings env.now w)).orderDb ∧
    (∀ sender, (w.hotelIds.get sender).isSome →
      isHotelConnectionActive (refreshBindings env.now w) env.now sender = true) := by
  have key : checkForOrderUpdates env (refreshBindings env.now w) =
      refreshBindings env.now (checkForOrderUpdates env w) :=
    notifySenders_refresh env env.now w.hotelIds w
  refine ⟨key, by rw [key]; rfl, by rw [key]; rfl, by rw [key]; rfl, ?_⟩
  intro sender hs
  unfold isHotelConnectionActive
  have hg : (refreshBindings env.now w).hotelIds.get sender =
      (w.hotelIds.get sender).map fun c => ⟨c.hotelId, env.now⟩ := get_refreshed _ _ _
  rw [hg]
  cases hc : w.hotelIds.get sender with
  | none => rw [hc] at hs; exact absurd hs (by simp)
  | some c => simp

/-- C16 as stated fails: 4000 seconds after the binding the sender is inactive, and the tick still sends
the notice and sets the notified status of the order. -/
theorem notifier_processes_expired_binding :
    isHotelConnectionActive tickWorld 4000000 "919900000001" = false ∧
    (checkForOrderUpdates (exampleEnv 4000000) tickWorld).outbox =
      [.text "919900000001" "Your food is being cooked!",
       .buttons "919900000001" statusButtonText statusButtons] ∧
    (checkForOrderUpdates (exampleEnv 4000000) tickWorld).orderDb =
      [⟨"h1", { cookingOrder with lastNotifiedStatus := .Cooking }⟩] := by
  decide!

theorem handleQuantity_reprompt (env : Env) (w : World) (sender message : String) (X : MenuItem)
    (hbad : startsWith message "Qty_" = false ∨ parseQuantity message = .nan ∨
      ¬ 0 < parseQuantity message) :
    handleQuantity env w sender message X =
      sendQuantityOptions env
        { w with awaitingQuantity := (w.awaitingQuantity.del sender).set sender X } sender X := by
  unfold handleQuantity
  by_cases hst : startsWith message "Qty_" = true
  · have hpq : ¬ ((parseQuantity message).isNaN = false ∧ parseQuantity message > 0) := by
      rcases hbad with h | h | h
      · rw [hst] at h; exact absurd h (by decide)
      · rw [h]; intro hc; exact absurd hc.1 (by decide)
      · intro hc; exact h hc.2
    unfold parseQuantity at hpq
    simp only [hst, if_true]
    rw [if_neg hpq]
  · simp [hst]

/-- C17 (amended): for a bound sender awaiting a quantity for `X` and every message that does not start
with `Qty_`, or whose field after the first `_` is not read by `parseInt` as a number, or is read as a
number that is not positive, the cart is unchanged, the sender is still awaiting a quantity for `X` and
the quantity prompt for `X` is sent again. -/
theorem malformed_quantity_reprompts (env : Env) (w : World) (sender message : String)
    (X : MenuItem) (conn : HotelConnection)
    (hb : w.hotelIds.get sender = some conn) (hact : env.now - conn.timestamp < 3600000)
    (hX : w.awaitingQuantity.get sender = some X)
    (hbad : startsWith message "Qty_" = false ∨ parseQuantity message = .nan ∨
      ¬ 0 < parseQuantity message) :
    webhook env w sender message =
      sendQuantityOptions env
        { updateLastInteraction w env.now sender with
          awaitingQuantity := (w.awaitingQuantity.del sender).set sender X } sender X ∧
    (webhook env w sender message).orders = w.orders ∧
    (webhook env w sender message).awaitingQuantity.get sender = some X ∧
    (webhook env w sender message).hotelIds = w.hotelIds := by
  have h0 : webhook env w sender message =
      sendQuantityOptions env
        { updateLastInteraction w env.now sender with
          awaitingQuantity := (w.awaitingQuantity.del sender).set sender X } sender X := by
    have h1 : webhook env w sender message =
        handleQuantity env (updateLastInteraction w env.now sender) sender message X := by
      simp [webhook, handleIncomingMessage, handleBody, updateLastInteraction, hb,
        isHotelConnectionActive, hact, hX]
    rw [h1, handleQuantity_reprompt env _ sender message X hbad]
    rfl
  refine ⟨h0, ?_⟩
  rw [h0]
  simp only [sendQuantityOptions_fields, updateLastInteraction, Dict.get_set_self, and_self]

/-- The amended C17 at the example sender awaiting a burger quantity: `Qty_0`, a negative and a
non-numeric suffix and a command word all leave the cart empty and the sender awaiting the burger. -/
theorem malformed_quantity_reprompts_witness :
    (webhook (exampleEnv 1000) awaitingBurgerWorld "919900000001" "Qty_0").awaitingQuantity.get
        "919900000001" = some burger ∧
    (webhook (exampleEnv 1000) awaitingBurgerWorld "919900000001" "Qty_-2").awaitingQuantity.get
        "919900000001" = some burger ∧
    (webhook (exampleEnv 1000) awaitingBurgerWorld "919900000001" "Qty_abc").orders = [] ∧
    (webhook (exampleEnv 1000) awaitingBurgerWorld "919900000001" "PlaceOrder").orders = [] :=
  ⟨(malformed_quantity_reprompts (exampleEnv 1000) awaitingBurgerWorld "919900000001" "Qty_0"
      burger ⟨"h1", 0⟩ rfl (by decide) rfl (Or.inr (Or.inr (by decide!)))).2.2.1,
   (malformed_quantity_reprompts (exampleEnv 1000) awaitingBurgerWorld "919900000001" "Qty_-2"
      burger ⟨"h1", 0⟩ rfl (by decide) rfl (Or.inr (Or.inr (by decide!)))).2.2.1,
   (malformed_quantity_reprompts (exampleEnv 1000) awaitingBurgerWorld "919900000001" "Qty_abc"
      burger ⟨"h1", 0⟩ rfl (by decide) rfl (Or.inr (Or.inl (by decide!)))).2.1,
   (malformed_quantity_reprompts (exampleEnv 1000) awaitingBurgerWorld "919900000001" "PlaceOrder"
      burger ⟨"h1", 0⟩ rfl (by decide) rfl (Or.inl (by decide))).2.1⟩

/-- C17 as stated fails: `Qty_3abc` has a suffix with trailing non-digits, and it adds three burgers to the
cart and ends the wait for a quantity. -/
theorem quantity_with_trailing_text_is_accepted :
    parseQuantity "Qty_3abc" = 3 ∧
    cartItems (webhook (exampleEnv 1000) awaitingBurgerWorld "919900000001" "Qty_3abc")
      "919900000001" = [burger.toLine 3] ∧
    (webhook (exampleEnv 1000) awaitingBurgerWorld "919900000001" "Qty_3abc").awaitingQuantity.get
      "919900000001" = none := by
  decide!

theorem webhook_payOnline (env : Env) (w : World) (sender : String) (conn : HotelConnection)
    (hb : w.hotelIds.get sender = some conn) (hact : env.now - conn.timestamp < 3600000)
    (hq : w.awaitingQuantity.get sender = none) (ho : w.awaitingOrderId.get sender ≠ some true) :
    webhook env w sender "PayOnline" =
      handlePayOnline env (updateLastInteraction w env.now sender) sender := by
  have s1 : startsWith "PayOnline" "Item_" = false := by decide
  have s2 : startsWith "PayOnline" "Remove_" = false := by decide
  have s3 : startsWith "PayOnline" "CancelOrder_" = false := by decide
  simp [webhook, handleIncomingMessage, handleBody, updateLastInteraction, hb,
    isHotelConnectionActive, hact, hq, ho, s1, s2, s3]

theorem SafeAmount.total {items : List CartLine} (h : SafeAmount items) : SafeTotal items := by
  refine ⟨h.1, ?_⟩
  have h0 := abs_sum_nonneg (fun l : CartLine => l.price.toRat * l.quantity.toRat) items
  have h2 := h.2
  linarith

theorem cartTotal_hundredfold (items : List CartLine) (h : SafeAmount items) :
    cartTotal items = .fin (specTotal items) ∧
    cartTotal items * 100 = .fin (specTotal items * 100) := by
  have e := cartTotal_exact_total items h.total
  refine ⟨e, ?_⟩
  obtain ⟨n, hn⟩ := int_sum_mul (fun l => l.price) (fun l => l.quantity) items h.1
  have hs : specTotal items = (n : ℚ) := hn
  have hle := abs_sum_le (fun l : CartLine => l.price.toRat * l.quantity.toRat) items
  have hle2 : |(n : ℚ)| ≤ (items.map fun l => |l.price.toRat * l.quantity.toRat|).sum := by
    rw [← hn]; exact hle
  have h2 := h.2
  have hb : |(n : ℚ) * ((100 : ℤ) : ℚ)| ≤ maxSafeInteger := by
    rw [abs_mul]
    have : |((100 : ℤ) : ℚ)| = 100 := by norm_num
    rw [this]
    linarith
  rw [e, hs, JsNum.ofNat_eq]
  have := JsNum.mul_int n 100 hb
  simpa using this

/-- C18 (amended): for a bound idle sender with a non-empty cart, `PayOnline` asks the gateway for a
payment link whose amount is the Number `totalAmount * 100`, where `totalAmount` is the total
accumulated over the cart in Numbers; when the link is created the cart entry stores its id, its
short url and that total and keeps its lines; when creation fails, or the cart is empty or absent,
the cart entry is not written (and with an empty cart the gateway is not called). When the prices and
quantities are integers with one hundred times the sum of the absolute products within the safe
integers, the total is exactly the sum of price times quantity and the amount exactly 100 times that
sum. -/
theorem payOnline_requests_hundredfold_total (env : Env) (w : World) (sender : String)
    (conn : HotelConnection)
    (hb : w.hotelIds.get sender = some conn) (hact : env.now - conn.timestamp < 3600000)
    (hq : w.awaitingQuantity.get sender = none) (ho : w.awaitingOrderId.get sender ≠ some true) :
    (∀ cart, w.orders.get sender = some cart → cart.items ≠ [] →
      (webhook env w sender "PayOnline").gatewayCalls =
        w.gatewayCalls ++
          [.create (cartTotal cart.items * 100) (digitsOnly sender) env.orderId] ∧
      (∀ id url,
        env.gatewayCreate (cartTotal cart.items * 100) (digitsOnly sender) = some (id, url) →
        (webhook env w sender "PayOnline").orders.get sender =
          some ⟨cart.items, some id, some url, some (cartTotal cart.items)⟩ ∧
        cartItems (webhook env w sender "PayOnline") sender = cart.items) ∧
      (env.gatewayCreate (cartTotal cart.items * 100) (digitsOnly sender) = none →
        (webhook env w sender "PayOnline").orders = w.orders) ∧
      (SafeAmount cart.items →
        cartTotal cart.items = .fin (specTotal cart.items) ∧
        cartTotal cart.items * 100 = .fin (specTotal cart.items * 100))) ∧
    (cartItems w sender = [] →
      (webhook env w sender "PayOnline").orders = w.orders ∧
      (webhook env w sender "PayOnline").gatewayCalls = w.gatewayCalls) := by
  rw [webhook_payOnline env w sender conn hb hact hq ho]
  have hor : (updateLastInteraction w env.now sender).orders = w.orders := rfl
  have hgc : (updateLastInteraction w env.now sender).gatewayCalls = w.gatewayCalls := rfl
  constructor
  · intro cart hc hne
    have hlen : cart.items.length > 0 := List.length_pos.mpr hne
    refine ⟨?_, ?_, ?_, cartTotal_hundredfold cart.items⟩
    · simp only [handlePayOnline, hor, hc, hlen, if_true]
      cases hg : env.gatewayCreate (cartTotal cart.items * 100) (digitsOnly sender) with
      | none => simp only [sendReply_fields, hgc]
      | some p =>
        obtain ⟨id, url⟩ := p
        simp only [sendPaymentLinkWithButtons_fields, hgc]
    · intro id url hg
      have h1 : (handlePayOnline env (updateLastInteraction w env.now sender) sender).orders.get
          sender = some ⟨cart.items, some id, some url, some (cartTotal cart.items)⟩ := by
        simp only [handlePayOnline, hor, hc, hlen, if_true, hg,
          sendPaymentLinkWithButtons_fields, Dict.get_set_self, Option.getD_some]
      refine ⟨h1, ?_⟩
      simp only [cartItems, h1]
    · intro hg
      simp only [handlePayOnline, hor, hc, hlen, if_true, hg,
        sendReply_fields]
  · intro hempty
    unfold cartItems at hempty
    cases hc : w.orders.get sender with
    | none =>
      simp only [handlePayOnline, hor, hc, sendReply_fields, hgc, and_self]
    | some cart =>
      rw [hc] at hempty
      simp only at hempty
      simp only [handlePayOnline, hor, hc, hempty, List.length_nil, gt_iff_lt, lt_self_iff_false,
        if_false, sendReply_fields, hgc, and_self]

set_option maxRecDepth 20000 in
/-- C18 at the example sender with one cola (price 50) in the cart: the amount requested is 5000. -/
theorem payOnline_requests_hundredfold_total_witness :
    (webhook (exampleEnv 1000) exampleWorld "919900000001" "PayOnline").gatewayCalls =
      [.create 5000 "919900000001" "48213377"] ∧
    (webhook (exampleEnv 1000) exampleWorld "919900000001" "PayOnline").orders.get "919900000001" =
      some ⟨[cola.toLine 1], some "plink_1", some "https://rzp.io/i/abc", some 50⟩ ∧
    (webhook (gatewayDownEnv 1000) exampleWorld "919900000001" "PayOnline").orders =
      exampleWorld.orders ∧
    (webhook (exampleEnv 1000) tickWorld "919900000001" "PayOnline").gatewayCalls = [] ∧
    cartTotal [cola.toLine 1] * 100 = .fin (specTotal [cola.toLine 1] * 100) :=
  let h := (payOnline_requests_hundredfold_total (exampleEnv 1000) exampleWorld "919900000001"
    ⟨"h1", 0⟩ rfl (by decide) rfl (by decide)).1 ⟨[cola.toLine 1], none, none, none⟩ rfl
    (by decide)
  let g := (payOnline_requests_hundredfold_total (gatewayDownEnv 1000) exampleWorld "919900000001"
    ⟨"h1", 0⟩ rfl (by decide) rfl (by decide)).1 ⟨[cola.toLine 1], none, none, none⟩ rfl
    (by decide)
  let e := (payOnline_requests_hundredfold_total (exampleEnv 1000) tickWorld "919900000001"
    ⟨"h1", 0⟩ rfl (by decide) rfl (by decide)).2 rfl
  ⟨h.1.trans (by decide!), (h.2.1 "plink_1" "https://rzp.io/i/abc" rfl).1.trans (by decide!),
    g.2.2.1 rfl, e.2, (h.2.2.2 (by decide!)).2⟩

theorem handleUnbound_bind (env : Env) (w : World) (sender message : String)
    (docs : List MenuDoc)
    (hng : ¬ (toLowerCase message = "hi" ∨ toLowerCase message = "hii" ∨
      toLowerCase message = "start"))
    (hr : env.readOk = true) (hm : w.menuDb.get (trim message) = some docs) :
    (handleUnbound env w sender message).session =
      World.session
        { w with
          hotelIds := (w.hotelIds.del sender).set sender ⟨trim message, env.now⟩
          awaitingHotelId := w.awaitingHotelId.del sender
          menuItems := w.menuItems.set sender
            ((docs.filter fun d => d.availability).map fun item =>
              ⟨item.id, item.title, item.price, item.category, item.estimatedTime⟩) } := by
  unfold handleUnbound loadMenuItems
  simp only [hng, if_false, hr, if_true, hm, Option.isSome_some, Dict.get_set_self,
    Option.getD_some, sendCatalog_session]

theorem handleUnbound_miss (env : Env) (w : World) (sender message : String)
    (hng : ¬ (toLowerCase message = "hi" ∨ toLowerCase message = "hii" ∨
      toLowerCase message = "start"))
    (hr : env.readOk = true) (hm : w.menuDb.get (trim message) = none) :
    handleUnbound env w sender message =
      sendReply env
        { w with
          hotelIds := w.hotelIds.del sender
          awaitingHotelId := w.awaitingHotelId.set sender true } sender
        "Invalid Hotel ID. Please check the Hotel ID and try again:" false := by
  unfold handleUnbound
  simp only [hng, if_false, hr, if_true, hm, Option.isSome_none, Bool.false_eq_true]

/-- C19: for a sender without an active binding and a message `m` that is not a greeting, when the
existence check succeeds: if the collection `menu_<trim(m)>` exists the sender becomes bound to
`trim(m)` at time `now`, `awaitingHotelId` is cleared and the available items of that menu are loaded
as the catalog; otherwise the sender is unbound, `awaitingHotelId` is set and the "Invalid Hotel ID"
prompt is sent; the cart entry is unchanged in both cases. -/
theorem hotel_id_entry (env : Env) (w : World) (sender message : String)
    (hun : (w.hotelIds.get sender).isNone ∨ isHotelConnectionActive w env.now sender = false)
    (hng : ¬ (toLowerCase message = "hi" ∨ toLowerCase message = "hii" ∨
      toLowerCase message = "start"))
    (hr : env.readOk = true) :
    (∀ docs, w.menuDb.get (trim message) = some docs →
      (webhook env w sender message).hotelIds.get sender = some ⟨trim message, env.now⟩ ∧
      (webhook env w sender message).awaitingHotelId.get sender = none ∧
      (webhook env w sender message).menuItems.get sender =
        some ((docs.filter fun d => d.availability).map fun item =>
          ⟨item.id, item.title, item.price, item.category, item.estimatedTime⟩) ∧
      (webhook env w sender message).orders = w.orders) ∧
    (w.menuDb.get (trim message) = none →
      (webhook env w sender message).hotelIds.get sender = none ∧
      (webhook env w sender message).awaitingHotelId.get sender = some true ∧
      (webhook env w sender message).orders = w.orders ∧
      webhook env w sender message =
        sendReply env
          { updateLastInteraction w env.now sender with
            hotelIds := w.hotelIds.del sender
            awaitingHotelId := w.awaitingHotelId.set sender true } sender
          "Invalid Hotel ID. Please check the Hotel ID and try again:" false) := by
  rw [webhook_unbound env w sender message hun]
  constructor
  · intro docs hm
    have hs := handleUnbound_bind env (updateLastInteraction w env.now sender) sender message docs
      hng hr hm
    obtain ⟨_, f2, f3, _, _, f6, f7, _⟩ := fields_of_session hs
    refine ⟨?_, ?_, ?_, f7⟩
    · rw [f2]; exact Dict.get_set_self _ _ _
    · rw [f3]; exact Dict.get_del_self _ _
    · rw [f6]; exact Dict.get_set_self _ _ _
  · intro hm
    have h0 := handleUnbound_miss env (updateLastInteraction w env.now sender) sender message
      hng hr hm
    rw [h0]
    simp only [sendReply_fields, updateLastInteraction, Dict.get_del_self, Dict.get_set_self,
      true_and]

/-- C19 at a sender who was asked for a hotel id: ` h1 ` binds to `h1` and loads its two items, `nope` does not. -/
theorem hotel_id_entry_witness :
    (webhook (exampleEnv 1000) unboundWorld "919900000001" " h1 ").hotelIds.get "919900000001" =
      some ⟨"h1", 1000⟩ ∧
    (webhook (exampleEnv 1000) unboundWorld "919900000001" " h1 ").awaitingHotelId.get
      "919900000001" = none ∧
    (webhook (exampleEnv 1000) unboundWorld "919900000001" " h1 ").menuItems.get "919900000001" =
      some [burger, cola] ∧
    (webhook (exampleEnv 1000) unboundWorld "919900000001" "nope").hotelIds.get "919900000001" =
      none ∧
    (webhook (exampleEnv 1000) unboundWorld "919900000001" "nope").awaitingHotelId.get
      "919900000001" = some true ∧
    (webhook (exampleEnv 1000) unboundWorld "919900000001" "nope").orders = unboundWorld.orders :=
  let h := (hotel_id_entry (exampleEnv 1000) unboundWorld "919900000001" " h1 "
    (Or.inl rfl) (by decide) rfl).1
      [⟨"b1", "Burger", 100, "Main", true, 10⟩, ⟨"c1", "Cola", 50, "Drinks", true, 3⟩] (by decide)
  let g := (hotel_id_entry (exampleEnv 1000) unboundWorld "919900000001" "nope"
    (Or.inl rfl) (by decide) rfl).2 (by decide)
  ⟨h.1, h.2.1, h.2.2.1, g.1, g.2.1, g.2.2.1⟩

theorem view_of_session {a b : World} (h : a.session = b.session) (s : String) :
    a.view s = b.view s := by
  obtain ⟨_, f2, f3, f4, f5, f6, f7, _, f9, _, _⟩ := fields_of_session h
  simp only [World.view, f2, f3, f4, f5, f6, f7, f9]

theorem view_set_other (w : World) (A B : String) (h : B ≠ A) :
    (∀ v, Dict.get (w.awaitingHotelId.set A v) B = w.awaitingHotelId.get B) ∧
    (∀ v, Dict.get (w.menuItems.set A v) B = w.menuItems.get B) ∧
    (∀ v, Dict.get (w.awaitingQuantity.set A v) B = w.awaitingQuantity.get B) ∧
    (∀ v, Dict.get (w.awaitingOrderId.set A v) B = w.awaitingOrderId.get B) ∧
    (∀ v, Dict.get (w.orders.set A v) B = w.orders.get B) ∧
    (∀ v, Dict.get (w.hotelIds.set A v) B = w.hotelIds.get B) ∧
    (∀ v, Dict.get (w.userInteractionTimestamps.set A v) B = w.userInteractionTimestamps.get B) := by
  have h2 : A ≠ B := Ne.symm h
  exact ⟨fun v => Dict.get_set_other _ _ _ _ h2, fun v => Dict.get_set_other _ _ _ _ h2,
    fun v => Dict.get_set_other _ _ _ _ h2, fun v => Dict.get_set_other _ _ _ _ h2,
    fun v => Dict.get_set_other _ _ _ _ h2, fun v => Dict.get_set_other _ _ _ _ h2,
    fun v => Dict.get_set_other _ _ _ _ h2⟩

theorem get_set_of_ne {α : Type} (d : Dict α) (A B : String) (v : α) (h : B ≠ A) :
    Dict.get (d.set A v) B = d.get B := Dict.get_set_other d A B v (Ne.symm h)

theorem get_del_of_ne {α : Type} (d : Dict α) (A B : String) (h : B ≠ A) :
    Dict.get (d.del A) B = d.get B := Dict.get_del_other d A B (Ne.symm h)

theorem handleUnbound_frame (env : Env) (w : World) (A B message : String) (h : B ≠ A) :
    (handleUnbound env w A message).view B = w.view B := by
  unfold handleUnbound loadMenuItems
  simp only [Dict.get_set_self]
  split_ifs <;>
    simp only [World.view, sendReply_fields, sendCatalog_fields, armHotelIdTimeout,
      get_set_of_ne _ _ _ _ h, get_del_of_ne _ _ _ h]

theorem handleQuantity_frame (env : Env) (w : World) (A B message : String) (X : MenuItem)
    (h : B ≠ A) : (handleQuantity env w A message X).view B = w.view B := by
  unfold handleQuantity
  dsimp only
  split_ifs <;> (try split) <;> (try split_ifs) <;>
    simp only [World.view, sendOrderOptions_fields, sendQuantityOptions_fields,
      get_set_of_ne _ _ _ _ h, get_del_of_ne _ _ _ h]

theorem cancelOrder_view (env : Env) (w : World) (sender orderId B : String) :
    (cancelOrder env w sender orderId).view B = w.view B := by
  unfold cancelOrder
  split
  · simp only [World.view, sendReply_fields]
  · split
    · split
      · split
        · split <;> simp only [World.view, sendReply_fields]
        · simp only [World.view, sendReply_fields]
      · simp only [World.view, sendReply_fields]
    · simp only [World.view, sendReply_fields]

theorem saveOrderToDatabase_frame (env : Env) (w : World) (A B orderId : String)
    (pm : PaymentMethod) (ps : PaymentStatus) (h : B ≠ A) :
    (saveOrderToDatabase env w A orderId pm ps).world.view B = w.view B := by
  unfold saveOrderToDatabase
  split
  · rfl
  · split
    · split
      · dsimp only
        split
        · rfl
        · simp only [Res.world, World.view, resetOrder, get_del_of_ne _ _ _ h]
      · rfl
    · rfl

theorem handlePayCash_frame (env : Env) (w : World) (A B : String) (h : B ≠ A) :
    (handlePayCash env w A).world.view B = w.view B := by
  have hs := saveOrderToDatabase_frame env w A B env.orderId .Cash .Pending h
  unfold handlePayCash
  dsimp only
  split
  · rename_i w1 e he
    rw [he] at hs
    exact hs
  · rename_i w1 he
    rw [he] at hs
    simp only [Res.world] at hs ⊢
    rw [← hs]
    simp only [World.view, sendReply_fields, sendReceipt_fields]

theorem handlePayOnline_frame (env : Env) (w : World) (A B : String) (h : B ≠ A) :
    (handlePayOnline env w A).view B = w.view B := by
  unfold handlePayOnline
  split
  · split
    · dsimp only
      split
      · simp only [World.view, sendPaymentLinkWithButtons_fields, get_set_of_ne _ _ _ _ h]
      · simp only [World.view, sendReply_fields]
    · simp only [World.view, sendReply_fields]
  · simp only [World.view, sendReply_fields]

theorem handlePaymentCompleted_frame (env : Env) (w : World) (A B : String) (h : B ≠ A) :
    (handlePaymentCompleted env w A).view B = w.view B := by
  unfold handlePaymentCompleted
  split
  · split
    · dsimp only
      split
      · simp only [World.view, sendReply_fields]
      · split
        · have hs := saveOrderToDatabase_frame env
            { w with gatewayCalls := w.gatewayCalls ++ [.fetch ((Option.getD ‹Cart›.paymentLinkId ""))] }
            A B env.orderId .Online .Paid h
          split
          · rename_i w2 e he
            rw [he] at hs
            simp only [Res.world] at hs
            rw [show w.view B = _ from hs.symm]
            simp only [World.view, sendReply_fields]
          · rename_i w2 he
            rw [he] at hs
            simp only [Res.world] at hs
            rw [show w.view B = _ from hs.symm]
            split
            · simp only [World.view, sendReply_fields, sendReceipt_fields]
            · simp only [World.view, sendReply_fields, sendReceipt_fields,
                get_set_of_ne _ _ _ _ h]
        · simp only [World.view, sendReply_fields, sendPaymentLinkWithButtons_fields]
    · simp only [World.view, sendReply_fields]
  · simp only [World.view, sendReply_fields]

theorem handleCancelOrder_frame (env : Env) (w : World) (A B : String) (h : B ≠ A) :
    (handleCancelOrder env w A).view B = w.view B := by
  rw [handleCancelOrder_eq]
  simp only [World.view, sendReply_fields, resetOrder, get_del_of_ne _ _ _ h]

theorem handleDisconnectHotel_frame (env : Env) (w : World) (A B : String) (h : B ≠ A) :
    (handleDisconnectHotel env w A).view B = w.view B := by
  unfold World.view
  simp only [handleDisconnectHotel, armHotelIdTimeout]
  simp only [sendReply_fields]
  simp only [get_set_of_ne _ _ _ _ h]
  simp only [get_del_of_ne _ _ _ h]

theorem handleItem_frame (env : Env) (w : World) (A B message : String) (h : B ≠ A) :
    (handleItem env w A message).world.view B = w.view B := by
  unfold handleItem
  dsimp only
  split
  · rfl
  · split
    · simp only [Res.world, World.view, sendQuantityOptions_fields, get_set_of_ne _ _ _ _ h]
    · rfl

theorem handleRemove_frame (env : Env) (w : World) (A B message : String) (h : B ≠ A) :
    (handleRemove env w A message).view B = w.view B := by
  unfold handleRemove
  dsimp only
  split
  · simp only [World.view, sendOrderOptions_fields, get_set_of_ne _ _ _ _ h]
  · rfl

theorem handleBody_frame (env : Env) (w : World) (A B message : String) (h : B ≠ A) :
    (handleBody env w A message).world.view B = w.view B := by
  unfold handleBody
  by_cases hcond : (w.hotelIds.get A).isNone ∨ isHotelConnectionActive w env.now A = false
  · rw [if_pos hcond]
    exact handleUnbound_frame env w A B message h
  · rw [if_neg hcond]
    cases hq : w.awaitingQuantity.get A with
    | some X => exact handleQuantity_frame env w A B message X h
    | none =>
      dsimp only
      by_cases c0 : w.awaitingOrderId.get A = some true
      · rw [if_pos c0]
        simp only [Res.world]
        rw [view_of_session (trackOrderByID_session _ _ _ _)]
        simp only [World.view, get_del_of_ne _ _ _ h]
      rw [if_neg c0]
      by_cases c1 : message = "ViewMenu"
      · rw [if_pos c1]
        exact view_of_session (sendMenu_session _ _ _) B
      rw [if_neg c1]
      by_cases c2 : message = "PlaceOrder"
      · rw [if_pos c2]
        exact view_of_session (sendOrderSummary_session _ _ _) B
      rw [if_neg c2]
      by_cases c3 : message = "EditOrder"
      · rw [if_pos c3]
        exact view_of_session (sendEditOrderOptions_session _ _ _) B
      rw [if_neg c3]
      by_cases c4 : message = "MainMenu"
      · rw [if_pos c4]
        exact view_of_session (sendCatalog_session _ _ _ _) B
      rw [if_neg c4]
      by_cases c5 : message = "TrackOrderStatus"
      · rw [if_pos c5]
        exact view_of_session (sendTrackOrderOptions_session _ _ _) B
      rw [if_neg c5]
      by_cases c6 : message = "TrackCurrentOrder"
      · rw [if_pos c6]
        exact view_of_session (trackOrderStatus_session _ _ _) B
      rw [if_neg c6]
      by_cases c7 : message = "TrackOrderByID"
      · rw [if_pos c7]
        simp only [Res.world]
        rw [view_of_session (sendReply_session _ _ _ _ _)]
        simp only [World.view, get_set_of_ne _ _ _ _ h]
      rw [if_neg c7]
      by_cases c8 : startsWith message "Item_" = true
      · rw [if_pos c8]
        exact handleItem_frame env w A B message h
      rw [if_neg c8]
      by_cases c9 : startsWith message "Remove_" = true
      · rw [if_pos c9]
        exact handleRemove_frame env w A B message h
      rw [if_neg c9]
      by_cases c10 : message = "OrderAgain"
      · rw [if_pos c10]
        exact view_of_session (sendCatalog_session _ _ _ _) B
      rw [if_neg c10]
      by_cases c11 : startsWith message "CancelOrder_" = true
      · rw [if_pos c11]
        exact cancelOrder_view env w A _ B
      rw [if_neg c11]
      by_cases c12 : message = "PayCash"
      · rw [if_pos c12]
        exact handlePayCash_frame env w A B h
      rw [if_neg c12]
      by_cases c13 : message = "PayOnline"
      · rw [if_pos c13]
        exact handlePayOnline_frame env w A B h
      rw [if_neg c13]
      by_cases c14 : message = "PaymentCompleted"
      · rw [if_pos c14]
        exact handlePaymentCompleted_frame env w A B h
      rw [if_neg c14]
      by_cases c15 : message = "CancelOrder"
      · rw [if_pos c15]
        exact handleCancelOrder_frame env w A B h
      rw [if_neg c15]
      by_cases c16 : message = "DisconnectHotel"
      · rw [if_pos c16]
        exact handleDisconnectHotel_frame env w A B h
      rw [if_neg c16]
      simp only [Res.world]
      exact view_of_session (sendReply_session _ _ _ _ _) B

theorem handleIncomingMessage_frame (env : Env) (w : World) (A B message : String) (h : B ≠ A) :
    (handleIncomingMessage env w A message).view B = w.view B := by
  have hb := handleBody_frame env w A B message h
  unfold handleIncomingMessage
  split
  · rename_i w1 he
    rw [he] at hb
    exact hb
  · rename_i w1 e he
    rw [he] at hb
    rw [view_of_session (sendReply_session _ _ _ _ _)]
    exact hb

theorem webhook_frame (env : Env) (w : World) (A B message : String) (h : B ≠ A) :
    (webhook env w A message).view B = w.view B := by
  unfold webhook
  rw [handleIncomingMessage_frame env _ A B message h]
  simp only [World.view, updateLastInteraction, get_set_of_ne _ _ _ _ h]

theorem sameView_iff (A : String) (w1 w2 : World) :
    SameView A w1 w2 ↔
      (w1.awaitingHotelId.get A = w2.awaitingHotelId.get A ∧
       w1.menuItems.get A = w2.menuItems.get A ∧
       w1.awaitingQuantity.get A = w2.awaitingQuantity.get A ∧
       w1.awaitingOrderId.get A = w2.awaitingOrderId.get A ∧
       w1.orders.get A = w2.orders.get A ∧
       w1.hotelIds.get A = w2.hotelIds.get A ∧
       w1.userInteractionTimestamps.get A = w2.userInteractionTimestamps.get A ∧
       w1.menuDb = w2.menuDb ∧ w1.orderDb = w2.orderDb) := by
  unfold SameView World.view
  constructor
  · rintro ⟨h, h8, h9⟩
    simp only [SenderView.mk.injEq] at h
    obtain ⟨h1, h2, h3, h4, h5, h6, h7⟩ := h
    exact ⟨h1, h2, h3, h4, h5, h6, h7, h8, h9⟩
  · rintro ⟨h1, h2, h3, h4, h5, h6, h7, h8, h9⟩
    exact ⟨by rw [h1, h2, h3, h4, h5, h6, h7], h8, h9⟩

theorem GrewAlike.snoc {p1 p2 l1 l2 : List Outbound} (h : GrewAlike p1 p2 l1 l2) (m : Outbound) :
    GrewAlike p1 p2 (l1 ++ [m]) (l2 ++ [m]) := by
  obtain ⟨out, h1, h2⟩ := h
  exact ⟨out ++ [m], by rw [h1, List.append_assoc], by rw [h2, List.append_assoc]⟩

theorem Sim.update {A : String} {o1 o2 d1 d2 : List Outbound} {w1 w2 : World}
    (h : Sim A o1 o2 d1 d2 w1 w2) (v1 v2 : World) (hv : SameView A v1 v2)
    (ho1 : v1.outbox = w1.outbox) (ho2 : v2.outbox = w2.outbox)
    (hd1 : v1.dropped = w1.dropped) (hd2 : v2.dropped = w2.dropped) :
    Sim A o1 o2 d1 d2 v1 v2 := by
  refine ⟨hv, ?_, ?_⟩
  · rw [ho1, ho2]; exact h.2.1
  · rw [hd1, hd2]; exact h.2.2

theorem Sim.post {A : String} {o1 o2 d1 d2 : List Outbound} {w1 w2 : World}
    (h : Sim A o1 o2 d1 d2 w1 w2) (env : Env) (m : Outbound) :
    Sim A o1 o2 d1 d2 (SupFoodie.post env w1 m) (SupFoodie.post env w2 m) := by
  unfold SupFoodie.post
  split
  · exact ⟨h.1, h.2.1.snoc m, h.2.2⟩
  · exact ⟨h.1, h.2.1, h.2.2.snoc m⟩

theorem Sim.lastInteraction {A : String} {o1 o2 d1 d2 : List Outbound} {w1 w2 : World}
    (h : Sim A o1 o2 d1 d2 w1 w2) :
    getLastInteractionTimestamp w1 A = getLastInteractionTimestamp w2 A := by
  have := ((sameView_iff A w1 w2).mp h.1).2.2.2.2.2.2.1
  simp only [getLastInteractionTimestamp, this]

theorem Sim.sendInWindow {A : String} {o1 o2 d1 d2 : List Outbound} {w1 w2 : World}
    (h : Sim A o1 o2 d1 d2 w1 w2) (env : Env) (m : Outbound) :
    Sim A o1 o2 d1 d2 (SupFoodie.sendInWindow env w1 A m) (SupFoodie.sendInWindow env w2 A m) := by
  unfold SupFoodie.sendInWindow sendTemplateMessage
  dsimp only
  rw [← h.lastInteraction]
  split
  · exact h.post env _
  · exact h.post env _

theorem Sim.sendReplyWithButton {A : String} {o1 o2 d1 d2 : List Outbound} {w1 w2 : World}
    (h : Sim A o1 o2 d1 d2 w1 w2) (env : Env) (reply : String) (c : Bool) :
    Sim A o1 o2 d1 d2 (SupFoodie.sendReplyWithButton env w1 A reply c)
      (SupFoodie.sendReplyWithButton env w2 A reply c) := by
  unfold SupFoodie.sendReplyWithButton
  exact h.sendInWindow env _

theorem Sim.sendReply {A : String} {o1 o2 d1 d2 : List Outbound} {w1 w2 : World}
    (h : Sim A o1 o2 d1 d2 w1 w2) (env : Env) (reply : String) (b : Bool) :
    Sim A o1 o2 d1 d2 (SupFoodie.sendReply env w1 A reply b)
      (SupFoodie.sendReply env w2 A reply b) := by
  unfold SupFoodie.sendReply sendTextMessage sendTemplateMessage
  dsimp only
  rw [← h.lastInteraction]
  by_cases hw : isWithin24Hours env.now (getLastInteractionTimestamp w1 A) = true
  · simp only [hw, if_true]
    cases b
    · simp only [Bool.false_eq_true, if_false]
      exact h.post env _
    · simp only [if_true]
      exact (h.post env _).sendReplyWithButton env _ _
  · simp only [hw, if_false]
    cases b
    · simp only [Bool.false_eq_true, if_false]
      exact h.post env _
    · simp only [if_true]
      exact (h.post env _).sendReplyWithButton env _ _

theorem Sim.sendReplyInteractive {A : String} {o1 o2 d1 d2 : List Outbound} {w1 w2 : World}
    (h : Sim A o1 o2 d1 d2 w1 w2) (env : Env) (m : Outbound) :
    Sim A o1 o2 d1 d2 (SupFoodie.sendReplyInteractive env w1 A m) (SupFoodie.sendReplyInteractive env w2 A m) := by
  unfold SupFoodie.sendReplyInteractive
  exact h.sendInWindow env _

theorem Sim.sendOrderOptions {A : String} {o1 o2 d1 d2 : List Outbound} {w1 w2 : World}
    (h : Sim A o1 o2 d1 d2 w1 w2) (env : Env) (text : String) :
    Sim A o1 o2 d1 d2 (SupFoodie.sendOrderOptions env w1 A text) (SupFoodie.sendOrderOptions env w2 A text) := by
  unfold SupFoodie.sendOrderOptions
  exact h.sendInWindow env _

theorem Sim.sendReplyWithCancelOption {A : String} {o1 o2 d1 d2 : List Outbound} {w1 w2 : World}
    (h : Sim A o1 o2 d1 d2 w1 w2) (env : Env) (reply orderId : String) :
    Sim A o1 o2 d1 d2 (SupFoodie.sendReplyWithCancelOption env w1 A reply orderId) (SupFoodie.sendReplyWithCancelOption env w2 A reply orderId) := by
  unfold SupFoodie.sendReplyWithCancelOption
  exact h.sendInWindow env _

theorem Sim.sendPaymentLinkWithButtons {A : String} {o1 o2 d1 d2 : List Outbound} {w1 w2 : World}
    (h : Sim A o1 o2 d1 d2 w1 w2) (env : Env) (link total : String) :
    Sim A o1 o2 d1 d2 (SupFoodie.sendPaymentLinkWithButtons env w1 A link total) (SupFoodie.sendPaymentLinkWithButtons env w2 A link total) := by
  unfold SupFoodie.sendPaymentLinkWithButtons
  exact h.sendInWindow env _

theorem Sim.sendReplyWithPaymentOptions {A : String} {o1 o2 d1 d2 : List Outbound} {w1 w2 : World}
    (h : Sim A o1 o2 d1 d2 w1 w2) (env : Env) (text : String) :
    Sim A o1 o2 d1 d2 (SupFoodie.sendReplyWithPaymentOptions env w1 A text) (SupFoodie.sendReplyWithPaymentOptions env w2 A text) := by
  unfold SupFoodie.sendReplyWithPaymentOptions SupFoodie.sendReplyInteractive
  exact h.sendInWindow env _

theorem Sim.sendTrackOrderOptions {A : String} {o1 o2 d1 d2 : List Outbound} {w1 w2 : World}
    (h : Sim A o1 o2 d1 d2 w1 w2) (env : Env)  :
    Sim A o1 o2 d1 d2 (SupFoodie.sendTrackOrderOptions env w1 A ) (SupFoodie.sendTrackOrderOptions env w2 A ) := by
  unfold SupFoodie.sendTrackOrderOptions SupFoodie.sendReplyInteractive
  exact h.sendInWindow env _

theorem Sim.sendQuantityOptions {A : String} {o1 o2 d1 d2 : List Outbound} {w1 w2 : World}
    (h : Sim A o1 o2 d1 d2 w1 w2) (env : Env) (item : MenuItem) :
    Sim A o1 o2 d1 d2 (SupFoodie.sendQuantityOptions env w1 A item) (SupFoodie.sendQuantityOptions env w2 A item) := by
  unfold SupFoodie.sendQuantityOptions SupFoodie.sendReplyInteractive
  exact h.sendInWindow env _

theorem Sim.sendCatalog {A : String} {o1 o2 d1 d2 : List Outbound} {w1 w2 : World}
    (h : Sim A o1 o2 d1 d2 w1 w2) (env : Env) (text : String) :
    Sim A o1 o2 d1 d2 (SupFoodie.sendCatalog env w1 A text) (SupFoodie.sendCatalog env w2 A text) := by
  unfold SupFoodie.sendCatalog SupFoodie.sendReplyInteractive
  exact h.sendInWindow env _

theorem Sim.sendMenuChunks {A : String} {o1 o2 d1 d2 : List Outbound} (env : Env)
    (category : String) :
    ∀ (chunks : List (List MenuItem)) (i : Nat) (w1 w2 : World), Sim A o1 o2 d1 d2 w1 w2 →
      Sim A o1 o2 d1 d2 (SupFoodie.sendMenuChunks env A category i chunks w1)
        (SupFoodie.sendMenuChunks env A category i chunks w2) := by
  intro chunks
  induction chunks with
  | nil => intro i w1 w2 h; exact h
  | cons c rest ih =>
    intro i w1 w2 h
    unfold SupFoodie.sendMenuChunks
    exact ih _ _ _ (h.sendReplyInteractive env _)

theorem Sim.sendMenuCategories {A : String} {o1 o2 d1 d2 : List Outbound} (env : Env) :
    ∀ (cats : List (String × List MenuItem)) (w1 w2 : World), Sim A o1 o2 d1 d2 w1 w2 →
      Sim A o1 o2 d1 d2 (SupFoodie.sendMenuCategories env A cats w1)
        (SupFoodie.sendMenuCategories env A cats w2) := by
  intro cats
  induction cats with
  | nil => intro w1 w2 h; exact h
  | cons c rest ih =>
    intro w1 w2 h
    obtain ⟨category, items⟩ := c
    unfold SupFoodie.sendMenuCategories
    exact ih _ _ (Sim.sendMenuChunks env category _ _ _ _ h)

theorem Sim.sendMenu {A : String} {o1 o2 d1 d2 : List Outbound} {w1 w2 : World}
    (h : Sim A o1 o2 d1 d2 w1 w2) (env : Env) :
    Sim A o1 o2 d1 d2 (SupFoodie.sendMenu env w1 A) (SupFoodie.sendMenu env w2 A) := by
  obtain ⟨e1, e2, e3, e4, e5, e6, e7, e8, e9⟩ := (sameView_iff A w1 w2).mp h.1
  unfold SupFoodie.sendMenu
  rw [← e2]
  cases hm : w1.menuItems.get A with
  | none => exact h.sendReply env _ _
  | some items =>
    dsimp only
    split
    · exact h.sendReply env _ _
    · exact Sim.sendMenuCategories env _ _ _ h

theorem Sim.sendEditOrderOptions {A : String} {o1 o2 d1 d2 : List Outbound} {w1 w2 : World}
    (h : Sim A o1 o2 d1 d2 w1 w2) (env : Env) :
    Sim A o1 o2 d1 d2 (SupFoodie.sendEditOrderOptions env w1 A)
      (SupFoodie.sendEditOrderOptions env w2 A) := by
  obtain ⟨e1, e2, e3, e4, e5, e6, e7, e8, e9⟩ := (sameView_iff A w1 w2).mp h.1
  unfold SupFoodie.sendEditOrderOptions
  rw [← e5]
  dsimp only
  split
  · exact h.sendReply env _ _
  · exact h.sendReplyInteractive env _

theorem Sim.sendOrderSummary {A : String} {o1 o2 d1 d2 : List Outbound} {w1 w2 : World}
    (h : Sim A o1 o2 d1 d2 w1 w2) (env : Env) :
    Sim A o1 o2 d1 d2 (SupFoodie.sendOrderSummary env w1 A)
      (SupFoodie.sendOrderSummary env w2 A) := by
  obtain ⟨e1, e2, e3, e4, e5, e6, e7, e8, e9⟩ := (sameView_iff A w1 w2).mp h.1
  unfold SupFoodie.sendOrderSummary
  rw [← e5]
  cases hc : w1.orders.get A with
  | none => exact h.sendReply env _ _
  | some cart =>
    dsimp only
    split
    · exact h.sendReplyWithPaymentOptions env _
    · exact h.sendReply env _ _

theorem Sim.sendReceipt {A : String} {o1 o2 d1 d2 : List Outbound} {w1 w2 : World}
    (h : Sim A o1 o2 d1 d2 w1 w2) (env : Env) (orderId : String) :
    Sim A o1 o2 d1 d2 (SupFoodie.sendReceipt env w1 A orderId)
      (SupFoodie.sendReceipt env w2 A orderId) := by
  obtain ⟨e1, e2, e3, e4, e5, e6, e7, e8, e9⟩ := (sameView_iff A w1 w2).mp h.1
  unfold SupFoodie.sendReceipt
  rw [← e6, ← e9]
  cases hc : w1.hotelIds.get A with
  | none => exact h.sendReply env _ _
  | some conn =>
    dsimp only
    split
    · split
      · exact h.sendReply env _ _
      · exact h.sendReply env _ _
    · exact h.sendReply env _ _

theorem Sim.sendTrackingReply {A : String} {o1 o2 d1 d2 : List Outbound} {w1 w2 : World}
    (h : Sim A o1 o2 d1 d2 w1 w2) (env : Env) (order : OrderDoc) :
    Sim A o1 o2 d1 d2 (SupFoodie.sendTrackingReply env w1 A order)
      (SupFoodie.sendTrackingReply env w2 A order) := by
  unfold SupFoodie.sendTrackingReply
  dsimp only
  split
  · exact h.sendReplyWithCancelOption env _ _
  · exact h.sendReplyWithButton env _ _

theorem Sim.trackOrderStatus {A : String} {o1 o2 d1 d2 : List Outbound} {w1 w2 : World}
    (h : Sim A o1 o2 d1 d2 w1 w2) (env : Env) :
    Sim A o1 o2 d1 d2 (SupFoodie.trackOrderStatus env w1 A)
      (SupFoodie.trackOrderStatus env w2 A) := by
  obtain ⟨e1, e2, e3, e4, e5, e6, e7, e8, e9⟩ := (sameView_iff A w1 w2).mp h.1
  unfold SupFoodie.trackOrderStatus
  rw [← e6, ← e9]
  cases hc : w1.hotelIds.get A with
  | none => exact h.sendReplyWithButton env _ _
  | some conn =>
    dsimp only
    split
    · split
      · exact h.sendTrackingReply env _
      · exact h.sendReplyWithButton env _ _
    · exact h.sendReplyWithButton env _ _

theorem Sim.trackOrderByID {A : String} {o1 o2 d1 d2 : List Outbound} {w1 w2 : World}
    (h : Sim A o1 o2 d1 d2 w1 w2) (env : Env) (orderId : String) :
    Sim A o1 o2 d1 d2 (SupFoodie.trackOrderByID env w1 A orderId)
      (SupFoodie.trackOrderByID env w2 A orderId) := by
  obtain ⟨e1, e2, e3, e4, e5, e6, e7, e8, e9⟩ := (sameView_iff A w1 w2).mp h.1
  unfold SupFoodie.trackOrderByID
  rw [← e6, ← e9]
  cases hc : w1.hotelIds.get A with
  | none => exact h.sendReplyWithButton env _ _
  | some conn =>
    dsimp only
    split
    · split
      · exact h.sendTrackingReply env _
      · exact h.sendReplyWithButton env _ _
    · exact h.sendReplyWithButton env _ _

theorem Sim.cancelOrder {A : String} {o1 o2 d1 d2 : List Outbound} {w1 w2 : World}
    (h : Sim A o1 o2 d1 d2 w1 w2) (env : Env) (orderId : String) :
    Sim A o1 o2 d1 d2 (SupFoodie.cancelOrder env w1 A orderId)
      (SupFoodie.cancelOrder env w2 A orderId) := by
  obtain ⟨e1, e2, e3, e4, e5, e6, e7, e8, e9⟩ := (sameView_iff A w1 w2).mp h.1
  unfold SupFoodie.cancelOrder
  rw [← e6, ← e9]
  cases hc : w1.hotelIds.get A with
  | none => exact h.sendReply env _ _
  | some conn =>
    dsimp only
    split
    · split
      · split
        · split
          · refine Sim.sendReply ?_ env _ _
            refine h.update _ _ ?_ rfl rfl rfl rfl
            rw [sameView_iff]
            simp only [Dict.get_set_self, Dict.get_del_self, e1, e2, e3, e4, e5, e6, e7, e8, e9, and_self]
          · exact h.sendReply env _ _
        · exact h.sendReply env _ _
      · exact h.sendReply env _ _
    · exact h.sendReply env _ _

theorem Sim.saveOrderToDatabase {A : String} {o1 o2 d1 d2 : List Outbound} {w1 w2 : World}
    (h : Sim A o1 o2 d1 d2 w1 w2) (env : Env) (orderId : String) (pm : PaymentMethod)
    (ps : PaymentStatus) :
    Sim A o1 o2 d1 d2 (SupFoodie.saveOrderToDatabase env w1 A orderId pm ps).world
      (SupFoodie.saveOrderToDatabase env w2 A orderId pm ps).world ∧
    (SupFoodie.saveOrderToDatabase env w1 A orderId pm ps).error =
      (SupFoodie.saveOrderToDatabase env w2 A orderId pm ps).error := by
  obtain ⟨e1, e2, e3, e4, e5, e6, e7, e8, e9⟩ := (sameView_iff A w1 w2).mp h.1
  unfold SupFoodie.saveOrderToDatabase
  rw [← e6, ← e9, ← e5]
  cases hc : w1.hotelIds.get A with
  | none => exact ⟨h, rfl⟩
  | some conn =>
    dsimp only
    cases ho : w1.orders.get A with
    | none => exact ⟨h, rfl⟩
    | some cart =>
      dsimp only
      split
      · split
        · exact ⟨h, rfl⟩
        · refine ⟨?_, rfl⟩
          simp only [Res.world, resetOrder]
          refine h.update _ _ ?_ rfl rfl rfl rfl
          rw [sameView_iff]
          simp only [Dict.get_set_self, Dict.get_del_self, e1, e2, e3, e4, e5, e6, e7, e8, e9, and_self]
      · exact ⟨h, rfl⟩

theorem Sim.loadMenuItems {A : String} {o1 o2 d1 d2 : List Outbound} {w1 w2 : World}
    (h : Sim A o1 o2 d1 d2 w1 w2) (env : Env) :
    Sim A o1 o2 d1 d2 (SupFoodie.loadMenuItems env w1 A).world
      (SupFoodie.loadMenuItems env w2 A).world ∧
    (SupFoodie.loadMenuItems env w1 A).error = (SupFoodie.loadMenuItems env w2 A).error := by
  obtain ⟨e1, e2, e3, e4, e5, e6, e7, e8, e9⟩ := (sameView_iff A w1 w2).mp h.1
  unfold SupFoodie.loadMenuItems
  rw [← e6, ← e8]
  cases hc : w1.hotelIds.get A with
  | none => exact ⟨h, rfl⟩
  | some conn =>
    dsimp only
    split
    · refine ⟨?_, rfl⟩
      simp only [Res.world]
      refine h.update _ _ ?_ rfl rfl rfl rfl
      rw [sameView_iff]
      simp only [Dict.get_set_self, Dict.get_del_self, e1, e2, e3, e4, e5, e6, e7, e8, e9, and_self]
    · refine ⟨?_, rfl⟩
      simp only [Res.world]
      refine h.update _ _ ?_ rfl rfl rfl rfl
      rw [sameView_iff]
      simp only [Dict.get_set_self, Dict.get_del_self, e1, e2, e3, e4, e5, e6, e7, e8, e9, and_self]

theorem Sim.handleUnbound {A : String} {o1 o2 d1 d2 : List Outbound} {w1 w2 : World}
    (h : Sim A o1 o2 d1 d2 w1 w2) (env : Env) (message : String) :
    Sim A o1 o2 d1 d2 (SupFoodie.handleUnbound env w1 A message)
      (SupFoodie.handleUnbound env w2 A message) := by
  obtain ⟨e1, e2, e3, e4, e5, e6, e7, e8, e9⟩ := (sameView_iff A w1 w2).mp h.1
  unfold SupFoodie.handleUnbound
  dsimp only
  have hcond : (Dict.get w2.menuDb (trim message)).isSome =
      (Dict.get w1.menuDb (trim message)).isSome := by rw [e8]
  rw [hcond]
  split
  · refine Sim.sendReply ?_ env _ _
    unfold armHotelIdTimeout
    refine h.update _ _ ?_ rfl rfl rfl rfl
    rw [sameView_iff]
    simp only [Dict.get_set_self, Dict.get_del_self, e1, e2, e3, e4, e5, e6, e7, e8, e9, and_self]
  · split
    · split
      · have hb : Sim A o1 o2 d1 d2
            { w1 with
              hotelIds := (w1.hotelIds.del A).set A ⟨trim message, env.now⟩
              awaitingHotelId := w1.awaitingHotelId.del A }
            { w2 with
              hotelIds := (w2.hotelIds.del A).set A ⟨trim message, env.now⟩
              awaitingHotelId := w2.awaitingHotelId.del A } := by
          refine h.update _ _ ?_ rfl rfl rfl rfl
          rw [sameView_iff]
          simp only [Dict.get_set_self, Dict.get_del_self, e1, e2, e3, e4, e5, e6, e7, e8, e9,
            and_self]
        obtain ⟨hl, he⟩ := hb.loadMenuItems env
        revert hl he
        cases SupFoodie.loadMenuItems env
            { w1 with
              hotelIds := (w1.hotelIds.del A).set A ⟨trim message, env.now⟩
              awaitingHotelId := w1.awaitingHotelId.del A } A <;>
          cases SupFoodie.loadMenuItems env
            { w2 with
              hotelIds := (w2.hotelIds.del A).set A ⟨trim message, env.now⟩
              awaitingHotelId := w2.awaitingHotelId.del A } A <;>
          intro hl he
        · exact Sim.sendCatalog hl env _
        · exact absurd he (by simp [Res.error])
        · exact absurd he (by simp [Res.error])
        · refine Sim.sendReply ?_ env _ _
          simp only [Res.world] at hl
          obtain ⟨f1, f2, f3, f4, f5, f6, f7, f8, f9⟩ := (sameView_iff A _ _).mp hl.1
          refine hl.update _ _ ?_ rfl rfl rfl rfl
          rw [sameView_iff]
          simp only [Dict.get_set_self, Dict.get_del_self, f1, f2, f3, f4, f5, f6, f7, f8, f9,
            and_self]
      · refine Sim.sendReply ?_ env _ _
        refine h.update _ _ ?_ rfl rfl rfl rfl
        rw [sameView_iff]
        simp only [Dict.get_set_self, Dict.get_del_self, e1, e2, e3, e4, e5, e6, e7, e8, e9,
          and_self]
    · refine Sim.sendReply ?_ env _ _
      refine h.update _ _ ?_ rfl rfl rfl rfl
      rw [sameView_iff]
      simp only [Dict.get_set_self, Dict.get_del_self, e1, e2, e3, e4, e5, e6, e7, e8, e9,
        and_self]

theorem Sim.handleQuantity {A : String} {o1 o2 d1 d2 : List Outbound} {w1 w2 : World}
    (h : Sim A o1 o2 d1 d2 w1 w2) (env : Env) (message : String) (X : MenuItem) :
    Sim A o1 o2 d1 d2 (SupFoodie.handleQuantity env w1 A message X)
      (SupFoodie.handleQuantity env w2 A message X) := by
  obtain ⟨e1, e2, e3, e4, e5, e6, e7, e8, e9⟩ := (sameView_iff A w1 w2).mp h.1
  have hre : Sim A o1 o2 d1 d2
      (SupFoodie.sendQuantityOptions env
        { w1 with awaitingQuantity := (w1.awaitingQuantity.del A).set A X } A X)
      (SupFoodie.sendQuantityOptions env
        { w2 with awaitingQuantity := (w2.awaitingQuantity.del A).set A X } A X) := by
    refine Sim.sendQuantityOptions ?_ env _
    refine h.update _ _ ?_ rfl rfl rfl rfl
    rw [sameView_iff]
    simp only [Dict.get_set_self, Dict.get_del_self, e1, e2, e3, e4, e5, e6, e7, e8, e9, and_self]
  unfold SupFoodie.handleQuantity
  dsimp only
  rw [← e5]
  by_cases hst : startsWith message "Qty_" = true
  · rw [if_pos hst, if_pos hst]
    by_cases hq : (parseQuantity message).isNaN = false ∧ parseQuantity message > 0
    · unfold parseQuantity at hq
      rw [if_pos hq, if_pos hq]
      refine Sim.sendOrderOptions ?_ env _
      refine h.update _ _ ?_ rfl rfl rfl rfl
      rw [sameView_iff]
      simp only [Dict.get_set_self, Dict.get_del_self, e1, e2, e3, e4, e5, e6, e7, e8, e9,
        and_self]
    · unfold parseQuantity at hq
      rw [if_neg hq, if_neg hq]
      exact hre
  · rw [if_neg hst, if_neg hst]
    exact hre

theorem Sim.handleItem {A : String} {o1 o2 d1 d2 : List Outbound} {w1 w2 : World}
    (h : Sim A o1 o2 d1 d2 w1 w2) (env : Env) (message : String) :
    Sim A o1 o2 d1 d2 (SupFoodie.handleItem env w1 A message).world
      (SupFoodie.handleItem env w2 A message).world ∧
    (SupFoodie.handleItem env w1 A message).error =
      (SupFoodie.handleItem env w2 A message).error := by
  obtain ⟨e1, e2, e3, e4, e5, e6, e7, e8, e9⟩ := (sameView_iff A w1 w2).mp h.1
  unfold SupFoodie.handleItem
  dsimp only
  rw [← e2]
  cases hm : w1.menuItems.get A with
  | none => exact ⟨h, rfl⟩
  | some items =>
    dsimp only
    split
    · refine ⟨?_, rfl⟩
      simp only [Res.world]
      refine Sim.sendQuantityOptions ?_ env _
      refine h.update _ _ ?_ rfl rfl rfl rfl
      rw [sameView_iff]
      simp only [Dict.get_set_self, Dict.get_del_self, e1, e2, e3, e4, e5, e6, e7, e8, e9,
        and_self]
    · exact ⟨h, rfl⟩

theorem Sim.handleRemove {A : String} {o1 o2 d1 d2 : List Outbound} {w1 w2 : World}
    (h : Sim A o1 o2 d1 d2 w1 w2) (env : Env) (message : String) :
    Sim A o1 o2 d1 d2 (SupFoodie.handleRemove env w1 A message)
      (SupFoodie.handleRemove env w2 A message) := by
  obtain ⟨e1, e2, e3, e4, e5, e6, e7, e8, e9⟩ := (sameView_iff A w1 w2).mp h.1
  unfold SupFoodie.handleRemove
  dsimp only
  rw [← e5]
  cases hc : w1.orders.get A with
  | none => exact h
  | some cart =>
    dsimp only
    refine Sim.sendOrderOptions ?_ env _
    refine h.update _ _ ?_ rfl rfl rfl rfl
    rw [sameView_iff]
    simp only [Dict.get_set_self, Dict.get_del_self, e1, e2, e3, e4, e5, e6, e7, e8, e9, and_self]

theorem Sim.handleDisconnectHotel {A : String} {o1 o2 d1 d2 : List Outbound} {w1 w2 : World}
    (h : Sim A o1 o2 d1 d2 w1 w2) (env : Env) :
    Sim A o1 o2 d1 d2 (SupFoodie.handleDisconnectHotel env w1 A)
      (SupFoodie.handleDisconnectHotel env w2 A) := by
  obtain ⟨e1, e2, e3, e4, e5, e6, e7, e8, e9⟩ := (sameView_iff A w1 w2).mp h.1
  have hb : Sim A o1 o2 d1 d2 { w1 with hotelIds := w1.hotelIds.del A }
      { w2 with hotelIds := w2.hotelIds.del A } := by
    refine h.update _ _ ?_ rfl rfl rfl rfl
    rw [sameView_iff]
    simp only [Dict.get_set_self, Dict.get_del_self, e1, e2, e3, e4, e5, e6, e7, e8, e9, and_self]
  have hr := hb.sendReply env
    "You have been disconnected from the hotel. Please enter a new Hotel ID to proceed:" false
  obtain ⟨f1, f2, f3, f4, f5, f6, f7, f8, f9⟩ := (sameView_iff A _ _).mp hr.1
  unfold SupFoodie.handleDisconnectHotel armHotelIdTimeout
  dsimp only
  refine hr.update _ _ ?_ rfl rfl rfl rfl
  rw [sameView_iff]
  simp only [Dict.get_set_self, Dict.get_del_self, f1, f2, f3, f4, f5, f6, f7, f8, f9, and_self]

theorem Sim.handleCancelOrder {A : String} {o1 o2 d1 d2 : List Outbound} {w1 w2 : World}
    (h : Sim A o1 o2 d1 d2 w1 w2) (env : Env) :
    Sim A o1 o2 d1 d2 (SupFoodie.handleCancelOrder env w1 A)
      (SupFoodie.handleCancelOrder env w2 A) := by
  obtain ⟨e1, e2, e3, e4, e5, e6, e7, e8, e9⟩ := (sameView_iff A w1 w2).mp h.1
  rw [handleCancelOrder_eq, handleCancelOrder_eq]
  refine Sim.sendReply ?_ env _ _
  unfold resetOrder
  refine h.update _ _ ?_ rfl rfl rfl rfl
  rw [sameView_iff]
  simp only [Dict.get_set_self, Dict.get_del_self, e1, e2, e3, e4, e5, e6, e7, e8, e9, and_self]

theorem Sim.handlePayOnline {A : String} {o1 o2 d1 d2 : List Outbound} {w1 w2 : World}
    (h : Sim A o1 o2 d1 d2 w1 w2) (env : Env) :
    Sim A o1 o2 d1 d2 (SupFoodie.handlePayOnline env w1 A)
      (SupFoodie.handlePayOnline env w2 A) := by
  obtain ⟨e1, e2, e3, e4, e5, e6, e7, e8, e9⟩ := (sameView_iff A w1 w2).mp h.1
  unfold SupFoodie.handlePayOnline
  rw [← e5]
  cases hc : w1.orders.get A with
  | none => exact h.sendReply env _ _
  | some cart =>
    dsimp only
    split
    · split
      · refine Sim.sendPaymentLinkWithButtons ?_ env _ _
        refine h.update _ _ ?_ rfl rfl rfl rfl
        rw [sameView_iff]
        simp only [Dict.get_set_self, Dict.get_del_self, e1, e2, e3, e4, e5, e6, e7, e8, e9,
          and_self]
      · refine Sim.sendReply ?_ env _ _
        refine h.update _ _ ?_ rfl rfl rfl rfl
        rw [sameView_iff]
        exact ⟨e1, e2, e3, e4, e5, e6, e7, e8, e9⟩
    · exact h.sendReply env _ _

theorem Sim.handlePayCash {A : String} {o1 o2 d1 d2 : List Outbound} {w1 w2 : World}
    (h : Sim A o1 o2 d1 d2 w1 w2) (env : Env) :
    Sim A o1 o2 d1 d2 (SupFoodie.handlePayCash env w1 A).world
      (SupFoodie.handlePayCash env w2 A).world ∧
    (SupFoodie.handlePayCash env w1 A).error = (SupFoodie.handlePayCash env w2 A).error := by
  obtain ⟨hs, he⟩ := h.saveOrderToDatabase env env.orderId .Cash .Pending
  unfold SupFoodie.handlePayCash
  dsimp only
  revert hs he
  cases SupFoodie.saveOrderToDatabase env w1 A env.orderId .Cash .Pending <;>
    cases SupFoodie.saveOrderToDatabase env w2 A env.orderId .Cash .Pending <;>
    intro hs he
  · refine ⟨?_, rfl⟩
    simp only [Res.world] at hs ⊢
    exact (hs.sendReceipt env _).sendReply env _ _
  · exact absurd he (by simp [Res.error])
  · exact absurd he (by simp [Res.error])
  · simp only [Res.world, Res.error] at hs he ⊢
    exact ⟨hs, he⟩

theorem Sim.handlePaymentCompleted {A : String} {o1 o2 d1 d2 : List Outbound} {w1 w2 : World}
    (h : Sim A o1 o2 d1 d2 w1 w2) (env : Env) :
    Sim A o1 o2 d1 d2 (SupFoodie.handlePaymentCompleted env w1 A)
      (SupFoodie.handlePaymentCompleted env w2 A) := by
  obtain ⟨e1, e2, e3, e4, e5, e6, e7, e8, e9⟩ := (sameView_iff A w1 w2).mp h.1
  unfold SupFoodie.handlePaymentCompleted
  rw [← e5]
  cases hc : w1.orders.get A with
  | none => exact h.sendReply env _ _
  | some cart =>
    dsimp only
    split
    · have hv : Sim A o1 o2 d1 d2
          { w1 with gatewayCalls := w1.gatewayCalls ++ [.fetch (cart.paymentLinkId.getD "")] }
          { w2 with gatewayCalls := w2.gatewayCalls ++ [.fetch (cart.paymentLinkId.getD "")] } := by
        refine h.update _ _ ?_ rfl rfl rfl rfl
        rw [sameView_iff]
        exact ⟨e1, e2, e3, e4, e5, e6, e7, e8, e9⟩
      split
      · exact hv.sendReply env _ _
      · split
        · obtain ⟨hs, he⟩ := hv.saveOrderToDatabase env env.orderId .Online .Paid
          revert hs he
          cases SupFoodie.saveOrderToDatabase env
              { w1 with gatewayCalls := w1.gatewayCalls ++ [.fetch (cart.paymentLinkId.getD "")] }
              A env.orderId .Online .Paid <;>
            cases SupFoodie.saveOrderToDatabase env
              { w2 with gatewayCalls := w2.gatewayCalls ++ [.fetch (cart.paymentLinkId.getD "")] }
              A env.orderId .Online .Paid <;>
            intro hs he
          · simp only [Res.world] at hs
            dsimp only
            have hr := hs.sendReceipt env env.orderId
            obtain ⟨f1, f2, f3, f4, f5, f6, f7, f8, f9⟩ := (sameView_iff A _ _).mp hr.1
            rw [← f5]
            rename_i u1 u2
            cases hc3 : (SupFoodie.sendReceipt env u1 A env.orderId).orders.get A with
            | none => exact hr.sendReply env _ _
            | some cart3 =>
              dsimp only
              refine Sim.sendReply ?_ env _ _
              refine hr.update _ _ ?_ rfl rfl rfl rfl
              rw [sameView_iff]
              simp only [Dict.get_set_self, Dict.get_del_self, f1, f2, f3, f4, f5, f6, f7, f8, f9,
                and_self]
          · exact absurd he (by simp [Res.error])
          · exact absurd he (by simp [Res.error])
          · simp only [Res.world] at hs
            exact hs.sendReply env _ _
        · exact (hv.sendReply env _ _).sendPaymentLinkWithButtons env _ _
    · exact h.sendReply env _ _

theorem Sim.handleBody {A : String} {o1 o2 d1 d2 : List Outbound} {w1 w2 : World}
    (h : Sim A o1 o2 d1 d2 w1 w2) (env : Env) (message : String) :
    Sim A o1 o2 d1 d2 (SupFoodie.handleBody env w1 A message).world
      (SupFoodie.handleBody env w2 A message).world ∧
    (SupFoodie.handleBody env w1 A message).error =
      (SupFoodie.handleBody env w2 A message).error := by
  obtain ⟨e1, e2, e3, e4, e5, e6, e7, e8, e9⟩ := (sameView_iff A w1 w2).mp h.1
  have hact : isHotelConnectionActive w2 env.now A = isHotelConnectionActive w1 env.now A := by
    simp only [isHotelConnectionActive, e6]
  unfold SupFoodie.handleBody
  rw [← e6, hact, ← e3, ← e4]
  by_cases hcond : (w1.hotelIds.get A).isNone ∨ isHotelConnectionActive w1 env.now A = false
  · rw [if_pos hcond, if_pos hcond]
    exact ⟨h.handleUnbound env _, rfl⟩
  · rw [if_neg hcond, if_neg hcond]
    cases hq : w1.awaitingQuantity.get A with
    | some X => exact ⟨h.handleQuantity env message X, rfl⟩
    | none =>
      dsimp only
      by_cases c0 : w1.awaitingOrderId.get A = some true
      · rw [if_pos c0, if_pos c0]
        refine ⟨?_, rfl⟩
        simp only [Res.world]
        refine Sim.trackOrderByID ?_ env _
        refine h.update _ _ ?_ rfl rfl rfl rfl
        rw [sameView_iff]
        simp only [Dict.get_set_self, Dict.get_del_self, e1, e2, e3, e4, e5, e6, e7, e8, e9,
          and_self]
      rw [if_neg c0, if_neg c0]
      by_cases c1 : message = "ViewMenu"
      · rw [if_pos c1, if_pos c1]
        exact ⟨h.sendMenu env, rfl⟩
      rw [if_neg c1, if_neg c1]
      by_cases c2 : message = "PlaceOrder"
      · rw [if_pos c2, if_pos c2]
        exact ⟨h.sendOrderSummary env, rfl⟩
      rw [if_neg c2, if_neg c2]
      by_cases c3 : message = "EditOrder"
      · rw [if_pos c3, if_pos c3]
        exact ⟨h.sendEditOrderOptions env, rfl⟩
      rw [if_neg c3, if_neg c3]
      by_cases c4 : message = "MainMenu"
      · rw [if_pos c4, if_pos c4]
        exact ⟨h.sendCatalog env _, rfl⟩
      rw [if_neg c4, if_neg c4]
      by_cases c5 : message = "TrackOrderStatus"
      · rw [if_pos c5, if_pos c5]
        exact ⟨h.sendTrackOrderOptions env, rfl⟩
      rw [if_neg c5, if_neg c5]
      by_cases c6 : message = "TrackCurrentOrder"
      · rw [if_pos c6, if_pos c6]
        exact ⟨h.trackOrderStatus env, rfl⟩
      rw [if_neg c6, if_neg c6]
      by_cases c7 : message = "TrackOrderByID"
      · rw [if_pos c7, if_pos c7]
        refine ⟨?_, rfl⟩
        simp only [Res.world]
        refine Sim.sendReply ?_ env _ _
        refine h.update _ _ ?_ rfl rfl rfl rfl
        rw [sameView_iff]
        simp only [Dict.get_set_self, Dict.get_del_self, e1, e2, e3, e4, e5, e6, e7, e8, e9,
          and_self]
      rw [if_neg c7, if_neg c7]
      by_cases c8 : startsWith message "Item_" = true
      · rw [if_pos c8, if_pos c8]
        exact h.handleItem env message
      rw [if_neg c8, if_neg c8]
      by_cases c9 : startsWith message "Remove_" = true
      · rw [if_pos c9, if_pos c9]
        exact ⟨h.handleRemove env message, rfl⟩
      rw [if_neg c9, if_neg c9]
      by_cases c10 : message = "OrderAgain"
      · rw [if_pos c10, if_pos c10]
        exact ⟨h.sendCatalog env _, rfl⟩
      rw [if_neg c10, if_neg c10]
      by_cases c11 : startsWith message "CancelOrder_" = true
      · rw [if_pos c11, if_pos c11]
        exact ⟨h.cancelOrder env _, rfl⟩
      rw [if_neg c11, if_neg c11]
      by_cases c12 : message = "PayCash"
      · rw [if_pos c12, if_pos c12]
        exact h.handlePayCash env
      rw [if_neg c12, if_neg c12]
      by_cases c13 : message = "PayOnline"
      · rw [if_pos c13, if_pos c13]
        exact ⟨h.handlePayOnline env, rfl⟩
      rw [if_neg c13, if_neg c13]
      by_cases c14 : message = "PaymentCompleted"
      · rw [if_pos c14, if_pos c14]
        exact ⟨h.handlePaymentCompleted env, rfl⟩
      rw [if_neg c14, if_neg c14]
      by_cases c15 : message = "CancelOrder"
      · rw [if_pos c15, if_pos c15]
        exact ⟨h.handleCancelOrder env, rfl⟩
      rw [if_neg c15, if_neg c15]
      by_cases c16 : message = "DisconnectHotel"
      · rw [if_pos c16, if_pos c16]
        exact ⟨h.handleDisconnectHotel env, rfl⟩
      rw [if_neg c16, if_neg c16]
      refine ⟨?_, rfl⟩
      simp only [Res.world]
      exact h.sendReply env _ _

theorem Sim.handleIncomingMessage {A : String} {o1 o2 d1 d2 : List Outbound} {w1 w2 : World}
    (h : Sim A o1 o2 d1 d2 w1 w2) (env : Env) (message : String) :
    Sim A o1 o2 d1 d2 (SupFoodie.handleIncomingMessage env w1 A message)
      (SupFoodie.handleIncomingMessage env w2 A message) := by
  obtain ⟨hs, he⟩ := h.handleBody env message
  unfold SupFoodie.handleIncomingMessage
  revert hs he
  cases SupFoodie.handleBody env w1 A message <;> cases SupFoodie.handleBody env w2 A message <;>
    intro hs he
  · exact hs
  · exact absurd he (by simp [Res.error])
  · exact absurd he (by simp [Res.error])
  · simp only [Res.world, Res.error, Option.some.injEq] at hs he
    subst he
    exact hs.sendReply env _ _

theorem Sim.webhook {A : String} {o1 o2 d1 d2 : List Outbound} {w1 w2 : World}
    (h : Sim A o1 o2 d1 d2 w1 w2) (env : Env) (message : String) :
    Sim A o1 o2 d1 d2 (SupFoodie.webhook env w1 A message)
      (SupFoodie.webhook env w2 A message) := by
  obtain ⟨e1, e2, e3, e4, e5, e6, e7, e8, e9⟩ := (sameView_iff A w1 w2).mp h.1
  unfold SupFoodie.webhook
  refine Sim.handleIncomingMessage ?_ env message
  unfold updateLastInteraction
  refine h.update _ _ ?_ rfl rfl rfl rfl
  rw [sameView_iff]
  simp only [Dict.get_set_self, Dict.get_del_self, e1, e2, e3, e4, e5, e6, e7, e8, e9, and_self]

theorem Sim.start (A : String) (w1 w2 : World) (h : SameView A w1 w2) :
    Sim A w1.outbox w2.outbox w1.dropped w2.dropped w1 w2 :=
  ⟨h, ⟨[], by simp, by simp⟩, ⟨[], by simp, by simp⟩⟩

/-- C15: for distinct senders A and B, handling an inbound message from A leaves everything the
process holds about B unchanged (binding, pending-input flags, loaded catalog, cart with its pending
payment, last-interaction timestamp); and started from any second state that holds the same session
for A and the same database, whatever it holds about B, the turn ends with the same session for A and
has sent the same messages (and failed the same posts). -/
theorem cross_sender_isolation (env : Env) (w : World) (A B message : String) (hAB : A ≠ B) :
    (webhook env w A message).view B = w.view B ∧
    ∀ w2 : World, SameView A w w2 →
      SameView A (webhook env w A message) (webhook env w2 A message) ∧
      (∃ out, (webhook env w A message).outbox = w.outbox ++ out ∧
        (webhook env w2 A message).outbox = w2.outbox ++ out) ∧
      (∃ out, (webhook env w A message).dropped = w.dropped ++ out ∧
        (webhook env w2 A message).dropped = w2.dropped ++ out) := by
  refine ⟨webhook_frame env w A B message (Ne.symm hAB), ?_⟩
  intro w2 hsame
  exact (Sim.start A w w2 hsame).webhook env message

set_option maxRecDepth 8000 in
theorem cross_sender_isolation_witness :
    "919900000001" ≠ "919900000002" ∧
    SameView "919900000001" cartWorld twoSenderWorld ∧
    (webhook (exampleEnv 10) twoSenderWorld "919900000001" "PlaceOrder").view "919900000002" =
      twoSenderWorld.view "919900000002" ∧
    SameView "919900000001" (webhook (exampleEnv 10) twoSenderWorld "919900000001" "PlaceOrder")
      (webhook (exampleEnv 10) cartWorld "919900000001" "PlaceOrder") ∧
    (webhook (exampleEnv 10) cartWorld "919900000001" "PlaceOrder").outbox.length = 1 :=
  have hs : SameView "919900000001" twoSenderWorld cartWorld := ⟨by decide, rfl, rfl⟩
  have h := cross_sender_isolation (exampleEnv 10) twoSenderWorld "919900000001" "919900000002"
    "PlaceOrder" (by decide)
  ⟨by decide, ⟨by decide, rfl, rfl⟩, h.1, (h.2 cartWorld hs).1, by decide⟩

/-- C21: for a bound sender inside the messaging window, `trackOrderStatus` and `trackOrderByID`
send for a found order the same reply, chosen from the order status alone: for Ready, Cancelled and
Completed the message with the Order Again / Main Menu buttons; for Accepted, Cooking and also for
Rejected the message with the Check Order Status buttons; for Pending the message extended by the
cancel hint with the Cancel Order button that carries the id of that order. -/
theorem tracking_reply_by_status (env : Env) (w : World) (sender : String) (conn : HotelConnection)
    (order : OrderDoc) (hb : w.hotelIds.get sender = some conn) (hr : env.readOk = true)
    (hw : isWithin24Hours env.now (getLastInteractionTimestamp w sender) = true) :
    (findLatestOrder w.orderDb conn.hotelId sender = some order →
      trackOrderStatus env w sender = sendTrackingReply env w sender order) ∧
    (∀ (orderId : String) (idx : Nat),
      findOrder w.orderDb conn.hotelId orderId sender = some (idx, order) →
      trackOrderByID env w sender orderId = sendTrackingReply env w sender order) ∧
    ((order.status = .Ready ∨ order.status = .Cancelled ∨ order.status = .Completed) →
      sendTrackingReply env w sender order =
        post env w (.buttons sender (trackingMessage order.status).1 orderAgainButtons)) ∧
    ((order.status = .Accepted ∨ order.status = .Cooking ∨ order.status = .Rejected) →
      sendTrackingReply env w sender order =
        post env w (.buttons sender (trackingMessage order.status).1 statusButtons)) ∧
    (order.status = .Pending →
      sendTrackingReply env w sender order =
        post env w (.buttons sender
          ((trackingMessage order.status).1 ++
            "\nIf you wish to cancel your order, click the button below.")
          (cancelButtons order.orderId))) ∧
    (trackingMessage .Accepted).1 = "Your order is confirmed." ∧
    (trackingMessage .Cooking).1 = "Your food is being prepared." ∧
    (trackingMessage .Ready).1 = "Your order is ready. Please collect your item." ∧
    (trackingMessage .Cancelled).1 = "Your order was cancelled." ∧
    (trackingMessage .Completed).1 = "Your order has been completed. Thank you!" ∧
    (trackingMessage .Pending).1 = "Wait while your order is being confirmed." := by
  refine ⟨?_, ?_, ?_, ?_, ?_, rfl, rfl, rfl, rfl, rfl, rfl⟩
  · intro hf
    simp only [trackOrderStatus, hb, hr, if_true, hf]
  · intro orderId idx hf
    simp only [trackOrderByID, hb, hr, if_true, hf]
  · intro hs
    rcases hs with hs | hs | hs <;>
      simp [sendTrackingReply, hs, trackingMessage, sendReplyWithButton, sendInWindow, hw,
        orderAgainButtons]
  · intro hs
    rcases hs with hs | hs | hs <;>
      simp [sendTrackingReply, hs, trackingMessage, sendReplyWithButton, sendInWindow, hw,
        statusButtons]
  · intro hs
    simp [sendTrackingReply, hs, trackingMessage, sendReplyWithCancelOption, sendInWindow, hw,
      cancelButtons]

set_option maxRecDepth 8000 in
theorem tracking_reply_by_status_witness :
    trackOrderStatus (exampleEnv 600) pendingWorld "919900000001" =
      post (exampleEnv 600) pendingWorld (.buttons "919900000001"
        ("Wait while your order is being confirmed." ++
          "\nIf you wish to cancel your order, click the button below.")
        (cancelButtons "48213377")) :=
  have h := tracking_reply_by_status (exampleEnv 600) pendingWorld "919900000001" ⟨"h1", 0⟩
    { cookingOrder with status := .Pending } (by decide) rfl (by decide)
  (h.1 (by decide)).trans (h.2.2.2.2.1 rfl)

/-- A rejected order is answered with the Check Order Status buttons, by both tracking paths. -/
theorem rejected_order_offers_check_status :
    (webhook (exampleEnv 600) rejectedWorld "919900000001" "TrackCurrentOrder").outbox =
      [.buttons "919900000001"
        "Sorry to say this, \nWe couldn't complete your order.\nSEND 'hi' to order again."
        [⟨"TrackOrderStatus", "Check Order Status"⟩, ⟨"MainMenu", "Main Menu"⟩,
         ⟨"DisconnectHotel", "Disconnect Hotel"⟩]] ∧
    (webhook (exampleEnv 601)
        (webhook (exampleEnv 600) rejectedWorld "919900000001" "TrackOrderByID")
        "919900000001" "48213377").outbox.getLast? =
      some (.buttons "919900000001"
        "Sorry to say this, \nWe couldn't complete your order.\nSEND 'hi' to order again."
        [⟨"TrackOrderStatus", "Check Order Status"⟩, ⟨"MainMenu", "Main Menu"⟩,
         ⟨"DisconnectHotel", "Disconnect Hotel"⟩]) := by
  constructor <;> decide

theorem splitUnderscore_head (l : List Char) :
    ∃ rest, splitUnderscore l = (l.takeWhile fun c => c != '_') :: rest := by
  induction l with
  | nil => exact ⟨[], rfl⟩
  | cons c cs ih =>
    obtain ⟨rest, hr⟩ := ih
    by_cases hc : c = '_'
    · exact ⟨splitUnderscore cs, by simp [splitUnderscore, hc]⟩
    · exact ⟨rest, by simp [splitUnderscore, hc, hr]⟩

theorem takeWhile_no_underscore (l : List Char) :
    (l.takeWhile fun c => c != '_') = l ↔ '_' ∉ l := by
  rw [List.takeWhile_eq_self_iff]
  constructor
  · intro h hm
    have := h _ hm
    simp at this
  · intro h x hx
    have hne : x ≠ '_' := fun e => h (e ▸ hx)
    simpa using hne

theorem splitField1_item_prefix (id : String) :
    splitField1 ("Item_" ++ id) = some (String.mk (id.data.takeWhile fun c => c != '_')) := by
  have h1 : ("Item_" ++ id).data = 'I' :: 't' :: 'e' :: 'm' :: '_' :: id.data := rfl
  obtain ⟨rest, hr⟩ := splitUnderscore_head id.data
  simp [splitField1, h1, splitUnderscore, hr]

theorem splitField1_remove_prefix (id : String) :
    splitField1 ("Remove_" ++ id) = some (String.mk (id.data.takeWhile fun c => c != '_')) := by
  have h1 : ("Remove_" ++ id).data = 'R' :: 'e' :: 'm' :: 'o' :: 'v' :: 'e' :: '_' :: id.data := rfl
  obtain ⟨rest, hr⟩ := splitUnderscore_head id.data
  simp [splitField1, h1, splitUnderscore, hr]

theorem mk_takeWhile_eq (id : String) :
    String.mk (id.data.takeWhile fun c => c != '_') = id ↔ '_' ∉ id.data := by
  rw [← takeWhile_no_underscore]
  constructor
  · intro h
    exact congrArg String.data h
  · intro h
    rw [h]

/-- C25: the parse `message.split('_')[1]` of the `Item_` and `Remove_` branches applied to the row
id built from an id returns the part of the id before its first underscore; it recovers the id
exactly when the id contains no underscore, and for an id with an underscore the catalog lookup of
the `Item_` branch never returns an item with that id and the filter of the `Remove_` branch keeps
every cart line with that id. -/
theorem row_id_parse_keeps_first_segment (id : String) :
    splitField1 ("Item_" ++ id) = some (String.mk (id.data.takeWhile fun c => c != '_')) ∧
    splitField1 ("Remove_" ++ id) = some (String.mk (id.data.takeWhile fun c => c != '_')) ∧
    (splitField1 ("Item_" ++ id) = some id ↔ '_' ∉ id.data) ∧
    (splitField1 ("Remove_" ++ id) = some id ↔ '_' ∉ id.data) ∧
    ('_' ∈ id.data → ∀ (items : List MenuItem) (X : MenuItem),
      items.find? (fun i => some i.id = splitField1 ("Item_" ++ id)) = some X → X.id ≠ id) ∧
    ('_' ∈ id.data → ∀ (items : List CartLine) (l : CartLine), l ∈ items → l.id = id →
      l ∈ items.filter fun item => some item.id ≠ splitField1 ("Remove_" ++ id)) := by
  have hi := splitField1_item_prefix id
  have hr := splitField1_remove_prefix id
  have hk := mk_takeWhile_eq id
  refine ⟨hi, hr, ?_, ?_, ?_, ?_⟩
  · rw [hi, Option.some.injEq]; exact hk
  · rw [hr, Option.some.injEq]; exact hk
  · intro hu items X hf
    have hp := List.find?_some hf
    simp only [decide_eq_true_eq] at hp
    intro hX
    rw [hX, hi, Option.some.injEq] at hp
    exact (hk.mp hp.symm) hu
  · intro hu items l hl hid
    rw [List.mem_filter]
    refine ⟨hl, ?_⟩
    simp only [decide_eq_true_eq]
    intro hp
    rw [hid, hr, Option.some.injEq] at hp
    exact (hk.mp hp.symm) hu

/-- The row `Item_a_b` that `sendMenu` emits for the item with id `a_b` selects the item with id
`a`, and the row `Remove_a_b` parses to the id `a`. -/
theorem item_row_with_underscore_selects_other_item :
    (webhook (exampleEnv 10) underscoreWorld "919900000001" "ViewMenu").outbox =
      [.list "919900000001" "Drinks" "Please choose an item from Drinks:"
        (some "Select an item to add to your order") "urri" "Menu Items"
        [⟨"Page 1", [⟨"Item_a", "Tea", "₹10"⟩, ⟨"Item_a_b", "Coffee", "₹20"⟩]⟩]] ∧
    (webhook (exampleEnv 10) underscoreWorld "919900000001" ("Item_" ++ coffee.id)).awaitingQuantity =
      [("919900000001", tea)] ∧
    splitField1 ("Remove_" ++ coffee.id) = some "a" := by
  refine ⟨by decide!, by decide!, by decide⟩

/-- C24 on the code: for a bound idle sender with a payment link and a non-empty cart, when the
gateway reports the link as paid and the save succeeds, `PaymentCompleted` appends exactly one
`Online`/`Paid` order whose `totalAmount` is the total `cartTotal` computes, the accumulated price
times quantity, over the lines the cart holds at that moment, whatever `totalAmount` was stored with
the payment link. -/
theorem paid_order_total_is_current_cart_total (env : Env) (w : World) (sender : String)
    (conn : HotelConnection) (cart : Cart) (id : String)
    (hb : w.hotelIds.get sender = some conn) (hact : env.now - conn.timestamp < 3600000)
    (hq : w.awaitingQuantity.get sender = none) (ho : w.awaitingOrderId.get sender ≠ some true)
    (hc : w.orders.get sender = some cart) (hne : cart.items ≠ [])
    (hid : cart.paymentLinkId = some id) (hid2 : id ≠ "")
    (hfetch : env.gatewayFetch id = some "paid")
    (hsave : env.saveError w.orderDb.length = none) :
    (webhook env w sender "PaymentCompleted").orderDb =
      w.orderDb ++ [⟨conn.hotelId,
        { sender := sender, items := cart.items.map CartLine.toOrderItem,
          orderId := env.orderId, totalAmount := cartTotal cart.items,
          paymentMethod := .Online, paymentStatus := .Paid, date := env.now,
          status := .Pending, lastNotifiedStatus := .Pending }⟩] := by
  have hlen : cart.items.length > 0 := List.length_pos.mpr hne
  rw [webhook_paymentCompleted env w sender conn hb hact hq ho]
  have ho2 : (updateLastInteraction w env.now sender).orders.get sender = some cart := hc
  have hg : (updateLastInteraction w env.now sender).gatewayCalls = w.gatewayCalls := rfl
  have hsave0 : saveOrderToDatabase env
      { updateLastInteraction w env.now sender with
          gatewayCalls := w.gatewayCalls ++ [.fetch id] } sender env.orderId .Online .Paid =
      .ok (resetOrder
            { updateLastInteraction w env.now sender with
              gatewayCalls := w.gatewayCalls ++ [.fetch id]
              orderDb := w.orderDb ++ [⟨conn.hotelId,
                { sender := sender, items := cart.items.map CartLine.toOrderItem,
                  orderId := env.orderId, totalAmount := cartTotal cart.items,
                  paymentMethod := .Online, paymentStatus := .Paid, date := env.now,
                  status := .Pending, lastNotifiedStatus := .Pending }⟩] } sender) := by
    simp [saveOrderToDatabase, updateLastInteraction, hb, hc, hlen, hsave,
      resetOrder]
  simp only [handlePaymentCompleted, ho2, hid, truthy, ne_eq, hid2, not_false_eq_true,
    decide_True, if_true, Option.getD_some, hfetch, hg, hsave0]
  split <;> simp only [sendReply_fields, sendReceipt_fields, resetOrder]

set_option maxRecDepth 20000 in
theorem paid_order_total_is_current_cart_total_witness :
    (webhook (exampleEnv 40) linkThenAddWorld "919900000001" "PaymentCompleted").orderDb =
      [] ++ [⟨"h1",
        { sender := "919900000001",
          items := [(cola.toLine 1).toOrderItem, (burger.toLine 5).toOrderItem],
          orderId := "48213377", totalAmount := cartTotal [cola.toLine 1, burger.toLine 5],
          paymentMethod := .Online, paymentStatus := .Paid, date := 40,
          status := .Pending, lastNotifiedStatus := .Pending }⟩] :=
  (paid_order_total_is_current_cart_total (exampleEnv 40) linkThenAddWorld "919900000001"
    ⟨"h1", 0⟩ ⟨[cola.toLine 1, burger.toLine 5], some "plink_1", some "https://rzp.io/i/abc", some 50⟩
    "plink_1" (by decide!) (by decide) (by decide!) (by decide!) (by decide!) (by decide) rfl
    (by decide) rfl rfl).trans (by decide!)

set_option maxRecDepth 20000 in
/-- A payment link requested for a cart of 50, five burgers added afterwards: the gateway was asked
for 5000 paise and 50 is stored with the link, yet the order persisted as paid has total 550. -/
theorem paid_order_total_differs_from_link_total :
    (webhook (exampleEnv 10) exampleWorld "919900000001" "PayOnline").gatewayCalls =
      [.create 5000 "919900000001" "48213377"] ∧
    (linkThenAddWorld.orders.get "919900000001").map (fun c => c.totalAmount) = some (some 50) ∧
    (webhook (exampleEnv 40) linkThenAddWorld "919900000001" "PaymentCompleted").orderDb.map
        (fun s => (s.doc.totalAmount, s.doc.paymentStatus)) = [(550, .Paid)] := by
  refine ⟨by decide!, by decide!, by decide!⟩

theorem orderSummaryText_divisor (items : List CartLine) :
    orderSummaryText items =
      (items.foldl summaryStep ⟨"Order Summary:\n", 0, 0, 0⟩).orderSummary ++
        ("Total Amount: ₹" ++
          numToString (items.foldl summaryStep ⟨"Order Summary:\n", 0, 0, 0⟩).totalAmount ++ "\n") ++
        ("Estimated Waiting Time: " ++
          numToString (JsNum.ceil
            ((items.foldl summaryStep ⟨"Order Summary:\n", 0, 0, 0⟩).totalEstimatedTime /
              summaryDivisor items)) ++ " minutes\n") := rfl

theorem receiptText_divisor (order : OrderDoc) :
    ∃ head : String, receiptText order =
      head ++ ("*Your Order Will Be Ready in* : " ++
        numToString (JsNum.ceil
          (order.items.foldl (fun t item => t + item.estimatedTime * item.quantity) 0 /
            receiptDivisor order)) ++ " minutes\n") ++ "\nThank you for your order!" :=
  ⟨_, rfl⟩

theorem bumpFirst_ids (id : String) (q : JsNum) (items : List CartLine) :
    (bumpFirst id q items).map (fun l => l.id) = items.map fun l => l.id := by
  induction items with
  | nil => rfl
  | cons l ls ih =>
    unfold bumpFirst
    split
    · rfl
    · simp only [List.map_cons, ih]

theorem bumpFirst_pos (id : String) (q : JsNum) (hq : QtyOk q) (items : List CartLine)
    (h : ∀ l ∈ items, QtyOk l.quantity) : ∀ l ∈ bumpFirst id q items, QtyOk l.quantity := by
  induction items with
  | nil => intro l hl; simp [bumpFirst] at hl
  | cons x xs ih =>
    have hx : QtyOk x.quantity := h x (List.mem_cons_self _ _)
    have hxs : ∀ l ∈ xs, QtyOk l.quantity := fun l hl => h l (List.mem_cons_of_mem _ hl)
    intro l hl
    unfold bumpFirst at hl
    split at hl
    · rcases List.mem_cons.mp hl with e | e
      · rw [e]
        show QtyOk (x.quantity + q)
        exact hx.add hq
      · exact hxs l e
    · rcases List.mem_cons.mp hl with e | e
      · rw [e]; exact hx
      · exact ih hxs l e

theorem parseQuantity_qtyOk (message : String) (h1 : (parseQuantity message).isNaN = false)
    (h2 : 0 < parseQuantity message) : QtyOk (parseQuantity message) := by
  unfold parseQuantity at h1 h2 ⊢
  cases hs : splitField1 message with
  | none =>
    rw [hs] at h1
    exact absurd h1 (by decide)
  | some t =>
    rw [hs] at h1 h2
    exact parseInt_qtyOk t.data h1 h2

theorem foldl_qtyOk {α : Type} (g : α → JsNum) :
    ∀ (items : List α) (a : JsNum), QtyOk a → (∀ l ∈ items, QtyOk (g l)) →
      QtyOk (items.foldl (fun t l => t + g l) a) := by
  intro items
  induction items with
  | nil => intro a ha _; exact ha
  | cons x xs ih =>
    intro a ha h
    rw [List.foldl_cons]
    exact ih _ (ha.add (h x (List.mem_cons_self _ _)))
      (fun l hl => h l (List.mem_cons_of_mem _ hl))

theorem foldl_qtyOk_zero {α : Type} (g : α → JsNum) (items : List α) (hne : items ≠ [])
    (h : ∀ l ∈ items, QtyOk (g l)) : QtyOk (items.foldl (fun t l => t + g l) 0) := by
  cases items with
  | nil => exact absurd rfl hne
  | cons x xs =>
    rw [List.foldl_cons]
    exact foldl_qtyOk g xs _ (QtyOk.from_zero (h x (List.mem_cons_self _ _)))
      (fun l hl => h l (List.mem_cons_of_mem _ hl))

theorem CartOk.nil : CartOk [] := ⟨List.nodup_nil, fun _ h => absurd h (List.not_mem_nil _)⟩

theorem CartOk.addToCart {items : List CartLine} (h : CartOk items) (item : MenuItem) (q : JsNum)
    (hq : QtyOk q) : CartOk (SupFoodie.addToCart items item q) := by
  unfold SupFoodie.addToCart
  cases hf : items.find? fun i => i.id = item.id with
  | some x =>
    refine ⟨?_, bumpFirst_pos _ _ hq _ h.2⟩
    rw [bumpFirst_ids]
    exact h.1
  | none =>
    rw [List.find?_eq_none] at hf
    refine ⟨?_, ?_⟩
    · rw [List.map_append, List.map_cons, List.map_nil]
      refine List.Nodup.append h.1 (List.nodup_singleton _) ?_
      intro a ha hb
      rw [List.mem_singleton] at hb
      rw [List.mem_map] at ha
      obtain ⟨l, hl, rfl⟩ := ha
      exact hf l hl (by simpa using hb)
    · intro l hl
      rcases List.mem_append.mp hl with e | e
      · exact h.2 l e
      · rw [List.mem_singleton] at e
        rw [e]
        exact hq

theorem CartOk.filter {items : List CartLine} (h : CartOk items) (p : CartLine → Bool) :
    CartOk (items.filter p) := by
  refine ⟨?_, fun l hl => h.2 l (List.mem_filter.mp hl).1⟩
  exact List.Nodup.sublist (List.Sublist.map _ (List.filter_sublist _)) h.1

theorem DbOk.append {n : Nat} {db : List StoredOrder} (h : DbOk n db) (x : StoredOrder)
    (hx : DocOk x.doc) : DbOk n (db ++ [x]) := by
  intro i d hn hd
  by_cases hi : i < db.length
  · rw [List.getElem?_append_left hi] at hd
    exact h i d hn hd
  · rw [List.getElem?_append_right (Nat.le_of_not_lt hi)] at hd
    have hm : d ∈ [x] := List.mem_iff_getElem?.mpr ⟨_, hd⟩
    rw [List.mem_singleton] at hm
    rw [hm]
    exact hx

theorem DbOk.updateOrder {n : Nat} {db : List StoredOrder} (h : DbOk n db) (idx : Nat)
    (f : OrderDoc → OrderDoc) (hf : ∀ d, (f d).items = d.items) :
    DbOk n (SupFoodie.updateOrder db idx f) := by
  unfold SupFoodie.updateOrder
  cases hg : db.get? idx with
  | none => exact h
  | some s =>
    intro i d hn hd
    simp only at hd
    rw [List.getElem?_set] at hd
    rw [List.get?_eq_getElem?] at hg
    split at hd
    · rename_i hidx
      subst hidx
      split at hd
      · simp only [Option.some.injEq] at hd
        subst hd
        have := h idx s hn hg
        exact ⟨by rw [hf]; exact this.1, by rw [hf]; exact this.2⟩
      · exact absurd hd (by simp)
    · exact h i d hn hd

theorem DocOk.ofCart (cart : Cart) (h : CartOk cart.items) (hlen : cart.items.length > 0)
    (doc : OrderDoc) (hd : doc.items = cart.items.map CartLine.toOrderItem) : DocOk doc := by
  refine ⟨?_, ?_⟩
  · rw [hd]
    intro e
    rw [List.map_eq_nil_iff] at e
    rw [e] at hlen
    exact absurd hlen (by simp)
  · intro it hit
    rw [hd, List.mem_map] at hit
    obtain ⟨l, hl, rfl⟩ := hit
    exact h.2 l hl

theorem Inv.congr {n : Nat} {s : String} {w v : World} (h : Inv n s w)
    (hO : v.orders.get s = w.orders.get s)
    (hQ : v.awaitingQuantity.get s = w.awaitingQuantity.get s)
    (hI : v.awaitingOrderId.get s = w.awaitingOrderId.get s)
    (hD : v.orderDb = w.orderDb) : Inv n s v := by
  unfold Inv at h ⊢
  rw [hO, hQ, hI, hD]
  exact h

theorem Inv.of_session {n : Nat} {s : String} {w v : World} (h : Inv n s w)
    (hs : v.session = w.session) : Inv n s v := by
  obtain ⟨f1, _, _, f4, f5, _, f7, _, _, _, _⟩ := fields_of_session hs
  exact h.congr (by rw [f7]) (by rw [f4]) (by rw [f5]) f1

theorem Inv.keeps_handleUnbound {n : Nat} {A : String} {w : World} (h : Inv n A w) (env : Env)
    (message : String) : Inv n A (SupFoodie.handleUnbound env w A message) := by
  unfold SupFoodie.handleUnbound loadMenuItems
  simp only [Dict.get_set_self]
  split_ifs <;> (try dsimp only) <;>
    first
      | (refine Inv.of_session ?_ (sendReply_session _ _ _ _ _); exact h.congr rfl rfl rfl rfl)
      | (refine Inv.of_session ?_ (sendCatalog_session _ _ _ _); exact h.congr rfl rfl rfl rfl)

theorem Inv.keeps_handleQuantity {n : Nat} {A : String} {w : World} (h : Inv n A w) (env : Env)
    (message : String) (X : MenuItem) (hq : w.awaitingQuantity.get A = some X) :
    Inv n A (SupFoodie.handleQuantity env w A message X) := by
  have hI : w.awaitingOrderId.get A = none := h.2.1 (by rw [hq]; rfl)
  have hre : Inv n A
      (SupFoodie.sendQuantityOptions env
        { w with awaitingQuantity := (w.awaitingQuantity.del A).set A X } A X) := by
    refine Inv.of_session ?_ (sendQuantityOptions_session _ _ _ _)
    exact ⟨h.1, fun _ => hI, h.2.2.1, h.2.2.2⟩
  unfold SupFoodie.handleQuantity
  dsimp only
  by_cases hst : startsWith message "Qty_" = true
  · rw [if_pos hst]
    by_cases hg : (parseQuantity message).isNaN = false ∧ parseQuantity message > 0
    · have hok : QtyOk (parseQuantity message) := parseQuantity_qtyOk message hg.1 hg.2
      unfold parseQuantity at hg hok
      rw [if_pos hg]
      refine Inv.of_session ?_ (sendOrderOptions_session _ _ _ _)
      refine ⟨?_, ?_, h.2.2.1, h.2.2.2⟩
      · intro cart hc
        simp only [Dict.get_set_self, Option.some.injEq] at hc
        subst hc
        dsimp only
        refine CartOk.addToCart ?_ X _ hok
        cases ho : w.orders.get A with
        | none => exact CartOk.nil
        | some c => exact h.1 c ho
      · intro hs
        simp only [Dict.get_del_self] at hs
        exact absurd hs (by simp)
    · unfold parseQuantity at hg
      rw [if_neg hg]
      exact hre
  · rw [if_neg hst]
    exact hre

theorem Inv.keeps_handleItem {n : Nat} {A : String} {w : World} (h : Inv n A w) (env : Env)
    (message : String) (ho : w.awaitingOrderId.get A ≠ some true) :
    Inv n A (SupFoodie.handleItem env w A message).world := by
  have hI : w.awaitingOrderId.get A = none := by
    cases hb : w.awaitingOrderId.get A with
    | none => rfl
    | some b =>
      have := h.2.2.1 b hb
      subst this
      exact absurd hb ho
  unfold SupFoodie.handleItem
  dsimp only
  split
  · exact h
  · split
    · simp only [Res.world]
      refine Inv.of_session ?_ (sendQuantityOptions_session _ _ _ _)
      exact ⟨h.1, fun _ => hI, h.2.2.1, h.2.2.2⟩
    · exact h

theorem Inv.keeps_handleRemove {n : Nat} {A : String} {w : World} (h : Inv n A w) (env : Env)
    (message : String) : Inv n A (SupFoodie.handleRemove env w A message) := by
  unfold SupFoodie.handleRemove
  dsimp only
  split
  · rename_i cart hc
    refine Inv.of_session ?_ (sendOrderOptions_session _ _ _ _)
    refine ⟨?_, h.2.1, h.2.2.1, h.2.2.2⟩
    intro c hc2
    simp only [Dict.get_set_self, Option.some.injEq] at hc2
    subst hc2
    exact (h.1 cart hc).filter _
  · exact h

theorem Inv.keeps_cancelOrder {n : Nat} {A : String} {w : World} (h : Inv n A w) (env : Env)
    (orderId : String) : Inv n A (SupFoodie.cancelOrder env w A orderId) := by
  unfold SupFoodie.cancelOrder
  split
  · exact h.of_session (sendReply_session _ _ _ _ _)
  · split
    · split
      · split
        · refine Inv.of_session ?_ (sendReply_session _ _ _ _ _)
          split
          · exact ⟨h.1, h.2.1, h.2.2.1,
              DbOk.updateOrder h.2.2.2 _ (fun d => { d with status := .Cancelled }) (fun _ => rfl)⟩
          · exact h
        · exact h.of_session (sendReply_session _ _ _ _ _)
      · exact h.of_session (sendReply_session _ _ _ _ _)
    · exact h.of_session (sendReply_session _ _ _ _ _)

theorem Inv.keeps_saveOrderToDatabase {n : Nat} {A : String} {w : World} (h : Inv n A w) (env : Env)
    (orderId : String) (pm : PaymentMethod) (ps : PaymentStatus) :
    Inv n A (SupFoodie.saveOrderToDatabase env w A orderId pm ps).world := by
  unfold SupFoodie.saveOrderToDatabase
  split
  · exact h
  · split
    · rename_i cart hc
      split
      · rename_i hlen
        dsimp only
        split
        · exact h
        · simp only [Res.world, resetOrder]
          refine ⟨?_, h.2.1, h.2.2.1, ?_⟩
          · intro c hc2
            simp only [Dict.get_del_self] at hc2
            exact absurd hc2 (by simp)
          · exact h.2.2.2.append _ (DocOk.ofCart cart (h.1 cart hc) hlen _ rfl)
      · exact h
    · exact h

theorem Inv.keeps_handlePayCash {n : Nat} {A : String} {w : World} (h : Inv n A w) (env : Env) :
    Inv n A (SupFoodie.handlePayCash env w A).world := by
  have hs := h.keeps_saveOrderToDatabase env env.orderId .Cash .Pending
  unfold SupFoodie.handlePayCash
  dsimp only
  split
  · rename_i w1 e he
    rw [he] at hs
    exact hs
  · rename_i w1 he
    rw [he] at hs
    simp only [Res.world] at hs ⊢
    exact (hs.of_session (sendReceipt_session _ _ _ _)).of_session (sendReply_session _ _ _ _ _)

theorem Inv.keeps_handlePayOnline {n : Nat} {A : String} {w : World} (h : Inv n A w) (env : Env) :
    Inv n A (SupFoodie.handlePayOnline env w A) := by
  unfold SupFoodie.handlePayOnline
  cases hc : w.orders.get A with
  | none => exact h.of_session (sendReply_session _ _ _ _ _)
  | some cart =>
    dsimp only
    split
    · split
      · refine Inv.of_session ?_ (sendPaymentLinkWithButtons_session _ _ _ _ _)
        refine ⟨?_, h.2.1, h.2.2.1, h.2.2.2⟩
        intro c hc2
        simp only [Dict.get_set_self, Option.some.injEq, hc, Option.getD_some] at hc2
        subst hc2
        exact h.1 cart hc
      · refine Inv.of_session ?_ (sendReply_session _ _ _ _ _)
        exact h.congr rfl rfl rfl rfl
    · exact h.of_session (sendReply_session _ _ _ _ _)

theorem Inv.keeps_handlePaymentCompleted {n : Nat} {A : String} {w : World} (h : Inv n A w)
    (env : Env) : Inv n A (SupFoodie.handlePaymentCompleted env w A) := by
  unfold SupFoodie.handlePaymentCompleted
  cases hc : w.orders.get A with
  | none => exact h.of_session (sendReply_session _ _ _ _ _)
  | some cart =>
    dsimp only
    split
    · have hv : Inv n A
          { w with gatewayCalls := w.gatewayCalls ++ [.fetch (cart.paymentLinkId.getD "")] } :=
        h.congr rfl rfl rfl rfl
      split
      · exact hv.of_session (sendReply_session _ _ _ _ _)
      · split
        · have hs := hv.keeps_saveOrderToDatabase env env.orderId .Online .Paid
          split
          · rename_i w2 e he
            rw [he] at hs
            exact Inv.of_session hs (sendReply_session _ _ _ _ _)
          · rename_i w2 he
            rw [he] at hs
            simp only [Res.world] at hs
            have hr : Inv n A (sendReceipt env w2 A env.orderId) :=
              hs.of_session (sendReceipt_session _ _ _ _)
            split
            · exact hr.of_session (sendReply_session _ _ _ _ _)
            · rename_i cart3 hc3
              refine Inv.of_session ?_ (sendReply_session _ _ _ _ _)
              refine ⟨?_, hr.2.1, hr.2.2.1, hr.2.2.2⟩
              intro c hc2
              simp only [Dict.get_set_self, Option.some.injEq] at hc2
              subst hc2
              exact hr.1 cart3 hc3
        · exact (hv.of_session (sendReply_session _ _ _ _ _)).of_session
            (sendPaymentLinkWithButtons_session _ _ _ _ _)
    · exact h.of_session (sendReply_session _ _ _ _ _)

theorem Inv.keeps_handleCancelOrder {n : Nat} {A : String} {w : World} (h : Inv n A w) (env : Env) :
    Inv n A (SupFoodie.handleCancelOrder env w A) := by
  rw [handleCancelOrder_eq]
  refine Inv.of_session ?_ (sendReply_session _ _ _ _ _)
  refine ⟨?_, h.2.1, h.2.2.1, h.2.2.2⟩
  intro c hc
  simp only [resetOrder, Dict.get_del_self] at hc
  exact absurd hc (by simp)

theorem Inv.keeps_handleDisconnectHotel {n : Nat} {A : String} {w : World} (h : Inv n A w)
    (env : Env) : Inv n A (SupFoodie.handleDisconnectHotel env w A) := by
  unfold SupFoodie.handleDisconnectHotel armHotelIdTimeout
  dsimp only
  have h1 : Inv n A (sendReply env { w with hotelIds := w.hotelIds.del A } A
      "You have been disconnected from the hotel. Please enter a new Hotel ID to proceed:" false) := by
    refine Inv.of_session ?_ (sendReply_session _ _ _ _ _)
    exact h.congr rfl rfl rfl rfl
  exact h1.congr rfl rfl rfl rfl

theorem Inv.keeps_handleBody {n : Nat} {A : String} {w : World} (h : Inv n A w) (env : Env)
    (message : String) : Inv n A (SupFoodie.handleBody env w A message).world := by
  unfold SupFoodie.handleBody
  by_cases hcond : (w.hotelIds.get A).isNone ∨ isHotelConnectionActive w env.now A = false
  · rw [if_pos hcond]
    exact h.keeps_handleUnbound env message
  · rw [if_neg hcond]
    cases hq : w.awaitingQuantity.get A with
    | some X => exact h.keeps_handleQuantity env message X hq
    | none =>
      dsimp only
      by_cases c0 : w.awaitingOrderId.get A = some true
      · rw [if_pos c0]
        simp only [Res.world]
        refine Inv.of_session ?_ (trackOrderByID_session _ _ _ _)
        refine ⟨h.1, ?_, ?_, h.2.2.2⟩
        · intro _
          exact Dict.get_del_self _ _
        · intro b hb
          rw [show Dict.get (w.awaitingOrderId.del A) A = none from Dict.get_del_self _ _] at hb
          exact absurd hb (by simp)
      rw [if_neg c0]
      by_cases c1 : message = "ViewMenu"
      · rw [if_pos c1]
        exact h.of_session (sendMenu_session _ _ _)
      rw [if_neg c1]
      by_cases c2 : message = "PlaceOrder"
      · rw [if_pos c2]
        exact h.of_session (sendOrderSummary_session _ _ _)
      rw [if_neg c2]
      by_cases c3 : message = "EditOrder"
      · rw [if_pos c3]
        exact h.of_session (sendEditOrderOptions_session _ _ _)
      rw [if_neg c3]
      by_cases c4 : message = "MainMenu"
      · rw [if_pos c4]
        exact h.of_session (sendCatalog_session _ _ _ _)
      rw [if_neg c4]
      by_cases c5 : message = "TrackOrderStatus"
      · rw [if_pos c5]
        exact h.of_session (sendTrackOrderOptions_session _ _ _)
      rw [if_neg c5]
      by_cases c6 : message = "TrackCurrentOrder"
      · rw [if_pos c6]
        exact h.of_session (trackOrderStatus_session _ _ _)
      rw [if_neg c6]
      by_cases c7 : message = "TrackOrderByID"
      · rw [if_pos c7]
        simp only [Res.world]
        refine Inv.of_session ?_ (sendReply_session _ _ _ _ _)
        refine ⟨h.1, ?_, ?_, h.2.2.2⟩
        · intro hs
          rw [show w.awaitingQuantity.get A = none from hq] at hs
          exact absurd hs (by simp)
        · intro b hb
          rw [show Dict.get (w.awaitingOrderId.set A true) A = some true from
            Dict.get_set_self _ _ _] at hb
          exact (Option.some.inj hb).symm
      rw [if_neg c7]
      by_cases c8 : startsWith message "Item_" = true
      · rw [if_pos c8]
        exact h.keeps_handleItem env message c0
      rw [if_neg c8]
      by_cases c9 : startsWith message "Remove_" = true
      · rw [if_pos c9]
        exact h.keeps_handleRemove env message
      rw [if_neg c9]
      by_cases c10 : message = "OrderAgain"
      · rw [if_pos c10]
        exact h.of_session (sendCatalog_session _ _ _ _)
      rw [if_neg c10]
      by_cases c11 : startsWith message "CancelOrder_" = true
      · rw [if_pos c11]
        exact h.keeps_cancelOrder env _
      rw [if_neg c11]
      by_cases c12 : message = "PayCash"
      · rw [if_pos c12]
        exact h.keeps_handlePayCash env
      rw [if_neg c12]
      by_cases c13 : message = "PayOnline"
      · rw [if_pos c13]
        exact h.keeps_handlePayOnline env
      rw [if_neg c13]
      by_cases c14 : message = "PaymentCompleted"
      · rw [if_pos c14]
        exact h.keeps_handlePaymentCompleted env
      rw [if_neg c14]
      by_cases c15 : message = "CancelOrder"
      · rw [if_pos c15]
        exact h.keeps_handleCancelOrder env
      rw [if_neg c15]
      by_cases c16 : message = "DisconnectHotel"
      · rw [if_pos c16]
        exact h.keeps_handleDisconnectHotel env
      rw [if_neg c16]
      simp only [Res.world]
      exact h.of_session (sendReply_session _ _ _ _ _)

theorem Inv.keeps_handleIncomingMessage {n : Nat} {A : String} {w : World} (h : Inv n A w) (env : Env)
    (message : String) : Inv n A (SupFoodie.handleIncomingMessage env w A message) := by
  have hb := h.keeps_handleBody env message
  unfold SupFoodie.handleIncomingMessage
  split
  · rename_i w1 he
    rw [he] at hb
    exact hb
  · rename_i w1 e he
    rw [he] at hb
    exact Inv.of_session hb (sendReply_session _ _ _ _ _)

theorem Inv.keeps_webhook {n : Nat} {A : String} {w : World} (h : Inv n A w) (env : Env)
    (message : String) : Inv n A (SupFoodie.webhook env w A message) := by
  unfold SupFoodie.webhook
  refine Inv.keeps_handleIncomingMessage ?_ env message
  exact h.congr rfl rfl rfl rfl

theorem Inv.of_view {n : Nat} {s : String} {w v : World} (h : Inv n s w)
    (hv : v.view s = w.view s) (hd : DbOk n v.orderDb) : Inv n s v := by
  simp only [World.view, SenderView.mk.injEq] at hv
  obtain ⟨_, _, h3, h4, h5, _, _⟩ := hv
  unfold Inv at h ⊢
  rw [h3, h4, h5]
  exact ⟨h.1, h.2.1, h.2.2.1, hd⟩

theorem webhook_inv (n : Nat) (env : Env) (w : World) (A message : String)
    (h : ∀ s, Inv n s w) : ∀ s, Inv n s (webhook env w A message) := by
  intro s
  by_cases hs : s = A
  · subst hs
    exact (h s).keeps_webhook env message
  · exact (h s).of_view (webhook_frame env w A s message hs) ((h A).keeps_webhook env message).2.2.2

theorem notifyOrders_inv (n : Nat) (env : Env) (sender : String) :
    ∀ (l : List (Nat × OrderDoc)) (w : World), (∀ s, Inv n s w) →
      ∀ s, Inv n s (notifyOrders env sender l w) := by
  intro l
  induction l with
  | nil => intro w h; exact h
  | cons p rest ih =>
    intro w h
    obtain ⟨idx, order⟩ := p
    unfold notifyOrders
    dsimp only
    split
    · apply ih
      intro s
      have h1 : Inv n s (sendStatusUpdate env w sender order.status) :=
        (h s).of_session (sendStatusUpdate_session _ _ _ _)
      split
      · exact ⟨h1.1, h1.2.1, h1.2.2.1,
          DbOk.updateOrder h1.2.2.2 _ (fun d => { d with lastNotifiedStatus := order.status })
            (fun _ => rfl)⟩
      · exact h1
    · exact ih w h

theorem notifySenders_inv (n : Nat) (env : Env) :
    ∀ (l : List (String × HotelConnection)) (w : World), (∀ s, Inv n s w) →
      ∀ s, Inv n s (notifySenders env l w) := by
  intro l
  induction l with
  | nil => intro w h; exact h
  | cons p rest ih =>
    intro w h
    obtain ⟨sender, conn⟩ := p
    unfold notifySenders
    split
    · exact ih _ (notifyOrders_inv n env sender _ w h)
    · exact h

theorem hotelIdTimeout_inv (n : Nat) (env : Env) (w : World) (sender : String)
    (h : ∀ s, Inv n s w) : ∀ s, Inv n s (hotelIdTimeout env w sender) := by
  intro s
  unfold hotelIdTimeout
  split
  · refine Inv.of_session ?_ (sendReply_session _ _ _ _ _)
    exact (h s).congr rfl rfl rfl rfl
  · exact h s

theorem step_inv (n : Nat) (w : World) (e : Event) (h : ∀ s, Inv n s w) :
    ∀ s, Inv n s (step w e) := by
  cases e with
  | message env sender message => exact webhook_inv n env w sender message h
  | tick env => exact notifySenders_inv n env _ w h
  | timeout env sender => exact hotelIdTimeout_inv n env w sender h

theorem run_inv (n : Nat) (events : List Event) :
    ∀ w : World, (∀ s, Inv n s w) → ∀ s, Inv n s (run w events) := by
  induction events with
  | nil => intro w h; exact h
  | cons e es ih =>
    intro w h
    exact ih (step w e) (step_inv n w e h)

theorem init_inv (menuDb : Dict (List MenuDoc)) (orderDb : List StoredOrder) (s : String) :
    Inv orderDb.length s (World.init menuDb orderDb) := by
  refine ⟨?_, ?_, ?_, ?_⟩
  · intro cart hc
    exact absurd hc (by simp [World.init, Dict.get])
  · intro hq
    exact absurd hq (by simp [World.init, Dict.get])
  · intro b hb
    exact absurd hb (by simp [World.init, Dict.get])
  · intro i d hn hd
    have hlt : i < orderDb.length := by
      by_contra hc
      have : (World.init menuDb orderDb).orderDb[i]? = none :=
        List.getElem?_eq_none (Nat.le_of_not_lt hc)
      rw [this] at hd
      exact absurd hd (by simp)
    omega

theorem reachable_inv (menuDb : Dict (List MenuDoc)) (orderDb : List StoredOrder)
    (events : List Event) (s : String) :
    Inv orderDb.length s (run (World.init menuDb orderDb) events) :=
  run_inv orderDb.length events _ (fun s => init_inv menuDb orderDb s) s

theorem summaryDivisor_eq (items : List CartLine) :
    summaryDivisor items = items.foldl (fun t l => t + l.quantity) 0 := by
  simp only [summaryDivisor, summary_foldl]

theorem summaryDivisor_qtyOk (items : List CartLine) (hne : items ≠ [])
    (h : ∀ l ∈ items, QtyOk l.quantity) : QtyOk (summaryDivisor items) := by
  rw [summaryDivisor_eq]
  exact foldl_qtyOk_zero (fun l : CartLine => l.quantity) items hne h

theorem receiptDivisor_pos (order : OrderDoc) (h : DocOk order) : 0 < receiptDivisor order :=
  (foldl_qtyOk_zero (fun it : OrderItem => it.quantity) order.items h.1 h.2).pos

/-- C22: in every state reached from process start (empty session objects, any database) through
inbound messages, notifier ticks and hotel-id timeouts, the divisor of the average estimated time is
strictly positive wherever it is computed: in `sendOrderSummary`, which computes it for a cart with at
least one line, and in `sendReceipt` for every order saved since process start. -/
theorem average_time_divisor_positive (menuDb : Dict (List MenuDoc)) (orderDb : List StoredOrder)
    (events : List Event) :
    (∀ (s : String) (cart : Cart),
      (run (World.init menuDb orderDb) events).orders.get s = some cart →
      cart.items.length > 0 → 0 < summaryDivisor cart.items) ∧
    (∀ (i : Nat) (d : StoredOrder), orderDb.length ≤ i →
      (run (World.init menuDb orderDb) events).orderDb[i]? = some d → 0 < receiptDivisor d.doc) := by
  constructor
  · intro s cart hc hlen
    have h := (reachable_inv menuDb orderDb events s).1 cart hc
    exact (summaryDivisor_qtyOk cart.items (List.length_pos.mp hlen) h.2).pos
  · intro i d hn hd
    exact receiptDivisor_pos d.doc ((reachable_inv menuDb orderDb events "").2.2.2 i d hn hd)

set_option maxRecDepth 20000 in
theorem average_time_divisor_positive_witness :
    (run (World.init exampleMenuDb []) shoppingEvents).orders.get "919900000001" =
      some ⟨[burger.toLine 5, cola.toLine 1], none, none, none⟩ ∧
    0 < summaryDivisor [burger.toLine 5, cola.toLine 1] :=
  have hc : (run (World.init exampleMenuDb []) shoppingEvents).orders.get "919900000001" =
      some ⟨[burger.toLine 5, cola.toLine 1], none, none, none⟩ := by decide!
  ⟨hc, (average_time_divisor_positive exampleMenuDb [] shoppingEvents).1 "919900000001"
    ⟨[burger.toLine 5, cola.toLine 1], none, none, none⟩ hc (by decide)⟩

/-- C23 (amended): in every state reached from process start through inbound messages, notifier ticks
and hotel-id timeouts, the cart of every sender has pairwise distinct item ids and every line has a
quantity that is positive and is either `Infinity` or a positive integer. -/
theorem cart_lines_distinct_and_positive (menuDb : Dict (List MenuDoc))
    (orderDb : List StoredOrder) (events : List Event) (s : String) :
    ((cartItems (run (World.init menuDb orderDb) events) s).map fun l => l.id).Nodup ∧
    ∀ l ∈ cartItems (run (World.init menuDb orderDb) events) s,
      0 < l.quantity ∧ (l.quantity = .inf false ∨ ∃ n : ℤ, 1 ≤ n ∧ l.quantity = .fin n) := by
  have h := (reachable_inv menuDb orderDb events s).1
  unfold cartItems
  cases hc : (run (World.init menuDb orderDb) events).orders.get s with
  | none => exact ⟨List.nodup_nil, fun _ hl => absurd hl (List.not_mem_nil _)⟩
  | some cart => exact ⟨(h cart hc).1, fun l hl => ⟨((h cart hc).2 l hl).pos, (h cart hc).2 l hl⟩⟩

set_option maxRecDepth 20000 in
theorem cart_lines_distinct_and_positive_witness :
    cartItems (run (World.init exampleMenuDb []) shoppingEvents) "919900000001" =
      [burger.toLine 5, cola.toLine 1] ∧
    ((cartItems (run (World.init exampleMenuDb []) shoppingEvents) "919900000001").map
      fun l => l.id).Nodup :=
  ⟨by decide!,
    (cart_lines_distinct_and_positive exampleMenuDb [] shoppingEvents "919900000001").1⟩

/-- C26: in every state reached from process start through inbound messages (binding expiry and
re-binding included), notifier ticks and hotel-id timeouts, no sender has both `awaitingQuantity`
and `awaitingOrderId` set. -/
theorem pending_inputs_exclusive (menuDb : Dict (List MenuDoc)) (orderDb : List StoredOrder)
    (events : List Event) (s : String) :
    ¬ (((run (World.init menuDb orderDb) events).awaitingQuantity.get s).isSome ∧
       ((run (World.init menuDb orderDb) events).awaitingOrderId.get s).isSome) := by
  intro ⟨hq, ho⟩
  have h := (reachable_inv menuDb orderDb events s).2.1 hq
  rw [h] at ho
  exact absurd ho (by simp)

set_option maxRecDepth 20000 in
theorem pending_inputs_exclusive_witness :
    (run (World.init exampleMenuDb []) trackingEvents).awaitingOrderId.get "919900000001" =
      some true ∧
    ¬ (((run (World.init exampleMenuDb []) trackingEvents).awaitingQuantity.get
          "919900000001").isSome ∧
       ((run (World.init exampleMenuDb []) trackingEvents).awaitingOrderId.get
          "919900000001").isSome) :=
  ⟨by decide, pending_inputs_exclusive exampleMenuDb [] trackingEvents "919900000001"⟩

/-! ### Inputs on which the arithmetic of Numbers is not exact -/

set_option maxRecDepth 20000 in
/-- C2 as stated fails: the cart of `2 ^ 53` portions of rice and one water, all prices, estimated
times and quantities positive integers, has price times quantity summing to 9007199254740993, and the
order summary reports the total 9007199254740992. -/
theorem order_summary_total_is_rounded :
    (∀ l ∈ [rice.toLine 9007199254740992, water.toLine 1],
      l.price.isInteger = true ∧ l.estimatedTime.isInteger = true ∧
        l.quantity.isInteger = true ∧ 0 < l.quantity) ∧
    specTotal [rice.toLine 9007199254740992, water.toLine 1] = 9007199254740993 ∧
    (sendOrderSummary (exampleEnv 1000) hugeCartWorld "919900000001").outbox =
      [.buttons "919900000001"
        "Order Summary:\nRice x 9007199254740992 = ₹9007199254740992\nWater x 1 = ₹1\nTotal Amount: ₹9007199254740992\nEstimated Waiting Time: 1 minutes\n\n\nPlease choose a payment method:"
        [⟨"PayOnline", "Pay Online"⟩, ⟨"PayCash", "Pay Cash"⟩,
         ⟨"DisconnectHotel", "Disconnect Hotel"⟩]] := by
  refine ⟨by decide!, by decide!, by decide!⟩

set_option maxRecDepth 20000 in
/-- C5 as stated fails: when the save of the notified status fails in the first tick (the failure is
only logged), the order store is as before, and a second tick in which everything succeeds sends the
notice again; when the query of the first tick fails, the second tick sends the notice that the first
did not send. -/
theorem second_tick_repeats_notice_after_failed_save :
    (checkForOrderUpdates (saveFailsEnv 1000 "write failed") tickWorld).orderDb = tickWorld.orderDb ∧
    (checkForOrderUpdates (saveFailsEnv 1000 "write failed") tickWorld).outbox =
      [.text "919900000001" "Your food is being cooked!",
       .buttons "919900000001" statusButtonText statusButtons] ∧
    (checkForOrderUpdates (exampleEnv 61000)
        (checkForOrderUpdates (saveFailsEnv 1000 "write failed") tickWorld)).outbox =
      [.text "919900000001" "Your food is being cooked!",
       .buttons "919900000001" statusButtonText statusButtons,
       .text "919900000001" "Your food is being cooked!",
       .buttons "919900000001" statusButtonText statusButtons] ∧
    (checkForOrderUpdates (readFailsEnv 1000) tickWorld).outbox = [] ∧
    (checkForOrderUpdates (exampleEnv 61000)
        (checkForOrderUpdates (readFailsEnv 1000) tickWorld)).outbox =
      [.text "919900000001" "Your food is being cooked!",
       .buttons "919900000001" statusButtonText statusButtons] := by
  refine ⟨by decide!, by decide!, by decide!, by decide!, by decide!⟩

set_option maxRecDepth 20000 in
/-- C9 as stated fails: for the cart of `2 ^ 53` portions of rice and one water, whose price times
quantity sums to 9007199254740993, `PayCash` persists an order with total 9007199254740992. -/
theorem payCash_total_is_rounded :
    specTotal [rice.toLine 9007199254740992, water.toLine 1] = 9007199254740993 ∧
    (webhook (exampleEnv 1000) hugeCartWorld "919900000001" "PayCash").orderDb =
      [⟨"h1",
        { sender := "919900000001",
          items := [⟨"r1", "Rice", 1, 9007199254740992, 1⟩, ⟨"w1", "Water", 1, 1, 1⟩],
          orderId := "48213377", totalAmount := 9007199254740992, paymentMethod := .Cash,
          paymentStatus := .Pending, date := 1000, status := .Pending,
          lastNotifiedStatus := .Pending }⟩] := by
  refine ⟨by decide!, by decide!⟩

set_option maxRecDepth 20000 in
/-- C18 as stated fails: for the cart of `2 ^ 53` portions of rice and one water the amount requested
is 900719925474099200, while 100 times the sum of price times quantity is 900719925474099300; and for
one samosa at the price 1.1 the amount requested is 110.00000000000001, which is neither 110 nor 100
times the price. -/
theorem payOnline_amount_is_rounded :
    specTotal [rice.toLine 9007199254740992, water.toLine 1] * 100 = 900719925474099300 ∧
    (webhook (exampleEnv 1000) hugeCartWorld "919900000001" "PayOnline").gatewayCalls =
      [.create 900719925474099200 "919900000001" "48213377"] ∧
    numToString samosa.price = "1.1" ∧
    (webhook (exampleEnv 1000) fractionWorld "919900000001" "PayOnline").gatewayCalls =
      [.create (.fin (7740561859543041 / 70368744177664)) "919900000001" "48213377"] ∧
    numToString (.fin (7740561859543041 / 70368744177664)) = "110.00000000000001" ∧
    (7740561859543041 / 70368744177664 : ℚ) ≠ 110 ∧
    (7740561859543041 / 70368744177664 : ℚ) ≠ specTotal [samosa.toLine 1] * 100 := by
  refine ⟨by decide!, by decide!, by decide!, by decide!, by decide!, by decide!, by decide!⟩

set_option maxRecDepth 100000 in
/-- C23 as stated fails: a sender who binds, selects the burger and answers `Qty_` followed by 309
nines has a cart line whose quantity is `Infinity`, which is not an integer. -/
theorem overlong_quantity_is_stored_as_infinity :
    cartItems (run (World.init exampleMenuDb []) overflowEvents) "919900000001" =
      [burger.toLine (.inf false)] ∧
    JsNum.isInteger (.inf false) = false := by
  refine ⟨by decide!, by decide!⟩

end SupFoodie
